import Mathlib

/-!
Verification of the sunrise_sunset calculator against its design specification.

The Python program `sunrise_sunset.py` is embedded shallowly over the real
numbers: `math.sin`/`cos`/`tan`/`asin`/`acos`/`atan` become the corresponding
`Real` functions (the library functions operate on radians; the program wraps
them with degree conversions), Python's `int()` truncation becomes `pyTrunc`,
`math.floor` becomes `Int.floor`, and the two library calls that can raise on
bad input (`math.acos`/`math.asin` outside `[-1, 1]`, and the range validation
performed by the `datetime.datetime` constructor) are modelled as `Except`
failures.
-/

namespace SunriseSunset

noncomputable section

open Real

/-- Conversion of degrees to radians, as performed by `math.radians`. -/
def radiansOf (d : ℝ) : ℝ := d * (Real.pi / 180)

/-- Conversion of radians to degrees, as performed by `math.degrees`. -/
def degreesOf (r : ℝ) : ℝ := r * (180 / Real.pi)

/-- Method `location.ss_sin`: sine of an angle given in degrees. -/
def ss_sin (d : ℝ) : ℝ := Real.sin (radiansOf d)

/-- Method `location.ss_cos`: cosine of an angle given in degrees. -/
def ss_cos (d : ℝ) : ℝ := Real.cos (radiansOf d)

/-- Method `location.ss_tan`: tangent of an angle given in degrees. -/
def ss_tan (d : ℝ) : ℝ := Real.tan (radiansOf d)

/-- Method `location.ss_asin`: inverse sine, result in degrees.
The domain check performed by `math.asin` is handled at the call site in
`ss_calc`; on the checked domain this is the value it returns. -/
def ss_asin (s : ℝ) : ℝ := degreesOf (Real.arcsin s)

/-- Method `location.ss_acos`: inverse cosine, result in degrees.
The domain check performed by `math.acos` is handled at the call site in
`ss_calc`; on the checked domain this is the value it returns. -/
def ss_acos (c : ℝ) : ℝ := degreesOf (Real.arccos c)

/-- Method `location.ss_atan`: inverse tangent, result in degrees. -/
def ss_atan (v : ℝ) : ℝ := degreesOf (Real.arctan v)

/-- Python's `int()` applied to a float: truncation toward zero. -/
def pyTrunc (x : ℝ) : ℤ := if 0 ≤ x then ⌊x⌋ else ⌈x⌉

/-- A calendar date as carried by a Python `datetime.date`. -/
structure Date where
  year : ℤ
  month : ℤ
  day : ℤ
deriving DecidableEq

/-- The exceptions the modelled code can raise. -/
inductive PyError where
  /-- `ValueError: math domain error`, raised by `math.acos` / `math.asin`
  on an argument outside `[-1, 1]`. -/
  | mathDomainError
  /-- `ValueError`, raised by the `datetime.datetime` constructor when a
  component is out of range. -/
  | dateValueError
  /-- `AssertionError`, raised by the `assert` statements in
  `location.__init__`. -/
  | assertionError
deriving DecidableEq

/-- The timezone tag attached to the result (`dateutil.tz.tzutc()`). -/
inductive Tzinfo where
  | utc
deriving DecidableEq

/-- A Python `datetime.datetime` value. -/
structure PyDatetime where
  year : ℤ
  month : ℤ
  day : ℤ
  hour : ℤ
  minute : ℤ
  second : ℤ
  tzinfo : Tzinfo
deriving DecidableEq

/-- Gregorian leap-year rule used by Python's `datetime` module. -/
def isLeapYear (y : ℤ) : Bool := (y % 4 == 0 && y % 100 != 0) || (y % 400 == 0)

/-- Number of days in a month, as validated by `datetime.datetime`. -/
def daysInMonth (y m : ℤ) : ℤ :=
  if m = 2 then (if isLeapYear y then 29 else 28)
  else if m = 4 ∨ m = 6 ∨ m = 9 ∨ m = 11 then 30
  else 31

/-- The `datetime.datetime(year, month, day, hour=..., minute=..., second=...,
tzinfo=...)` constructor, which validates every component and raises
`ValueError` when one is out of range. -/
def pyDatetime (year month day hour minute second : ℤ) (tz : Tzinfo) :
    Except PyError PyDatetime :=
  if 1 ≤ year ∧ year ≤ 9999 ∧ 1 ≤ month ∧ month ≤ 12 ∧
      1 ≤ day ∧ day ≤ daysInMonth year month ∧
      0 ≤ hour ∧ hour ≤ 23 ∧ 0 ≤ minute ∧ minute ≤ 59 ∧
      0 ≤ second ∧ second ≤ 59 then
    .ok ⟨year, month, day, hour, minute, second, tz⟩
  else .error .dateValueError

/-- Zenith conversion at the top of `ss_calc`: the four recognised selector
strings map to their degree values, and any other string silently falls
through to the default (official) value. -/
def zenithDeg (zenith : String) : ℝ :=
  if zenith = "official" then 90.0 + 50.0 / 60.0
  else if zenith = "civil" then 96.0
  else if zenith = "nautical" then 102.0
  else if zenith = "astronomical" then 108.0
  else 90.00 + 50.0 / 60.0

/-- Step 1 of `ss_calc`: the day-of-year `N`.  Python computes each term as
`math.floor` of a float division; on every value reachable here the float
quotient either is exact or lies well clear of an integer, so each term
equals the floor of the exact quotient, i.e. integer floor division. -/
def dayOfYearN (date : Date) : ℤ :=
  let N1 : ℤ := Int.fdiv (275 * date.month) 9
  let N2 : ℤ := Int.fdiv (date.month + 9) 12
  let N3 : ℤ := 1 + Int.fdiv (date.year - 4 * Int.fdiv date.year 4 + 2) 3
  N1 - N2 * N3 + date.day - 30

/-- Step 2 of `ss_calc`: the longitude expressed in hours. -/
def lngHour (lon : ℝ) : ℝ := lon / 15

/-- Step 2 of `ss_calc`: the approximate time `t`. -/
def approxT (lon : ℝ) (date : Date) (rising : Bool) : ℝ :=
  (dayOfYearN date : ℝ) +
    (if rising then (6 - lngHour lon) / 24 else (18 - lngHour lon) / 24)

/-- Step 3 of `ss_calc`: the Sun's mean anomaly. -/
def meanAnomaly (lon : ℝ) (date : Date) (rising : Bool) : ℝ :=
  (360 / 365.2596358) * approxT lon date rising - 3.289

/-- Step 4 of `ss_calc`: the Sun's true longitude before range adjustment. -/
def sunTrueLongPre (lon : ℝ) (date : Date) (rising : Bool) : ℝ :=
  meanAnomaly lon date rising + 1.916 * ss_sin (meanAnomaly lon date rising) +
    0.020 * ss_sin (2 * meanAnomaly lon date rising) + 282.634

/-- Step 4 of `ss_calc`: the Sun's true longitude after the single
add/subtract-360 adjustment. -/
def sunTrueLong (lon : ℝ) (date : Date) (rising : Bool) : ℝ :=
  if sunTrueLongPre lon date rising > 360.0 then sunTrueLongPre lon date rising - 360.0
  else if sunTrueLongPre lon date rising < 0.0 then sunTrueLongPre lon date rising + 360.0
  else sunTrueLongPre lon date rising

/-- Step 5a of `ss_calc`: the Sun's right ascension as returned by `atan`. -/
def rightAscensionRaw (lon : ℝ) (date : Date) (rising : Bool) : ℝ :=
  ss_atan (0.91764 * ss_tan (sunTrueLong lon date rising))

/-- Step 5a of `ss_calc`: the right ascension after the single
add/subtract-360 adjustment. -/
def rightAscensionNorm (lon : ℝ) (date : Date) (rising : Bool) : ℝ :=
  if rightAscensionRaw lon date rising > 360.0 then rightAscensionRaw lon date rising - 360.0
  else if rightAscensionRaw lon date rising < 0.0 then rightAscensionRaw lon date rising + 360.0
  else rightAscensionRaw lon date rising

/-- Step 5b of `ss_calc`: right ascension moved into the same quadrant
as the true longitude. -/
def rightAscensionQuad (lon : ℝ) (date : Date) (rising : Bool) : ℝ :=
  rightAscensionNorm lon date rising +
    ((⌊sunTrueLong lon date rising / 90.0⌋ : ℝ) * 90.0 -
      (⌊rightAscensionNorm lon date rising / 90.0⌋ : ℝ) * 90.0)

/-- Step 5c of `ss_calc`: right ascension converted to hours. -/
def rightAscensionHours (lon : ℝ) (date : Date) (rising : Bool) : ℝ :=
  rightAscensionQuad lon date rising / 15.0

/-- Step 6 of `ss_calc`: the sine of the Sun's declination. -/
def sinDec (lon : ℝ) (date : Date) (rising : Bool) : ℝ :=
  0.39782 * ss_sin (sunTrueLong lon date rising)

/-- Step 6 of `ss_calc`: the cosine of the Sun's declination. -/
def cosDec (lon : ℝ) (date : Date) (rising : Bool) : ℝ :=
  ss_cos (ss_asin (sinDec lon date rising))

/-- Step 7a of `ss_calc`: the cosine of the Sun's local hour angle. -/
def cosH (lat lon : ℝ) (date : Date) (zenith : String) (rising : Bool) : ℝ :=
  (ss_cos (zenithDeg zenith) - sinDec lon date rising * ss_sin lat) /
    (cosDec lon date rising * ss_cos lat)

/-- Step 7b of `ss_calc`: the hour angle `H`, in degrees.  This is the value
computed after the (unchecked) `acos` call succeeds. -/
def hourAngleDeg (lat lon : ℝ) (date : Date) (zenith : String) (rising : Bool) : ℝ :=
  if rising then 360 - ss_acos (cosH lat lon date zenith rising)
  else ss_acos (cosH lat lon date zenith rising)

/-- Step 8 of `ss_calc`: the local mean time `T`. -/
def localMeanTime (lat lon : ℝ) (date : Date) (zenith : String) (rising : Bool) : ℝ :=
  hourAngleDeg lat lon date zenith rising / 15.0 + rightAscensionHours lon date rising -
    0.06571 * approxT lon date rising - 6.622

/-- Step 9 of `ss_calc`: the UTC value before the add/subtract-24 wrap. -/
def utcPre (lat lon : ℝ) (date : Date) (zenith : String) (rising : Bool) : ℝ :=
  localMeanTime lat lon date zenith rising - lngHour lon

/-- Step 9 of `ss_calc`: the UTC value after the single add/subtract-24 wrap. -/
def utcWrapped (lat lon : ℝ) (date : Date) (zenith : String) (rising : Bool) : ℝ :=
  if utcPre lat lon date zenith rising > 24.0 then utcPre lat lon date zenith rising - 24.0
  else if utcPre lat lon date zenith rising < 0.0 then utcPre lat lon date zenith rising + 24.0
  else utcPre lat lon date zenith rising

/-- Step 10 of `ss_calc`: `local_hour = int(UTC)`. -/
def localHour (lat lon : ℝ) (date : Date) (zenith : String) (rising : Bool) : ℤ :=
  pyTrunc (utcWrapped lat lon date zenith rising)

/-- Step 10 of `ss_calc`: `local_minute = int((UTC - local_hour) * 60.0)`. -/
def localMinute (lat lon : ℝ) (date : Date) (zenith : String) (rising : Bool) : ℤ :=
  pyTrunc ((utcWrapped lat lon date zenith rising -
    (localHour lat lon date zenith rising : ℝ)) * 60.0)

/-- Step 10 of `ss_calc`: `local_second = int(local_second_dec * 3600.0)`
with `local_second_dec = UTC - local_hour - local_minute / 60.0`. -/
def localSecond (lat lon : ℝ) (date : Date) (zenith : String) (rising : Bool) : ℤ :=
  pyTrunc ((utcWrapped lat lon date zenith rising -
    (localHour lat lon date zenith rising : ℝ) -
    (localMinute lat lon date zenith rising : ℝ) / 60.0) * 3600.0)

/-- The whole of `location.ss_calc`.  The two places where the modelled code
can raise are the `math.asin` call inside the declination computation
(step 6) and the unchecked `math.acos` call (step 7b); after those, the
`datetime.datetime` constructor validates the computed components. -/
def ss_calc (lat lon : ℝ) (date : Date) (zenith : String) (rising : Bool) :
    Except PyError PyDatetime :=
  if |sinDec lon date rising| ≤ 1 then
    if |cosH lat lon date zenith rising| ≤ 1 then
      pyDatetime date.year date.month date.day
        (localHour lat lon date zenith rising)
        (localMinute lat lon date zenith rising)
        (localSecond lat lon date zenith rising) .utc
    else .error .mathDomainError
  else .error .mathDomainError

/-- The zenith name used in the step-0 diagnostic message: the unrecognised
case is renamed to `"default (official)"` before the message is emitted. -/
def zenithName (zenith : String) : String :=
  if zenith = "official" ∨ zenith = "civil" ∨ zenith = "nautical" ∨
      zenith = "astronomical" then zenith
  else "default (official)"

/-- The diagnostic messages `ss_calc` can print, with their numeric payloads.
String formatting is not modelled; each constructor records which message was
printed and the values interpolated into it. -/
inductive Msg where
  | usingZenith (zenith : String) (deg : ℝ)
  | dayOfYearIs (n : ℤ)
  | longitudeInHours (h : ℝ)
  | approxTime (rising : Bool) (t : ℝ)
  | meanAnomalyIs (m : ℝ)
  | trueLongitude (rising : Bool) (l : ℝ)
  | raBeforeQuadrant (rising : Bool) (ra : ℝ)
  | raAfterQuadrant (rising : Bool) (ra : ℝ)
  | raInHours (rising : Bool) (ra : ℝ)
  | declination (rising : Bool) (s c : ℝ)
  | localHourAngle (rising : Bool) (c : ℝ)
  | neverRises
  | neverSets
  | sunTimeHours (rising : Bool) (h : ℝ)
  | localMeanTimeIs (rising : Bool) (t : ℝ)
  | utcTime (rising : Bool) (u : ℝ)
  | localHMS (h m s : ℤ)

/-- The `local_template.message` method: the message is printed exactly when
its verbosity level does not exceed the instance's `verbose` attribute. -/
def gate (verbose lvl : ℤ) (m : Msg) : List Msg :=
  if lvl ≤ verbose then [m] else []

/-- The whole of `location.ss_calc` together with the diagnostic messages it
prints, in program order.  The first component is the list of printed
messages (cut short when an exception is raised), the second is the value
`ss_calc` returns or the exception it raises. -/
def ss_calcM (verbose : ℤ) (lat lon : ℝ) (date : Date) (zenith : String)
    (rising : Bool) : List Msg × Except PyError PyDatetime :=
  let pre := gate verbose 2 (.usingZenith (zenithName zenith) (zenithDeg zenith)) ++
    gate verbose 2 (.dayOfYearIs (dayOfYearN date)) ++
    gate verbose 3 (.longitudeInHours (lngHour lon)) ++
    gate verbose 3 (.approxTime rising (approxT lon date rising)) ++
    gate verbose 3 (.meanAnomalyIs (meanAnomaly lon date rising)) ++
    gate verbose 3 (.trueLongitude rising (sunTrueLong lon date rising)) ++
    gate verbose 3 (.raBeforeQuadrant rising (rightAscensionNorm lon date rising)) ++
    gate verbose 3 (.raAfterQuadrant rising (rightAscensionQuad lon date rising)) ++
    gate verbose 3 (.raInHours rising (rightAscensionHours lon date rising))
  if |sinDec lon date rising| ≤ 1 then
    let pre2 := pre ++
      gate verbose 3 (.declination rising (sinDec lon date rising) (cosDec lon date rising)) ++
      gate verbose 3 (.localHourAngle rising (cosH lat lon date zenith rising)) ++
      (if cosH lat lon date zenith rising > 1.0 then gate verbose 1 .neverRises else []) ++
      (if cosH lat lon date zenith rising < -1.0 then gate verbose 1 .neverSets else [])
    if |cosH lat lon date zenith rising| ≤ 1 then
      (pre2 ++
        gate verbose 3 (.sunTimeHours rising (hourAngleDeg lat lon date zenith rising / 15.0)) ++
        gate verbose 3 (.localMeanTimeIs rising (localMeanTime lat lon date zenith rising)) ++
        gate verbose 3 (.utcTime rising (utcWrapped lat lon date zenith rising)) ++
        gate verbose 2 (.localHMS (localHour lat lon date zenith rising)
          (localMinute lat lon date zenith rising) (localSecond lat lon date zenith rising)),
        pyDatetime date.year date.month date.day
          (localHour lat lon date zenith rising)
          (localMinute lat lon date zenith rising)
          (localSecond lat lon date zenith rising) .utc)
    else (pre2, .error .mathDomainError)
  else (pre, .error .mathDomainError)

/-- A well-formed proleptic Gregorian date, as the argument-validation layer
guarantees before `ss_calc` is reached. -/
def ValidDate (d : Date) : Prop :=
  1 ≤ d.month ∧ d.month ≤ 12 ∧ 1 ≤ d.day ∧ d.day ≤ daysInMonth d.year d.month

instance (d : Date) : Decidable (ValidDate d) := by
  unfold ValidDate; infer_instance

/-- A property holding of the returned value whenever the computation does
not raise. -/
def onOk (r : Except PyError PyDatetime) (P : PyDatetime → Prop) : Prop :=
  match r with
  | .ok dt => P dt
  | .error _ => True

/-- A dynamically-typed Python value, as far as the constructor's `assert
type(...) == float` checks can distinguish them. -/
inductive PyVal where
  | float (x : ℝ)
  | intv (n : ℤ)
  | boolv (b : Bool)
  | strv (s : String)

/-- Whether `type(v) == float` holds. -/
def PyVal.isFloat : PyVal → Bool
  | .float _ => true
  | _ => false

/-- The observable outcome of `location.__init__(latitude, longitude)`: its
two `assert type(...) == float` statements raise `AssertionError` unless
both arguments are floats, in which case the attributes store the arguments
unchanged. -/
def location_init (latitude longitude : PyVal) : Except PyError (ℝ × ℝ) :=
  match latitude, longitude with
  | .float a, .float b => .ok (a, b)
  | _, _ => .error .assertionError

end

/-- Claim C5: whenever `ss_calc` returns, the year, month and day of the
returned timestamp are the input date's components unchanged and the
timezone tag is UTC; only hour, minute and second are computed. -/
theorem C5_frame_effect (lat lon : ℝ) (date : Date) (zenith : String) (rising : Bool) :
    (ss_calc lat lon date zenith rising).map
      (fun dt => (dt.year, dt.month, dt.day, dt.tzinfo)) =
    (ss_calc lat lon date zenith rising).map
      (fun _ => (date.year, date.month, date.day, Tzinfo.utc)) := by
  unfold ss_calc pyDatetime
  split_ifs <;> rfl

/-- Claim C7: the value returned by `ss_calc` does not depend on the
verbosity setting or on the message machinery: for any two verbosity levels
the message-producing computation returns the same value, and that value is
the pure function `ss_calc` of the four inputs alone. -/
theorem C7_deterministic (v v' : ℤ) (lat lon : ℝ) (date : Date) (zenith : String)
    (rising : Bool) :
    (ss_calcM v lat lon date zenith rising).2 = ss_calc lat lon date zenith rising ∧
    (ss_calcM v lat lon date zenith rising).2 = (ss_calcM v' lat lon date zenith rising).2 := by
  have h : ∀ w : ℤ, (ss_calcM w lat lon date zenith rising).2 =
      ss_calc lat lon date zenith rising := by
    intro w
    unfold ss_calcM ss_calc
    split_ifs <;> rfl
  exact ⟨h v, (h v).trans (h v').symm⟩

/-- Claim C2 (divergence witness): an unrecognised zenith selector is not
rejected; `ss_calc` silently substitutes the official zenith, returning
exactly what it returns for `"official"`. -/
theorem C2_unknown_zenith_defaults (lat lon : ℝ) (date : Date) (rising : Bool)
    (z : String) (h1 : z ≠ "official") (h2 : z ≠ "civil") (h3 : z ≠ "nautical")
    (h4 : z ≠ "astronomical") :
    ss_calc lat lon date z rising = ss_calc lat lon date "official" rising := by
  have hz : zenithDeg z = zenithDeg "official" := by
    unfold zenithDeg
    rw [if_neg h1, if_neg h2, if_neg h3, if_neg h4, if_pos rfl]
    norm_num
  have hcos : cosH lat lon date z rising = cosH lat lon date "official" rising := by
    unfold cosH; rw [hz]
  have hha : hourAngleDeg lat lon date z rising = hourAngleDeg lat lon date "official" rising := by
    unfold hourAngleDeg; rw [hcos]
  have hlmt : localMeanTime lat lon date z rising =
      localMeanTime lat lon date "official" rising := by
    unfold localMeanTime; rw [hha]
  have hupre : utcPre lat lon date z rising = utcPre lat lon date "official" rising := by
    unfold utcPre; rw [hlmt]
  have huw : utcWrapped lat lon date z rising = utcWrapped lat lon date "official" rising := by
    unfold utcWrapped; rw [hupre]
  have hlh : localHour lat lon date z rising = localHour lat lon date "official" rising := by
    unfold localHour; rw [huw]
  have hlm : localMinute lat lon date z rising = localMinute lat lon date "official" rising := by
    unfold localMinute; rw [huw, hlh]
  have hls : localSecond lat lon date z rising = localSecond lat lon date "official" rising := by
    unfold localSecond; rw [huw, hlh, hlm]
  unfold ss_calc
  rw [hcos, hlh, hlm, hls]

/-- Witness for C2 at a concrete unrecognised selector. -/
theorem C2_unknown_zenith_defaults_witness :
    ss_calc 51.41416666 (-1.515) ⟨2022, 11, 22⟩ "twilight" true =
    ss_calc 51.41416666 (-1.515) ⟨2022, 11, 22⟩ "official" true :=
  C2_unknown_zenith_defaults 51.41416666 (-1.515) ⟨2022, 11, 22⟩ true "twilight"
    (by decide) (by decide) (by decide) (by decide)

/-- Claim C4, amended part: every timestamp `ss_calc` actually returns has
hour in `[0, 23]`, minute in `[0, 59]` and second in `[0, 59]` (the
`datetime.datetime` constructor validates the components and the
computation raises instead of returning when they are out of range). -/
theorem C4_component_ranges (lat lon : ℝ) (date : Date) (zenith : String) (rising : Bool) :
    onOk (ss_calc lat lon date zenith rising) fun dt =>
      0 ≤ dt.hour ∧ dt.hour ≤ 23 ∧ 0 ≤ dt.minute ∧ dt.minute ≤ 59 ∧
      0 ≤ dt.second ∧ dt.second ≤ 59 := by
  unfold ss_calc pyDatetime
  split_ifs with h1 h2 h3
  · exact ⟨h3.2.2.2.2.2.2.1, h3.2.2.2.2.2.2.2.1, h3.2.2.2.2.2.2.2.2.1,
      h3.2.2.2.2.2.2.2.2.2.1, h3.2.2.2.2.2.2.2.2.2.2.1, h3.2.2.2.2.2.2.2.2.2.2.2⟩
  · trivial
  · trivial
  · trivial

/-- Claim C10: the `location` constructor accepts exactly float arguments:
it raises `AssertionError` unless both `latitude` and `longitude` are
floats, and for float arguments it succeeds and stores them unchanged. -/
theorem C10_constructor_type_assertions :
    (∀ a b : PyVal, (location_init a b = .error .assertionError ↔
        ¬(a.isFloat = true ∧ b.isFloat = true))) ∧
    ∀ x y : ℝ, location_init (.float x) (.float y) = .ok (x, y) := by
  constructor
  · intro a b
    cases a <;> cases b <;> simp [location_init, PyVal.isFloat]
  · intro x y
    rfl

/-- Claim C6 (counterexample): 2024-12-31 is a valid proleptic Gregorian
date, and the day-of-year formula evaluates to 366 on it, outside the
claimed range `[1, 365]`. -/
theorem C6_dayOfYear_366_on_leap_dec31 :
    ValidDate ⟨2024, 12, 31⟩ ∧ dayOfYearN ⟨2024, 12, 31⟩ = 366 := by
  constructor
  · decide
  · decide

/-- Claim C6, amended: for every valid proleptic Gregorian date the
day-of-year formula produces an integer in `[1, 366]` (366 is attained on
December 31 of years divisible by 4). -/
theorem C6_dayOfYear_range (d : Date) (h : ValidDate d) :
    1 ≤ dayOfYearN d ∧ dayOfYearN d ≤ 366 := by
  obtain ⟨y, m, day⟩ := d
  obtain ⟨h1, h2, h3, h4⟩ := h
  simp only at h1 h2 h3 h4
  unfold dayOfYearN
  simp only
  rw [Int.fdiv_eq_ediv _ (by norm_num : (0:ℤ) ≤ 9),
    Int.fdiv_eq_ediv _ (by norm_num : (0:ℤ) ≤ 12),
    Int.fdiv_eq_ediv _ (by norm_num : (0:ℤ) ≤ 4),
    Int.fdiv_eq_ediv _ (by norm_num : (0:ℤ) ≤ 3)]
  unfold daysInMonth at h4
  interval_cases m <;> split_ifs at h4 <;> omega

/-- Witness for the amended C6 at a concrete date. -/
theorem C6_dayOfYear_range_witness :
    ValidDate ⟨2022, 11, 22⟩ ∧ 1 ≤ dayOfYearN ⟨2022, 11, 22⟩ ∧
      dayOfYearN ⟨2022, 11, 22⟩ ≤ 366 :=
  ⟨by decide, C6_dayOfYear_range ⟨2022, 11, 22⟩ (by decide)⟩

/-- Degree-radian round trip. -/
theorem radiansOf_degreesOf (x : ℝ) : radiansOf (degreesOf x) = x := by
  unfold radiansOf degreesOf
  field_simp

/-- The cosine of the declination is strictly positive: its argument is the
arcsine of a value of magnitude at most `0.39782`. -/
theorem cosDec_pos (lon : ℝ) (date : Date) (rising : Bool) :
    0 < cosDec lon date rising := by
  unfold cosDec ss_cos ss_asin
  rw [radiansOf_degreesOf, Real.cos_arcsin]
  have hs : |ss_sin (sunTrueLong lon date rising)| ≤ 1 := by
    unfold ss_sin; exact Real.abs_sin_le_one _
  have habs : |sinDec lon date rising| ≤ 0.39782 := by
    unfold sinDec
    rw [abs_mul]
    calc |(0.39782 : ℝ)| * |ss_sin (sunTrueLong lon date rising)| ≤ 0.39782 * 1 := by
          rw [abs_of_nonneg (by norm_num : (0:ℝ) ≤ 0.39782)]
          exact mul_le_mul_of_nonneg_left hs (by norm_num)
      _ = 0.39782 := by norm_num
  have h1 : sinDec lon date rising ^ 2 ≤ 0.39782 ^ 2 := by
    rw [← sq_abs]
    exact pow_le_pow_left (abs_nonneg _) habs 2
  apply Real.sqrt_pos.mpr
  nlinarith

/-- Real arccosine is antitone. -/
theorem arccos_antitone {x y : ℝ} (h : x ≤ y) : Real.arccos y ≤ Real.arccos x := by
  unfold Real.arccos
  have := Real.monotone_arcsin h
  linarith

/-- Monotonicity of the pre-wrap UTC value in the zenith angle: a larger
zenith degree value makes the rising-instant value smaller-or-equal and the
setting-instant value larger-or-equal, for any latitude strictly between
the poles. -/
theorem utcPre_zenith_mono (lat lon : ℝ) (date : Date) (h1 : -90 < lat) (h2 : lat < 90)
    (z1 z2 : String) (hz : zenithDeg z1 ≤ zenithDeg z2) (hz0 : 0 ≤ zenithDeg z1)
    (hz180 : zenithDeg z2 ≤ 180) :
    utcPre lat lon date z2 true ≤ utcPre lat lon date z1 true ∧
    utcPre lat lon date z1 false ≤ utcPre lat lon date z2 false := by
  have hpi := Real.pi_pos
  have hcoslat : 0 < ss_cos lat := by
    unfold ss_cos radiansOf
    apply Real.cos_pos_of_mem_Ioo
    constructor
    · calc -(Real.pi / 2) = (-90) * (Real.pi / 180) := by ring
        _ < lat * (Real.pi / 180) := by
            apply mul_lt_mul_of_pos_right _ (by positivity)
            linarith
    · calc lat * (Real.pi / 180) < 90 * (Real.pi / 180) := by
            apply mul_lt_mul_of_pos_right _ (by positivity)
            linarith
        _ = Real.pi / 2 := by ring
  have key : ∀ r : Bool, ss_acos (cosH lat lon date z1 r) ≤ ss_acos (cosH lat lon date z2 r) := by
    intro r
    have hB : 0 < cosDec lon date r * ss_cos lat := mul_pos (cosDec_pos lon date r) hcoslat
    have hcz : ss_cos (zenithDeg z2) ≤ ss_cos (zenithDeg z1) := by
      unfold ss_cos radiansOf
      apply Real.cos_le_cos_of_nonneg_of_le_pi
      · positivity
      · calc zenithDeg z2 * (Real.pi / 180) ≤ 180 * (Real.pi / 180) := by
              apply mul_le_mul_of_nonneg_right hz180 (by positivity)
          _ = Real.pi := by ring
      · exact mul_le_mul_of_nonneg_right hz (by positivity)
    have hch : cosH lat lon date z2 r ≤ cosH lat lon date z1 r := by
      unfold cosH
      gcongr
    unfold ss_acos degreesOf
    exact mul_le_mul_of_nonneg_right (arccos_antitone hch) (by positivity)
  constructor
  · have h := key true
    unfold utcPre localMeanTime hourAngleDeg
    simp only [reduceIte]
    linarith
  · have h := key false
    unfold utcPre localMeanTime hourAngleDeg
    simp only [Bool.false_eq_true, reduceIte]
    linarith

/-- Evaluation of the four recognised zenith selectors. -/
theorem zenithDeg_values :
    zenithDeg "official" = 90.0 + 50.0 / 60.0 ∧ zenithDeg "civil" = 96.0 ∧
    zenithDeg "nautical" = 102.0 ∧ zenithDeg "astronomical" = 108.0 := by
  refine ⟨?_, ?_, ?_, ?_⟩ <;> unfold zenithDeg
  · rw [if_pos rfl]
  · rw [if_neg (by decide), if_pos rfl]
  · rw [if_neg (by decide), if_neg (by decide), if_pos rfl]
  · rw [if_neg (by decide), if_neg (by decide), if_neg (by decide), if_pos rfl]

/-- Claim C8, amended: for any latitude strictly between the poles the
zenith ordering holds of the step-9 pre-wrap UTC values: rising values are
ordered astronomical ≤ nautical ≤ civil ≤ official, setting values the
reverse.  (After the single add/subtract-24 wrap of step 9, the clock times
actually returned can violate this ordering; see the counterexample.) -/
theorem C8_prewrap_zenith_order (lat lon : ℝ) (date : Date)
    (h1 : -90 < lat) (h2 : lat < 90) :
    (utcPre lat lon date "astronomical" true ≤ utcPre lat lon date "nautical" true ∧
     utcPre lat lon date "nautical" true ≤ utcPre lat lon date "civil" true ∧
     utcPre lat lon date "civil" true ≤ utcPre lat lon date "official" true) ∧
    (utcPre lat lon date "official" false ≤ utcPre lat lon date "civil" false ∧
     utcPre lat lon date "civil" false ≤ utcPre lat lon date "nautical" false ∧
     utcPre lat lon date "nautical" false ≤ utcPre lat lon date "astronomical" false) := by
  obtain ⟨ho, hc, hn, ha⟩ := zenithDeg_values
  have m1 := utcPre_zenith_mono lat lon date h1 h2 "official" "civil"
    (by rw [ho, hc]; norm_num) (by rw [ho]; norm_num) (by rw [hc]; norm_num)
  have m2 := utcPre_zenith_mono lat lon date h1 h2 "civil" "nautical"
    (by rw [hc, hn]; norm_num) (by rw [hc]; norm_num) (by rw [hn]; norm_num)
  have m3 := utcPre_zenith_mono lat lon date h1 h2 "nautical" "astronomical"
    (by rw [hn, ha]; norm_num) (by rw [hn]; norm_num) (by rw [ha]; norm_num)
  exact ⟨⟨m3.1, m2.1, m1.1⟩, ⟨m1.2, m2.2, m3.2⟩⟩

/-- Witness for the amended C8 at the concrete test location and date. -/
theorem C8_prewrap_zenith_order_witness :
    utcPre 51.41416666 (-1.515) ⟨2022, 11, 22⟩ "astronomical" true ≤
      utcPre 51.41416666 (-1.515) ⟨2022, 11, 22⟩ "nautical" true ∧
    utcPre 51.41416666 (-1.515) ⟨2022, 11, 22⟩ "official" false ≤
      utcPre 51.41416666 (-1.515) ⟨2022, 11, 22⟩ "civil" false := by
  have h := C8_prewrap_zenith_order 51.41416666 (-1.515) ⟨2022, 11, 22⟩
    (by norm_num) (by norm_num)
  exact ⟨h.1.1, h.2.1⟩

/-!
Numeric evaluation engine: rational enclosures for the trigonometric
functions at concrete arguments, used to evaluate the modelled pipeline at
the concrete inputs appearing in the claims.
-/

/-- Sine is bounded by its argument in absolute value. -/
theorem abs_sin_le_abs (t : ℝ) : |Real.sin t| ≤ |t| := by
  rcases le_or_lt 1 |t| with h | h
  · exact (Real.abs_sin_le_one t).trans h
  · rcases lt_trichotomy t 0 with ht | rfl | ht
    · have hpi := Real.pi_gt_three
      have hneg : Real.sin t < 0 := by
        apply Real.sin_neg_of_neg_of_neg_pi_lt ht
        have : -1 < t := by
          have := abs_lt.mp h
          linarith [this.1]
        linarith
      rw [abs_of_neg hneg, abs_of_neg ht, ← Real.sin_neg]
      exact le_of_lt (Real.sin_lt (by linarith))
    · simp
    · have hpos : 0 < Real.sin t := by
        apply Real.sin_pos_of_pos_of_lt_pi ht
        have := abs_lt.mp h
        linarith [Real.pi_gt_three, this.2]
      rw [abs_of_pos hpos, abs_of_pos ht]
      exact le_of_lt (Real.sin_lt ht)

/-- Sine is 1-Lipschitz. -/
theorem sin_lipschitz (a b : ℝ) : |Real.sin a - Real.sin b| ≤ |a - b| := by
  rw [Real.sin_sub_sin, abs_mul, abs_mul, abs_two]
  have h1 := abs_sin_le_abs ((a - b) / 2)
  have h2 := Real.abs_cos_le_one ((a + b) / 2)
  have h3 : |(a - b) / 2| = |a - b| / 2 := by
    rw [abs_div]
    norm_num
  nlinarith [abs_nonneg (Real.sin ((a - b) / 2)), abs_nonneg (a - b)]

/-- Cosine is 1-Lipschitz. -/
theorem cos_lipschitz (a b : ℝ) : |Real.cos a - Real.cos b| ≤ |a - b| := by
  rw [Real.cos_sub_cos, abs_mul, abs_mul]
  have h0 : |(-2 : ℝ)| = 2 := by norm_num
  rw [h0]
  have h1 := abs_sin_le_abs ((a - b) / 2)
  have h2 := Real.abs_sin_le_one ((a + b) / 2)
  have h3 : |(a - b) / 2| = |a - b| / 2 := by
    rw [abs_div]
    norm_num
  nlinarith [abs_nonneg (Real.sin ((a + b) / 2)), abs_nonneg (a - b)]

/-- Degree-11 Taylor polynomial of sine. -/
noncomputable def sinP (m : ℝ) : ℝ :=
  m - m ^ 3 / 6 + m ^ 5 / 120 - m ^ 7 / 5040 + m ^ 9 / 362880 - m ^ 11 / 39916800

/-- Degree-10 Taylor polynomial of cosine. -/
noncomputable def cosP (m : ℝ) : ℝ :=
  1 - m ^ 2 / 2 + m ^ 4 / 24 - m ^ 6 / 720 + m ^ 8 / 40320 - m ^ 10 / 3628800

/-- Alternating-series enclosure of sine by its Taylor polynomial on
`[0, 1.2]`. -/
theorem sin_taylor {x : ℝ} (h0 : 0 ≤ x) (h1 : x ≤ 1.2) :
    sinP x ≤ Real.sin x ∧ Real.sin x ≤ sinP x + x ^ 13 / 6227020800 := by
  have hs := Real.hasSum_sin x
  have htend := hs.tendsto_sum_nat
  have hfun : (fun n : ℕ => (-1 : ℝ) ^ n * x ^ (2 * n + 1) / (Nat.factorial (2 * n + 1) : ℝ)) =
      fun n : ℕ => (-1 : ℝ) ^ n * (x ^ (2 * n + 1) / (Nat.factorial (2 * n + 1) : ℝ)) := by
    funext n
    rw [mul_div_assoc]
  rw [hfun] at htend
  have hanti : Antitone fun n : ℕ => x ^ (2 * n + 1) / (Nat.factorial (2 * n + 1) : ℝ) := by
    apply antitone_nat_of_succ_le
    intro n
    have hfact : (Nat.factorial (2 * (n + 1) + 1) : ℝ) =
        (Nat.factorial (2 * n + 1) : ℝ) * ((2 * (n : ℝ) + 2) * (2 * (n : ℝ) + 3)) := by
      have hidx : 2 * (n + 1) + 1 = (2 * n + 1 + 1) + 1 := by ring
      rw [hidx, Nat.factorial_succ, Nat.factorial_succ]
      push_cast
      ring
    have hpow : x ^ (2 * (n + 1) + 1) = x ^ (2 * n + 1) * x ^ 2 := by
      rw [show 2 * (n + 1) + 1 = (2 * n + 1) + 2 from by omega, pow_add]
    rw [hfact, hpow]
    have hfpos : (0 : ℝ) < (Nat.factorial (2 * n + 1) : ℝ) := by
      exact_mod_cast Nat.factorial_pos _
    have hden : (0 : ℝ) < (2 * (n : ℝ) + 2) * (2 * (n : ℝ) + 3) := by positivity
    rw [div_le_div_iff (by positivity) hfpos]
    have hx2 : x ^ 2 ≤ 2 := by nlinarith
    have hge : (6 : ℝ) ≤ (2 * (n : ℝ) + 2) * (2 * (n : ℝ) + 3) := by
      nlinarith [Nat.cast_nonneg (α := ℝ) n]
    have hxden : x ^ 2 ≤ (2 * (n : ℝ) + 2) * (2 * (n : ℝ) + 3) := hx2.trans (by linarith)
    nlinarith [mul_le_mul_of_nonneg_left hxden
      (mul_nonneg (pow_nonneg h0 (2 * n + 1)) hfpos.le)]
  have hlow := hanti.alternating_series_le_tendsto htend 3
  have hhigh := hanti.tendsto_le_alternating_series htend 3
  have hsum6 : ∑ i ∈ Finset.range (2 * 3), (-1 : ℝ) ^ i * (x ^ (2 * i + 1) / (Nat.factorial (2 * i + 1) : ℝ)) = sinP x := by
    simp [Finset.sum_range_succ, Nat.factorial, sinP]
    try ring
  have hsum7 : ∑ i ∈ Finset.range (2 * 3 + 1), (-1 : ℝ) ^ i * (x ^ (2 * i + 1) / (Nat.factorial (2 * i + 1) : ℝ)) =
      sinP x + x ^ 13 / 6227020800 := by
    simp [Finset.sum_range_succ, Nat.factorial, sinP]
    try ring
  rw [hsum6] at hlow
  rw [hsum7] at hhigh
  exact ⟨hlow, hhigh⟩

/-- Alternating-series enclosure of cosine by its Taylor polynomial on
`[0, 1.2]`. -/
theorem cos_taylor {x : ℝ} (h0 : 0 ≤ x) (h1 : x ≤ 1.2) :
    cosP x ≤ Real.cos x ∧ Real.cos x ≤ cosP x + x ^ 12 / 479001600 := by
  have hs := Real.hasSum_cos x
  have htend := hs.tendsto_sum_nat
  have hfun : (fun n : ℕ => (-1 : ℝ) ^ n * x ^ (2 * n) / (Nat.factorial (2 * n) : ℝ)) =
      fun n : ℕ => (-1 : ℝ) ^ n * (x ^ (2 * n) / (Nat.factorial (2 * n) : ℝ)) := by
    funext n
    rw [mul_div_assoc]
  rw [hfun] at htend
  have hanti : Antitone fun n : ℕ => x ^ (2 * n) / (Nat.factorial (2 * n) : ℝ) := by
    apply antitone_nat_of_succ_le
    intro n
    have hfact : (Nat.factorial (2 * (n + 1)) : ℝ) =
        (Nat.factorial (2 * n) : ℝ) * ((2 * (n : ℝ) + 1) * (2 * (n : ℝ) + 2)) := by
      have hidx : 2 * (n + 1) = (2 * n + 1) + 1 := by ring
      rw [hidx, Nat.factorial_succ, Nat.factorial_succ]
      push_cast
      ring
    have hpow : x ^ (2 * (n + 1)) = x ^ (2 * n) * x ^ 2 := by
      rw [show 2 * (n + 1) = 2 * n + 2 from by omega, pow_add]
    rw [hfact, hpow]
    have hfpos : (0 : ℝ) < (Nat.factorial (2 * n) : ℝ) := by
      exact_mod_cast Nat.factorial_pos _
    rw [div_le_div_iff (by positivity) hfpos]
    have hx2 : x ^ 2 ≤ 2 := by nlinarith
    have hge : (2 : ℝ) ≤ (2 * (n : ℝ) + 1) * (2 * (n : ℝ) + 2) := by
      nlinarith [Nat.cast_nonneg (α := ℝ) n]
    have hxden : x ^ 2 ≤ (2 * (n : ℝ) + 1) * (2 * (n : ℝ) + 2) := hx2.trans (by linarith)
    nlinarith [mul_le_mul_of_nonneg_left hxden
      (mul_nonneg (pow_nonneg h0 (2 * n)) hfpos.le)]
  have hlow := hanti.alternating_series_le_tendsto htend 3
  have hhigh := hanti.tendsto_le_alternating_series htend 3
  have hsum6 : ∑ i ∈ Finset.range (2 * 3), (-1 : ℝ) ^ i * (x ^ (2 * i) / (Nat.factorial (2 * i) : ℝ)) = cosP x := by
    simp [Finset.sum_range_succ, Nat.factorial, cosP]
    try ring
  have hsum7 : ∑ i ∈ Finset.range (2 * 3 + 1), (-1 : ℝ) ^ i * (x ^ (2 * i) / (Nat.factorial (2 * i) : ℝ)) =
      cosP x + x ^ 12 / 479001600 := by
    simp [Finset.sum_range_succ, Nat.factorial, cosP]
    try ring
  rw [hsum6] at hlow
  rw [hsum7] at hhigh
  exact ⟨hlow, hhigh⟩

/-- Degree-radian round trip, other direction. -/
theorem degreesOf_radiansOf (x : ℝ) : degreesOf (radiansOf x) = x := by
  unfold radiansOf degreesOf
  field_simp

/-- Distance of `radiansOf D` to a rational midpoint, from rational bounds
on `D` and the 20-digit bounds on `π`. -/
theorem radiansOf_near {D lo hi m w : ℝ} (h1 : lo ≤ D) (h2 : D ≤ hi)
    (ha : 180 * (m - w) ≤ lo * 3.14159265358979323846)
    (ha' : 180 * (m - w) ≤ lo * 3.14159265358979323847)
    (hb : hi * 3.14159265358979323846 ≤ 180 * (m + w))
    (hb' : hi * 3.14159265358979323847 ≤ 180 * (m + w)) :
    |radiansOf D - m| ≤ w := by
  have hπ1 := Real.pi_gt_d20
  have hπ2 := Real.pi_lt_d20
  unfold radiansOf
  rw [abs_sub_le_iff]
  constructor
  · rcases le_or_lt 0 D with hD | hD
    · nlinarith [mul_le_mul_of_nonneg_left hπ2.le hD,
        mul_le_mul_of_nonneg_right h2 (by norm_num : (0:ℝ) ≤ 3.14159265358979323847)]
    · nlinarith [mul_le_mul_of_nonpos_left hπ1.le hD.le,
        mul_le_mul_of_nonneg_right h2 (by norm_num : (0:ℝ) ≤ 3.14159265358979323846)]
  · rcases le_or_lt 0 D with hD | hD
    · nlinarith [mul_le_mul_of_nonneg_left hπ1.le hD,
        mul_le_mul_of_nonneg_right h1 (by norm_num : (0:ℝ) ≤ 3.14159265358979323846)]
    · nlinarith [mul_le_mul_of_nonpos_left hπ2.le hD.le,
        mul_le_mul_of_nonneg_right h1 (by norm_num : (0:ℝ) ≤ 3.14159265358979323847)]

/-- Enclosure of sine near a nonnegative rational midpoint. -/
theorem sin_ival {y m w : ℝ} (hw : |y - m| ≤ w) (hm0 : 0 ≤ m) (hm1 : m ≤ 1.2) :
    sinP m - w ≤ Real.sin y ∧ Real.sin y ≤ sinP m + m ^ 13 / 6227020800 + w := by
  have ht := sin_taylor hm0 hm1
  have hl := sin_lipschitz y m
  have h1 := abs_sub_le_iff.mp (hl.trans hw)
  exact ⟨by linarith [ht.1, h1.2], by linarith [ht.2, h1.1]⟩

/-- Enclosure of sine near a nonpositive rational midpoint `-m`. -/
theorem sin_ival_neg {y m w : ℝ} (hw : |y + m| ≤ w) (hm0 : 0 ≤ m) (hm1 : m ≤ 1.2) :
    -(sinP m + m ^ 13 / 6227020800 + w) ≤ Real.sin y ∧ Real.sin y ≤ -(sinP m - w) := by
  have hw' : |(-y) - m| ≤ w := by
    rw [show (-y) - m = -(y + m) by ring, abs_neg]
    exact hw
  have h := sin_ival hw' hm0 hm1
  rw [Real.sin_neg] at h
  exact ⟨by linarith [h.2], by linarith [h.1]⟩

/-- Enclosure of cosine near a nonnegative rational midpoint. -/
theorem cos_ival {y m w : ℝ} (hw : |y - m| ≤ w) (hm0 : 0 ≤ m) (hm1 : m ≤ 1.2) :
    cosP m - w ≤ Real.cos y ∧ Real.cos y ≤ cosP m + m ^ 12 / 479001600 + w := by
  have ht := cos_taylor hm0 hm1
  have hl := cos_lipschitz y m
  have h1 := abs_sub_le_iff.mp (hl.trans hw)
  exact ⟨by linarith [ht.1, h1.2], by linarith [ht.2, h1.1]⟩

/-- Enclosure of cosine near a nonpositive rational midpoint `-m` (cosine is
even, so the enclosure is the same as at `m`). -/
theorem cos_ival_neg {y m w : ℝ} (hw : |y + m| ≤ w) (hm0 : 0 ≤ m) (hm1 : m ≤ 1.2) :
    cosP m - w ≤ Real.cos y ∧ Real.cos y ≤ cosP m + m ^ 12 / 479001600 + w := by
  have hw' : |(-y) - m| ≤ w := by
    rw [show (-y) - m = -(y + m) by ring, abs_neg]
    exact hw
  have h := cos_ival hw' hm0 hm1
  rw [Real.cos_neg] at h
  exact h

/-- Quadrant shift: `sin` in degrees, by 90. -/
theorem ss_sin_shift90 (d : ℝ) : ss_sin d = ss_cos (d - 90) := by
  unfold ss_sin ss_cos radiansOf
  rw [show d * (Real.pi / 180) = (d - 90) * (Real.pi / 180) + Real.pi / 2 by ring]
  exact Real.sin_add_pi_div_two _

/-- Quadrant shift: `sin` in degrees, by 180. -/
theorem ss_sin_shift180 (d : ℝ) : ss_sin d = -ss_sin (d - 180) := by
  unfold ss_sin radiansOf
  rw [show d * (Real.pi / 180) = (d - 180) * (Real.pi / 180) + Real.pi by ring]
  rw [Real.sin_add_pi]

/-- Quadrant shift: `sin` in degrees, by 270. -/
theorem ss_sin_shift270 (d : ℝ) : ss_sin d = -ss_cos (d - 270) := by
  rw [ss_sin_shift180, ss_sin_shift90, show d - 180 - 90 = d - 270 by ring]

/-- Quadrant shift: `sin` in degrees, by 360. -/
theorem ss_sin_shift360 (d : ℝ) : ss_sin d = ss_sin (d - 360) := by
  unfold ss_sin radiansOf
  rw [show d * (Real.pi / 180) = (d - 360) * (Real.pi / 180) + 2 * Real.pi by ring]
  exact Real.sin_add_two_pi _

/-- Quadrant shift: `cos` in degrees, by 90. -/
theorem ss_cos_shift90 (d : ℝ) : ss_cos d = -ss_sin (d - 90) := by
  unfold ss_sin ss_cos radiansOf
  rw [show d * (Real.pi / 180) = (d - 90) * (Real.pi / 180) + Real.pi / 2 by ring]
  exact Real.cos_add_pi_div_two _

/-- Quadrant shift: `cos` in degrees, by 180. -/
theorem ss_cos_shift180 (d : ℝ) : ss_cos d = -ss_cos (d - 180) := by
  unfold ss_cos radiansOf
  rw [show d * (Real.pi / 180) = (d - 180) * (Real.pi / 180) + Real.pi by ring]
  rw [Real.cos_add_pi]

/-- Quadrant shift: `cos` in degrees, by 270. -/
theorem ss_cos_shift270 (d : ℝ) : ss_cos d = ss_sin (d - 270) := by
  rw [ss_cos_shift180, ss_cos_shift90, show d - 180 - 90 = d - 270 by ring]
  ring

/-- Quadrant shift: `cos` in degrees, by 360. -/
theorem ss_cos_shift360 (d : ℝ) : ss_cos d = ss_cos (d - 360) := by
  unfold ss_cos radiansOf
  rw [show d * (Real.pi / 180) = (d - 360) * (Real.pi / 180) + 2 * Real.pi by ring]
  exact Real.cos_add_two_pi _

/-- Rational enclosure of `ss_sin` after reduction to a nonnegative
midpoint, packaged for one-call use at concrete arguments. -/
theorem ss_sin_boundsPos (X lo hi m w a b : ℝ) (h1 : lo ≤ X) (h2 : X ≤ hi)
    (ha : 180 * (m - w) ≤ lo * 3.14159265358979323846)
    (ha' : 180 * (m - w) ≤ lo * 3.14159265358979323847)
    (hb : hi * 3.14159265358979323846 ≤ 180 * (m + w))
    (hb' : hi * 3.14159265358979323847 ≤ 180 * (m + w))
    (hm0 : 0 ≤ m) (hm1 : m ≤ 1.2)
    (hA : a ≤ sinP m - w) (hB : sinP m + m ^ 13 / 6227020800 + w ≤ b) :
    a ≤ ss_sin X ∧ ss_sin X ≤ b := by
  have hw := radiansOf_near h1 h2 ha ha' hb hb'
  have h := sin_ival hw hm0 hm1
  exact ⟨hA.trans h.1, h.2.trans hB⟩

/-- Rational enclosure of `ss_sin` after reduction to a negative midpoint. -/
theorem ss_sin_boundsNeg (X lo hi m w a b : ℝ) (h1 : lo ≤ X) (h2 : X ≤ hi)
    (ha : 180 * (-m - w) ≤ lo * 3.14159265358979323846)
    (ha' : 180 * (-m - w) ≤ lo * 3.14159265358979323847)
    (hb : hi * 3.14159265358979323846 ≤ 180 * (-m + w))
    (hb' : hi * 3.14159265358979323847 ≤ 180 * (-m + w))
    (hm0 : 0 ≤ m) (hm1 : m ≤ 1.2)
    (hA : a ≤ -(sinP m + m ^ 13 / 6227020800 + w)) (hB : -(sinP m - w) ≤ b) :
    a ≤ ss_sin X ∧ ss_sin X ≤ b := by
  have hw := radiansOf_near h1 h2 ha ha' hb hb'
  have hw' : |radiansOf X + m| ≤ w := by
    rw [show radiansOf X + m = radiansOf X - (-m) by ring]
    exact hw
  have h := sin_ival_neg hw' hm0 hm1
  exact ⟨hA.trans h.1, h.2.trans hB⟩

/-- Rational enclosure of `ss_cos` after reduction to a nonnegative
midpoint. -/
theorem ss_cos_boundsPos (X lo hi m w a b : ℝ) (h1 : lo ≤ X) (h2 : X ≤ hi)
    (ha : 180 * (m - w) ≤ lo * 3.14159265358979323846)
    (ha' : 180 * (m - w) ≤ lo * 3.14159265358979323847)
    (hb : hi * 3.14159265358979323846 ≤ 180 * (m + w))
    (hb' : hi * 3.14159265358979323847 ≤ 180 * (m + w))
    (hm0 : 0 ≤ m) (hm1 : m ≤ 1.2)
    (hA : a ≤ cosP m - w) (hB : cosP m + m ^ 12 / 479001600 + w ≤ b) :
    a ≤ ss_cos X ∧ ss_cos X ≤ b := by
  have hw := radiansOf_near h1 h2 ha ha' hb hb'
  have h := cos_ival hw hm0 hm1
  exact ⟨hA.trans h.1, h.2.trans hB⟩

/-- Rational enclosure of `ss_cos` after reduction to a negative midpoint. -/
theorem ss_cos_boundsNeg (X lo hi m w a b : ℝ) (h1 : lo ≤ X) (h2 : X ≤ hi)
    (ha : 180 * (-m - w) ≤ lo * 3.14159265358979323846)
    (ha' : 180 * (-m - w) ≤ lo * 3.14159265358979323847)
    (hb : hi * 3.14159265358979323846 ≤ 180 * (-m + w))
    (hb' : hi * 3.14159265358979323847 ≤ 180 * (-m + w))
    (hm0 : 0 ≤ m) (hm1 : m ≤ 1.2)
    (hA : a ≤ cosP m - w) (hB : cosP m + m ^ 12 / 479001600 + w ≤ b) :
    a ≤ ss_cos X ∧ ss_cos X ≤ b := by
  have hw := radiansOf_near h1 h2 ha ha' hb hb'
  have hw' : |radiansOf X + m| ≤ w := by
    rw [show radiansOf X + m = radiansOf X - (-m) by ring]
    exact hw
  have h := cos_ival_neg hw' hm0 hm1
  exact ⟨hA.trans h.1, h.2.trans hB⟩

/-- Upper bridge for `ss_asin`: compare with the sine of a degree bound. -/
theorem ss_asin_le {s b : ℝ} (hb : |b| ≤ 90) (h : s ≤ ss_sin b) : ss_asin s ≤ b := by
  have hπ := Real.pi_pos
  have hrb : radiansOf b ≤ Real.pi / 2 := by
    unfold radiansOf
    have := (abs_le.mp hb).2
    nlinarith
  have hrb' : -(Real.pi / 2) ≤ radiansOf b := by
    unfold radiansOf
    have := (abs_le.mp hb).1
    nlinarith
  have harc : Real.arcsin s ≤ radiansOf b := by
    calc Real.arcsin s ≤ Real.arcsin (Real.sin (radiansOf b)) := Real.monotone_arcsin h
      _ = radiansOf b := Real.arcsin_sin hrb' hrb
  calc ss_asin s = degreesOf (Real.arcsin s) := rfl
    _ ≤ degreesOf (radiansOf b) := mul_le_mul_of_nonneg_right harc (by positivity)
    _ = b := degreesOf_radiansOf b

/-- Lower bridge for `ss_asin`. -/
theorem ss_asin_ge {s b : ℝ} (hb : |b| ≤ 90) (h : ss_sin b ≤ s) : b ≤ ss_asin s := by
  have hπ := Real.pi_pos
  have hrb : radiansOf b ≤ Real.pi / 2 := by
    unfold radiansOf
    have := (abs_le.mp hb).2
    nlinarith
  have hrb' : -(Real.pi / 2) ≤ radiansOf b := by
    unfold radiansOf
    have := (abs_le.mp hb).1
    nlinarith
  have harc : radiansOf b ≤ Real.arcsin s := by
    calc radiansOf b = Real.arcsin (Real.sin (radiansOf b)) := (Real.arcsin_sin hrb' hrb).symm
      _ ≤ Real.arcsin s := Real.monotone_arcsin h
  calc b = degreesOf (radiansOf b) := (degreesOf_radiansOf b).symm
    _ ≤ degreesOf (Real.arcsin s) := mul_le_mul_of_nonneg_right harc (by positivity)
    _ = ss_asin s := rfl

/-- Upper bridge for `ss_acos`: compare with the cosine of a degree bound. -/
theorem ss_acos_le {c b : ℝ} (hb0 : 0 ≤ b) (hb1 : b ≤ 180) (h : ss_cos b ≤ c) :
    ss_acos c ≤ b := by
  have hπ := Real.pi_pos
  have hrb : radiansOf b ≤ Real.pi := by
    unfold radiansOf
    nlinarith
  have hrb' : 0 ≤ radiansOf b := by
    unfold radiansOf
    nlinarith
  have harc : Real.arccos c ≤ radiansOf b := by
    calc Real.arccos c ≤ Real.arccos (Real.cos (radiansOf b)) := arccos_antitone h
      _ = radiansOf b := Real.arccos_cos hrb' hrb
  calc ss_acos c = degreesOf (Real.arccos c) := rfl
    _ ≤ degreesOf (radiansOf b) := mul_le_mul_of_nonneg_right harc (by positivity)
    _ = b := degreesOf_radiansOf b

/-- Lower bridge for `ss_acos`. -/
theorem ss_acos_ge {c b : ℝ} (hb0 : 0 ≤ b) (hb1 : b ≤ 180) (h : c ≤ ss_cos b) :
    b ≤ ss_acos c := by
  have hπ := Real.pi_pos
  have hrb : radiansOf b ≤ Real.pi := by
    unfold radiansOf
    nlinarith
  have hrb' : 0 ≤ radiansOf b := by
    unfold radiansOf
    nlinarith
  have harc : radiansOf b ≤ Real.arccos c := by
    calc radiansOf b = Real.arccos (Real.cos (radiansOf b)) := (Real.arccos_cos hrb' hrb).symm
      _ ≤ Real.arccos c := arccos_antitone h
  calc b = degreesOf (radiansOf b) := (degreesOf_radiansOf b).symm
    _ ≤ degreesOf (Real.arccos c) := mul_le_mul_of_nonneg_right harc (by positivity)
    _ = ss_acos c := rfl

/-- Upper bridge for `ss_atan`: compare with the tangent of a degree bound. -/
theorem ss_atan_le {v b : ℝ} (hb : |b| < 90) (h : v ≤ ss_tan b) : ss_atan v ≤ b := by
  have hπ := Real.pi_pos
  have hrb : radiansOf b < Real.pi / 2 := by
    unfold radiansOf
    have := (abs_lt.mp hb).2
    nlinarith
  have hrb' : -(Real.pi / 2) < radiansOf b := by
    unfold radiansOf
    have := (abs_lt.mp hb).1
    nlinarith
  have harc : Real.arctan v ≤ radiansOf b := by
    calc Real.arctan v ≤ Real.arctan (Real.tan (radiansOf b)) :=
          Real.arctan_strictMono.monotone h
      _ = radiansOf b := Real.arctan_tan hrb' hrb
  calc ss_atan v = degreesOf (Real.arctan v) := rfl
    _ ≤ degreesOf (radiansOf b) := mul_le_mul_of_nonneg_right harc (by positivity)
    _ = b := degreesOf_radiansOf b

/-- Lower bridge for `ss_atan`. -/
theorem ss_atan_ge {v b : ℝ} (hb : |b| < 90) (h : ss_tan b ≤ v) : b ≤ ss_atan v := by
  have hπ := Real.pi_pos
  have hrb : radiansOf b < Real.pi / 2 := by
    unfold radiansOf
    have := (abs_lt.mp hb).2
    nlinarith
  have hrb' : -(Real.pi / 2) < radiansOf b := by
    unfold radiansOf
    have := (abs_lt.mp hb).1
    nlinarith
  have harc : radiansOf b ≤ Real.arctan v := by
    calc radiansOf b = Real.arctan (Real.tan (radiansOf b)) := (Real.arctan_tan hrb' hrb).symm
      _ ≤ Real.arctan v := Real.arctan_strictMono.monotone h
  calc b = degreesOf (radiansOf b) := (degreesOf_radiansOf b).symm
    _ ≤ degreesOf (Real.arctan v) := mul_le_mul_of_nonneg_right harc (by positivity)
    _ = ss_atan v := rfl

/-- Interval lower bound for a quotient with positive denominator. -/
theorem le_div_of_pos {x y lo : ℝ} (hy : 0 < y) (h : lo * y ≤ x) : lo ≤ x / y := by
  rw [le_div_iff hy]
  exact h

/-- Interval upper bound for a quotient with positive denominator. -/
theorem div_le_of_pos {x y hi : ℝ} (hy : 0 < y) (h : x ≤ hi * y) : x / y ≤ hi := by
  rw [div_le_iff hy]
  exact h

/-- Interval lower bound for a quotient with negative denominator. -/
theorem le_div_of_neg {x y lo : ℝ} (hy : y < 0) (h : x ≤ lo * y) : lo ≤ x / y := by
  rw [le_div_iff_of_neg hy]
  exact h

/-- Interval upper bound for a quotient with negative denominator. -/
theorem div_le_of_neg {x y hi : ℝ} (hy : y < 0) (h : hi * y ≤ x) : x / y ≤ hi := by
  rw [div_le_iff_of_neg hy]
  exact h

/-- Interval bounds for a product, both factor intervals nonnegative. -/
theorem mul_bounds_pp {x y a b c d : ℝ} (hx1 : a ≤ x) (hx2 : x ≤ b)
    (hy1 : c ≤ y) (hy2 : y ≤ d) (ha : 0 ≤ a) (hc : 0 ≤ c) :
    a * c ≤ x * y ∧ x * y ≤ b * d := by
  constructor
  · exact mul_le_mul hx1 hy1 hc (ha.trans hx1)
  · exact mul_le_mul hx2 hy2 (hc.trans hy1) ((ha.trans hx1).trans hx2)

/-- Interval bounds for a product, first factor nonnegative, second
nonpositive. -/
theorem mul_bounds_pn {x y a b c d : ℝ} (hx1 : a ≤ x) (hx2 : x ≤ b)
    (hy1 : c ≤ y) (hy2 : y ≤ d) (ha : 0 ≤ a) (hd : d ≤ 0) :
    b * c ≤ x * y ∧ x * y ≤ a * d := by
  have hy0 : y ≤ 0 := hy2.trans hd
  have hb : 0 ≤ b := (ha.trans hx1).trans hx2
  constructor
  · calc b * c ≤ b * y := mul_le_mul_of_nonneg_left hy1 hb
      _ ≤ x * y := mul_le_mul_of_nonpos_right hx2 hy0
  · calc x * y ≤ a * y := mul_le_mul_of_nonpos_right hx1 hy0
      _ ≤ a * d := mul_le_mul_of_nonneg_left hy2 ha

/-- Interval bounds for a product, first factor nonpositive, second
nonnegative. -/
theorem mul_bounds_np {x y a b c d : ℝ} (hx1 : a ≤ x) (hx2 : x ≤ b)
    (hy1 : c ≤ y) (hy2 : y ≤ d) (hb : b ≤ 0) (hc : 0 ≤ c) :
    a * d ≤ x * y ∧ x * y ≤ b * c := by
  have h := mul_bounds_pn hy1 hy2 hx1 hx2 hc hb
  constructor
  · calc a * d = d * a := by ring
      _ ≤ y * x := h.1
      _ = x * y := by ring
  · calc x * y = y * x := by ring
      _ ≤ c * b := h.2
      _ = b * c := by ring

/-- Interval bounds for a product, both factor intervals nonpositive. -/
theorem mul_bounds_nn {x y a b c d : ℝ} (hx1 : a ≤ x) (hx2 : x ≤ b)
    (hy1 : c ≤ y) (hy2 : y ≤ d) (hb : b ≤ 0) (hd : d ≤ 0) :
    b * d ≤ x * y ∧ x * y ≤ a * c := by
  have hx0 : x ≤ 0 := hx2.trans hb
  have hy0 : y ≤ 0 := hy2.trans hd
  constructor
  · nlinarith [mul_nonneg (sub_nonneg.mpr hx2) (sub_nonneg.mpr hy2)]
  · nlinarith [mul_nonneg (sub_nonneg.mpr hx1) (sub_nonneg.mpr hy1),
      mul_nonneg (sub_nonneg.mpr hx2) (sub_nonneg.mpr hy2)]

/-- Tangent in degrees as a quotient of sine and cosine. -/
theorem ss_tan_eq (d : ℝ) : ss_tan d = ss_sin d / ss_cos d := by
  unfold ss_tan ss_sin ss_cos
  exact Real.tan_eq_sin_div_cos _

/-- The declination cosine in closed form. -/
theorem cosDec_sqrt (lon : ℝ) (date : Date) (rising : Bool) :
    cosDec lon date rising = Real.sqrt (1 - sinDec lon date rising ^ 2) := by
  unfold cosDec ss_cos ss_asin
  rw [radiansOf_degreesOf, Real.cos_arcsin]

/-- Rational enclosure of a square root. -/
theorem sqrt_bounds {v a b : ℝ} (ha : 0 ≤ a) (hb : 0 ≤ b) (h1 : a ^ 2 ≤ v) (h2 : v ≤ b ^ 2) :
    a ≤ Real.sqrt v ∧ Real.sqrt v ≤ b := by
  constructor
  · calc a = Real.sqrt (a ^ 2) := (Real.sqrt_sq ha).symm
      _ ≤ Real.sqrt v := Real.sqrt_le_sqrt h1
  · calc Real.sqrt v ≤ Real.sqrt (b ^ 2) := Real.sqrt_le_sqrt h2
      _ = b := Real.sqrt_sq hb

/-- Evaluation of `pyTrunc` on a nonnegative enclosure. -/
theorem pyTrunc_eval {x : ℝ} (n : ℤ) (hn : 0 ≤ n) (h1 : (n : ℝ) ≤ x) (h2 : x < n + 1) :
    pyTrunc x = n := by
  unfold pyTrunc
  rw [if_pos (le_trans (by exact_mod_cast hn) h1)]
  exact Int.floor_eq_iff.mpr ⟨h1, by exact_mod_cast h2⟩

/-- Range of `pyTrunc` for a value known to lie in `[0, k+1)`. -/
theorem pyTrunc_range {x : ℝ} (k : ℤ) (h1 : 0 ≤ x) (h2 : x < (k : ℝ) + 1) :
    0 ≤ pyTrunc x ∧ pyTrunc x ≤ k := by
  unfold pyTrunc
  rw [if_pos h1]
  refine ⟨Int.floor_nonneg.mpr h1, ?_⟩
  have h3 : ⌊x⌋ < k + 1 := Int.floor_lt.mpr (by push_cast; linarith)
  omega

/-- The bracketing property of `pyTrunc` on nonnegative inputs. -/
theorem pyTrunc_bracket {x : ℝ} (h1 : 0 ≤ x) :
    ((pyTrunc x : ℤ) : ℝ) ≤ x ∧ x < ((pyTrunc x : ℤ) : ℝ) + 1 := by
  unfold pyTrunc
  rw [if_pos h1]
  exact ⟨Int.floor_le x, Int.lt_floor_add_one x⟩

/-- The `datetime.datetime` constructor succeeds on in-range components. -/
theorem pyDatetime_ok (y mo d h mi s : ℤ) (tz : Tzinfo)
    (hy : 1 ≤ y) (hy2 : y ≤ 9999) (hm : 1 ≤ mo) (hm2 : mo ≤ 12)
    (hd : 1 ≤ d) (hd2 : d ≤ daysInMonth y mo) (hh : 0 ≤ h) (hh2 : h ≤ 23)
    (hmi : 0 ≤ mi) (hmi2 : mi ≤ 59) (hs : 0 ≤ s) (hs2 : s ≤ 59) :
    pyDatetime y mo d h mi s tz = .ok ⟨y, mo, d, h, mi, s, tz⟩ := by
  unfold pyDatetime
  split_ifs with hc
  · rfl
  · exact absurd ⟨hy, hy2, hm, hm2, hd, hd2, hh, hh2, hmi, hmi2, hs, hs2⟩ hc

/-- The hour component of a successfully constructed `datetime.datetime`. -/
theorem pyDatetime_hour (y mo d h mi s : ℤ) (tz : Tzinfo)
    (hy : 1 ≤ y) (hy2 : y ≤ 9999) (hm : 1 ≤ mo) (hm2 : mo ≤ 12)
    (hd : 1 ≤ d) (hd2 : d ≤ daysInMonth y mo) (hh : 0 ≤ h) (hh2 : h ≤ 23)
    (hmi : 0 ≤ mi) (hmi2 : mi ≤ 59) (hs : 0 ≤ s) (hs2 : s ≤ 59) :
    (pyDatetime y mo d h mi s tz).map PyDatetime.hour = .ok h := by
  rw [pyDatetime_ok y mo d h mi s tz hy hy2 hm hm2 hd hd2 hh hh2 hmi hmi2 hs hs2]
  rfl

/-- The `datetime.datetime` constructor rejects an hour component of 24 or
more with a `ValueError`. -/
theorem pyDatetime_hour_err (y mo d h mi s : ℤ) (tz : Tzinfo) (hh : 24 ≤ h) :
    pyDatetime y mo d h mi s tz = .error .dateValueError := by
  unfold pyDatetime
  split_ifs with hc
  · exact absurd hc.2.2.2.2.2.2.2.1 (by omega)
  · rfl

set_option maxHeartbeats 1000000 in
theorem sharedTrig1 :
    ((-727194882579133 : ℝ) / 50000000000000000) ≤ ss_cos (zenithDeg "official") ∧ ss_cos (zenithDeg "official") ≤ ((-1454389765158249 : ℝ) / 100000000000000000) := by
  have hsh11 : zenithDeg "official" = ((545 : ℝ) / 6) := by
    rw [zenithDeg_values.1]
    norm_num
  have hsh12 : ((-727194882579133 : ℝ) / 50000000000000000) ≤ ss_cos (zenithDeg "official") ∧ ss_cos (zenithDeg "official") ≤ ((-1454389765158249 : ℝ) / 100000000000000000) := by
    rw [ss_cos_shift90]
    have h := ss_sin_boundsPos (zenithDeg "official" - 90) ((5 : ℝ) / 6) ((5 : ℝ) / 6) ((7272205216643 : ℝ) / 500000000000000) ((81 : ℝ) / 1000000000000000000) ((1454389765158249 : ℝ) / 100000000000000000) ((727194882579133 : ℝ) / 50000000000000000)
      (by rw [hsh11]; try norm_num) (by rw [hsh11]; try norm_num)
      (by norm_num) (by norm_num) (by norm_num) (by norm_num)
      (by norm_num) (by norm_num) (by norm_num [sinP]) (by norm_num [sinP])
    exact ⟨by linarith only [h.1, h.2], by linarith only [h.1, h.2]⟩
  exact hsh12

set_option maxHeartbeats 1000000 in
theorem sharedTrig2 :
    ((24453690018345139 : ℝ) / 25000000000000000) ≤ ss_sin (78) ∧ ss_sin (78) ≤ ((12226845009172571 : ℝ) / 12500000000000000) := by
  have hsh21 : ((24453690018345139 : ℝ) / 25000000000000000) ≤ ss_sin (78) ∧ ss_sin (78) ≤ ((12226845009172571 : ℝ) / 12500000000000000) := by
    rw [ss_sin_shift90]
    have h := ss_cos_boundsNeg (78 - 90) (-12 : ℝ) (-12 : ℝ) ((523598775598299 : ℝ) / 2500000000000000) ((13 : ℝ) / 250000000000000000) ((24453690018345139 : ℝ) / 25000000000000000) ((12226845009172571 : ℝ) / 12500000000000000)
      (by norm_num) (by norm_num)
      (by norm_num) (by norm_num) (by norm_num) (by norm_num)
      (by norm_num) (by norm_num) (by norm_num [cosP]) (by norm_num [cosP])
    exact ⟨by linarith only [h.1, h.2], by linarith only [h.1, h.2]⟩
  exact hsh21

set_option maxHeartbeats 1000000 in
theorem sharedTrig3 :
    ((20791169081775933 : ℝ) / 100000000000000000) ≤ ss_cos (78) ∧ ss_cos (78) ≤ ((2598896135221993 : ℝ) / 12500000000000000) := by
  have hsh31 : ((20791169081775933 : ℝ) / 100000000000000000) ≤ ss_cos (78) ∧ ss_cos (78) ≤ ((2598896135221993 : ℝ) / 12500000000000000) := by
    rw [ss_cos_shift90]
    have h := ss_sin_boundsNeg (78 - 90) (-12 : ℝ) (-12 : ℝ) ((523598775598299 : ℝ) / 2500000000000000) ((13 : ℝ) / 250000000000000000) ((-2598896135221993 : ℝ) / 12500000000000000) ((-20791169081775933 : ℝ) / 100000000000000000)
      (by norm_num) (by norm_num)
      (by norm_num) (by norm_num) (by norm_num) (by norm_num)
      (by norm_num) (by norm_num) (by norm_num [sinP]) (by norm_num [sinP])
    exact ⟨by linarith only [h.1, h.2], by linarith only [h.1, h.2]⟩
  exact hsh31

set_option maxHeartbeats 1000000 in
theorem sharedTrig4 :
    ((39083735288649063 : ℝ) / 50000000000000000) ≤ ss_sin (51.41416666) ∧ ss_sin (51.41416666) ≤ ((78167470579115019 : ℝ) / 100000000000000000) := by
  have hsh41 : ((39083735288649063 : ℝ) / 50000000000000000) ≤ ss_sin (51.41416666) ∧ ss_sin (51.41416666) ≤ ((78167470579115019 : ℝ) / 100000000000000000) := by
    rw [ss_sin_shift90]
    have h := ss_cos_boundsNeg (51.41416666 - 90) ((-1929291667 : ℝ) / 50000000) ((-1929291667 : ℝ) / 50000000) ((6734498364088007 : ℝ) / 10000000000000000) ((13 : ℝ) / 200000000000000000) ((39083735288649063 : ℝ) / 50000000000000000) ((78167470579115019 : ℝ) / 100000000000000000)
      (by norm_num) (by norm_num)
      (by norm_num) (by norm_num) (by norm_num) (by norm_num)
      (by norm_num) (by norm_num) (by norm_num [cosP]) (by norm_num [cosP])
    exact ⟨by linarith only [h.1, h.2], by linarith only [h.1, h.2]⟩
  exact hsh41

set_option maxHeartbeats 1000000 in
theorem sharedTrig5 :
    ((3898039643151263 : ℝ) / 6250000000000000) ≤ ss_cos (51.41416666) ∧ ss_cos (51.41416666) ≤ ((7796079286314293 : ℝ) / 12500000000000000) := by
  have hsh51 : ((3898039643151263 : ℝ) / 6250000000000000) ≤ ss_cos (51.41416666) ∧ ss_cos (51.41416666) ≤ ((7796079286314293 : ℝ) / 12500000000000000) := by
    rw [ss_cos_shift90]
    have h := ss_sin_boundsNeg (51.41416666 - 90) ((-1929291667 : ℝ) / 50000000) ((-1929291667 : ℝ) / 50000000) ((6734498364088007 : ℝ) / 10000000000000000) ((13 : ℝ) / 200000000000000000) ((-7796079286314293 : ℝ) / 12500000000000000) ((-3898039643151263 : ℝ) / 6250000000000000)
      (by norm_num) (by norm_num)
      (by norm_num) (by norm_num) (by norm_num) (by norm_num)
      (by norm_num) (by norm_num) (by norm_num [sinP]) (by norm_num [sinP])
    exact ⟨by linarith only [h.1, h.2], by linarith only [h.1, h.2]⟩
  exact hsh51

set_option maxHeartbeats 1000000 in
theorem sharedTrig6 :
    ((6061540616640607 : ℝ) / 6250000000000000) ≤ ss_sin (75.894) ∧ ss_sin (75.894) ≤ ((48492324933124869 : ℝ) / 50000000000000000) := by
  have hsh61 : ((6061540616640607 : ℝ) / 6250000000000000) ≤ ss_sin (75.894) ∧ ss_sin (75.894) ≤ ((48492324933124869 : ℝ) / 50000000000000000) := by
    rw [ss_sin_shift90]
    have h := ss_cos_boundsNeg (75.894 - 90) ((-7053 : ℝ) / 500) ((-7053 : ℝ) / 500) ((1230980721431601 : ℝ) / 5000000000000000) ((71 : ℝ) / 1000000000000000000) ((6061540616640607 : ℝ) / 6250000000000000) ((48492324933124869 : ℝ) / 50000000000000000)
      (by norm_num) (by norm_num)
      (by norm_num) (by norm_num) (by norm_num) (by norm_num)
      (by norm_num) (by norm_num) (by norm_num [cosP]) (by norm_num [cosP])
    exact ⟨by linarith only [h.1, h.2], by linarith only [h.1, h.2]⟩
  exact hsh61

set_option maxHeartbeats 1000000 in
theorem sharedTrig7 :
    ((24371657521000613 : ℝ) / 100000000000000000) ≤ ss_cos (75.894) ∧ ss_cos (75.894) ≤ ((24371657521000629 : ℝ) / 100000000000000000) := by
  have hsh71 : ((24371657521000613 : ℝ) / 100000000000000000) ≤ ss_cos (75.894) ∧ ss_cos (75.894) ≤ ((24371657521000629 : ℝ) / 100000000000000000) := by
    rw [ss_cos_shift90]
    have h := ss_sin_boundsNeg (75.894 - 90) ((-7053 : ℝ) / 500) ((-7053 : ℝ) / 500) ((1230980721431601 : ℝ) / 5000000000000000) ((71 : ℝ) / 1000000000000000000) ((-24371657521000629 : ℝ) / 100000000000000000) ((-24371657521000613 : ℝ) / 100000000000000000)
      (by norm_num) (by norm_num)
      (by norm_num) (by norm_num) (by norm_num) (by norm_num)
      (by norm_num) (by norm_num) (by norm_num [sinP]) (by norm_num [sinP])
    exact ⟨by linarith only [h.1, h.2], by linarith only [h.1, h.2]⟩
  exact hsh71

set_option maxHeartbeats 1000000 in
theorem sharedTrig8 :
    ((-30901699437494743 : ℝ) / 100000000000000000) ≤ ss_cos (zenithDeg "astronomical") ∧ ss_cos (zenithDeg "astronomical") ≤ ((-7725424859373683 : ℝ) / 25000000000000000) := by
  have hsh81 : zenithDeg "astronomical" = (108 : ℝ) := by
    rw [zenithDeg_values.2.2.2]
    norm_num
  have hsh82 : ((-30901699437494743 : ℝ) / 100000000000000000) ≤ ss_cos (zenithDeg "astronomical") ∧ ss_cos (zenithDeg "astronomical") ≤ ((-7725424859373683 : ℝ) / 25000000000000000) := by
    rw [ss_cos_shift90]
    have h := ss_sin_boundsPos (zenithDeg "astronomical" - 90) (18 : ℝ) (18 : ℝ) ((3141592653589793 : ℝ) / 10000000000000000) ((1 : ℝ) / 40000000000000000) ((7725424859373683 : ℝ) / 25000000000000000) ((30901699437494743 : ℝ) / 100000000000000000)
      (by rw [hsh81]; try norm_num) (by rw [hsh81]; try norm_num)
      (by norm_num) (by norm_num) (by norm_num) (by norm_num)
      (by norm_num) (by norm_num) (by norm_num [sinP]) (by norm_num [sinP])
    exact ⟨by linarith only [h.1, h.2], by linarith only [h.1, h.2]⟩
  exact hsh82

set_option maxHeartbeats 1000000 in
theorem sharedTrig9 :
    ((3830222215455343 : ℝ) / 5000000000000000) ≤ ss_sin (50) ∧ ss_sin (50) ≤ ((15320888862381057 : ℝ) / 20000000000000000) := by
  have hsh91 : ((3830222215455343 : ℝ) / 5000000000000000) ≤ ss_sin (50) ∧ ss_sin (50) ≤ ((15320888862381057 : ℝ) / 20000000000000000) := by
    rw [ss_sin_shift90]
    have h := ss_cos_boundsNeg (50 - 90) (-40 : ℝ) (-40 : ℝ) ((6981317007977319 : ℝ) / 10000000000000000) ((71 : ℝ) / 1000000000000000000) ((3830222215455343 : ℝ) / 5000000000000000) ((15320888862381057 : ℝ) / 20000000000000000)
      (by norm_num) (by norm_num)
      (by norm_num) (by norm_num) (by norm_num) (by norm_num)
      (by norm_num) (by norm_num) (by norm_num [cosP]) (by norm_num [cosP])
    exact ⟨by linarith only [h.1, h.2], by linarith only [h.1, h.2]⟩
  exact hsh91

set_option maxHeartbeats 1000000 in
theorem sharedTrig10 :
    ((64278760968503997 : ℝ) / 100000000000000000) ≤ ss_cos (50) ∧ ss_cos (50) ≤ ((32139380484327147 : ℝ) / 50000000000000000) := by
  have hsh101 : ((64278760968503997 : ℝ) / 100000000000000000) ≤ ss_cos (50) ∧ ss_cos (50) ≤ ((32139380484327147 : ℝ) / 50000000000000000) := by
    rw [ss_cos_shift90]
    have h := ss_sin_boundsNeg (50 - 90) (-40 : ℝ) (-40 : ℝ) ((6981317007977319 : ℝ) / 10000000000000000) ((71 : ℝ) / 1000000000000000000) ((-32139380484327147 : ℝ) / 50000000000000000) ((-64278760968503997 : ℝ) / 100000000000000000)
      (by norm_num) (by norm_num)
      (by norm_num) (by norm_num) (by norm_num) (by norm_num)
      (by norm_num) (by norm_num) (by norm_num [sinP]) (by norm_num [sinP])
    exact ⟨by linarith only [h.1, h.2], by linarith only [h.1, h.2]⟩
  exact hsh101

set_option maxHeartbeats 4000000 in
theorem eval_lat78_dec21_rising_error :
    ss_calc 78 0 (⟨2022, 12, 21⟩ : Date) "official" true = Except.error PyError.mathDomainError := by
  have hA1 : dayOfYearN (⟨2022, 12, 21⟩ : Date) = 355 := by decide
  have hA2 : approxT 0 (⟨2022, 12, 21⟩ : Date) true = ((1421 : ℝ) / 4) := by
    unfold approxT lngHour
    rw [hA1]
    rw [if_pos rfl]
    norm_num
  have hA3 : meanAnomaly 0 (⟨2022, 12, 21⟩ : Date) true = ((633443305289269 : ℝ) / 1826298179000) := by
    unfold meanAnomaly
    rw [hA2]
    norm_num
  have hA4 : ((-227577652749 : ℝ) / 1000000000000) ≤ ss_sin (meanAnomaly 0 (⟨2022, 12, 21⟩ : Date) true) ∧ ss_sin (meanAnomaly 0 (⟨2022, 12, 21⟩ : Date) true) ≤ ((-56894413187 : ℝ) / 250000000000) := by
    rw [ss_sin_shift360]
    have h := ss_sin_boundsNeg (meanAnomaly 0 (⟨2022, 12, 21⟩ : Date) true - 360) ((-24024039150731 : ℝ) / 1826298179000) ((-24024039150731 : ℝ) / 1826298179000) ((229589334113 : ℝ) / 1000000000000) ((1 : ℝ) / 15625000000000) ((-227577652749 : ℝ) / 1000000000000) ((-56894413187 : ℝ) / 250000000000)
      (by rw [hA3]; try norm_num) (by rw [hA3]; try norm_num)
      (by norm_num) (by norm_num) (by norm_num) (by norm_num)
      (by norm_num) (by norm_num) (by norm_num [sinP]) (by norm_num [sinP])
    exact ⟨by linarith only [h.1, h.2], by linarith only [h.1, h.2]⟩
  have hA5 : ((-443212000921 : ℝ) / 1000000000000) ≤ ss_sin (2 * meanAnomaly 0 (⟨2022, 12, 21⟩ : Date) true) ∧ ss_sin (2 * meanAnomaly 0 (⟨2022, 12, 21⟩ : Date) true) ≤ ((-11080300023 : ℝ) / 25000000000) := by
    rw [ss_sin_shift360, ss_sin_shift360]
    have h := ss_sin_boundsNeg (2 * meanAnomaly 0 (⟨2022, 12, 21⟩ : Date) true - 360 - 360) ((-24024039150731 : ℝ) / 913149089500) ((-24024039150731 : ℝ) / 913149089500) ((4591786682259 : ℝ) / 10000000000000) ((7 : ℝ) / 250000000000000) ((-443212000921 : ℝ) / 1000000000000) ((-11080300023 : ℝ) / 25000000000)
      (by rw [hA3]; try norm_num) (by rw [hA3]; try norm_num)
      (by norm_num) (by norm_num) (by norm_num) (by norm_num)
      (by norm_num) (by norm_num) (by norm_num [sinP]) (by norm_num [sinP])
    exact ⟨by linarith only [h.1, h.2], by linarith only [h.1, h.2]⟩
  have hA6 : ((31451729855571 : ℝ) / 50000000000) ≤ sunTrueLongPre 0 (⟨2022, 12, 21⟩ : Date) true ∧ sunTrueLongPre 0 (⟨2022, 12, 21⟩ : Date) true ≤ ((62903459711143 : ℝ) / 100000000000) := by
    unfold sunTrueLongPre
    constructor <;> linarith only [hA3, hA4.1, hA4.2, hA5.1, hA5.2]
  have hA7 : ((13451729855571 : ℝ) / 50000000000) ≤ sunTrueLong 0 (⟨2022, 12, 21⟩ : Date) true ∧ sunTrueLong 0 (⟨2022, 12, 21⟩ : Date) true ≤ ((26903459711143 : ℝ) / 100000000000) := by
    unfold sunTrueLong
    rw [if_pos (by linarith only [hA6.1] : sunTrueLongPre 0 (⟨2022, 12, 21⟩ : Date) true > 360.0)]
    exact ⟨by linarith only [hA6.1], by linarith only [hA6.2]⟩
  have hA8 : ((-124982256403 : ℝ) / 125000000000) ≤ ss_sin (sunTrueLong 0 (⟨2022, 12, 21⟩ : Date) true) ∧ ss_sin (sunTrueLong 0 (⟨2022, 12, 21⟩ : Date) true) ≤ ((-999858051223 : ℝ) / 1000000000000) := by
    rw [ss_sin_shift270]
    have h := ss_cos_boundsNeg (sunTrueLong 0 (⟨2022, 12, 21⟩ : Date) true - 270) ((-48270144429 : ℝ) / 50000000000) ((-96540288857 : ℝ) / 100000000000) ((168494590139 : ℝ) / 10000000000000) ((9 : ℝ) / 100000000000000) ((999858051223 : ℝ) / 1000000000000) ((124982256403 : ℝ) / 125000000000)
      (by linarith only [hA7.1]) (by linarith only [hA7.2])
      (by norm_num) (by norm_num) (by norm_num) (by norm_num)
      (by norm_num) (by norm_num) (by norm_num [cosP]) (by norm_num [cosP])
    exact ⟨by linarith only [h.1, h.2], by linarith only [h.1, h.2]⟩
  have hA9 : ((-19888176497 : ℝ) / 50000000000) ≤ sinDec 0 (⟨2022, 12, 21⟩ : Date) true ∧ sinDec 0 (⟨2022, 12, 21⟩ : Date) true ≤ ((-39776352993 : ℝ) / 100000000000) := by
    unfold sinDec
    exact ⟨by linarith only [hA8.1], by linarith only [hA8.2]⟩
  have hA10 : ((7910791287 : ℝ) / 50000000000) ≤ sinDec 0 (⟨2022, 12, 21⟩ : Date) true ^ 2 ∧ sinDec 0 (⟨2022, 12, 21⟩ : Date) true ^ 2 ≤ ((988848911 : ℝ) / 6250000000) := by
    have h := mul_bounds_nn hA9.1 hA9.2 hA9.1 hA9.2 (by norm_num) (by norm_num)
    constructor <;> nlinarith only [h.1, h.2]
  have hA11 : ((91748796953 : ℝ) / 100000000000) ≤ cosDec 0 (⟨2022, 12, 21⟩ : Date) true ∧ cosDec 0 (⟨2022, 12, 21⟩ : Date) true ≤ ((18349759391 : ℝ) / 20000000000) := by
    rw [cosDec_sqrt]
    exact sqrt_bounds (by norm_num) (by norm_num) (by nlinarith only [hA10.1, hA10.2]) (by nlinarith only [hA10.1, hA10.2])
  have hA12 : ((-4863393031 : ℝ) / 12500000000) ≤ sinDec 0 (⟨2022, 12, 21⟩ : Date) true * ss_sin 78 ∧ sinDec 0 (⟨2022, 12, 21⟩ : Date) true * ss_sin 78 ≤ ((-19453572123 : ℝ) / 50000000000) := by
    have h := mul_bounds_np hA9.1 hA9.2 sharedTrig2.1 sharedTrig2.2 (by norm_num) (by norm_num)
    exact ⟨by linarith only [h.1], by linarith only [h.2]⟩
  have hA13 : ((468159431 : ℝ) / 1250000000) ≤ ss_cos (zenithDeg "official") - sinDec 0 (⟨2022, 12, 21⟩ : Date) true * ss_sin 78 ∧ ss_cos (zenithDeg "official") - sinDec 0 (⟨2022, 12, 21⟩ : Date) true * ss_sin 78 ≤ ((37452754483 : ℝ) / 100000000000) := by
    constructor <;> linarith only [sharedTrig1.1, sharedTrig1.2, hA12.1, hA12.2]
  have hA14 : ((1192227969 : ℝ) / 6250000000) ≤ cosDec 0 (⟨2022, 12, 21⟩ : Date) true * ss_cos 78 ∧ cosDec 0 (⟨2022, 12, 21⟩ : Date) true * ss_cos 78 ≤ ((9537823753 : ℝ) / 50000000000) := by
    have h := mul_bounds_pp hA11.1 hA11.2 sharedTrig3.1 sharedTrig3.2 (by norm_num) (by norm_num)
    exact ⟨by linarith only [h.1], by linarith only [h.2]⟩
  have hA15 : ((196338050743 : ℝ) / 100000000000) ≤ cosH 78 0 (⟨2022, 12, 21⟩ : Date) "official" true ∧ cosH 78 0 (⟨2022, 12, 21⟩ : Date) "official" true ≤ ((9816902539 : ℝ) / 5000000000) := by
    unfold cosH
    constructor
    · apply le_div_of_pos (by linarith only [hA14.1])
      linarith only [hA13.1, hA13.2, hA14.1, hA14.2]
    · apply div_le_of_pos (by linarith only [hA14.1])
      linarith only [hA13.1, hA13.2, hA14.1, hA14.2]
  unfold ss_calc
  rw [if_pos (abs_le.mpr ⟨by linarith only [hA9.1], by linarith only [hA9.2]⟩)]
  rw [if_neg (by intro habs; have h2 := (abs_le.mp habs).2; linarith only [h2, hA15.1])]

set_option maxHeartbeats 4000000 in
theorem eval_lat78_dec21_setting_error :
    ss_calc 78 0 (⟨2022, 12, 21⟩ : Date) "official" false = Except.error PyError.mathDomainError := by
  have hB1 : dayOfYearN (⟨2022, 12, 21⟩ : Date) = 355 := by decide
  have hB2 : approxT 0 (⟨2022, 12, 21⟩ : Date) false = ((1423 : ℝ) / 4) := by
    unfold approxT lngHour
    rw [hB1]
    rw [if_neg (by decide)]
    norm_num
  have hB3 : meanAnomaly 0 (⟨2022, 12, 21⟩ : Date) false = ((634343305289269 : ℝ) / 1826298179000) := by
    unfold meanAnomaly
    rw [hB2]
    norm_num
  have hB4 : ((-219194043703 : ℝ) / 1000000000000) ≤ ss_sin (meanAnomaly 0 (⟨2022, 12, 21⟩ : Date) false) ∧ ss_sin (meanAnomaly 0 (⟨2022, 12, 21⟩ : Date) false) ≤ ((-219194043701 : ℝ) / 1000000000000) := by
    rw [ss_sin_shift360]
    have h := ss_sin_boundsNeg (meanAnomaly 0 (⟨2022, 12, 21⟩ : Date) false - 360) ((-23124039150731 : ℝ) / 1826298179000) ((-23124039150731 : ℝ) / 1826298179000) ((1104941745497 : ℝ) / 5000000000000) ((67 : ℝ) / 1000000000000000) ((-219194043703 : ℝ) / 1000000000000) ((-219194043701 : ℝ) / 1000000000000)
      (by rw [hB3]; try norm_num) (by rw [hB3]; try norm_num)
      (by norm_num) (by norm_num) (by norm_num) (by norm_num)
      (by norm_num) (by norm_num) (by norm_num [sinP]) (by norm_num [sinP])
    exact ⟨by linarith only [h.1, h.2], by linarith only [h.1, h.2]⟩
  have hB5 : ((-427727052741 : ℝ) / 1000000000000) ≤ ss_sin (2 * meanAnomaly 0 (⟨2022, 12, 21⟩ : Date) false) ∧ ss_sin (2 * meanAnomaly 0 (⟨2022, 12, 21⟩ : Date) false) ≤ ((-21386352637 : ℝ) / 50000000000) := by
    rw [ss_sin_shift360, ss_sin_shift360]
    have h := ss_sin_boundsNeg (2 * meanAnomaly 0 (⟨2022, 12, 21⟩ : Date) false - 360 - 360) ((-23124039150731 : ℝ) / 913149089500) ((-23124039150731 : ℝ) / 913149089500) ((4419766981987 : ℝ) / 10000000000000) ((33 : ℝ) / 1000000000000000) ((-427727052741 : ℝ) / 1000000000000) ((-21386352637 : ℝ) / 50000000000)
      (by rw [hB3]; try norm_num) (by rw [hB3]; try norm_num)
      (by norm_num) (by norm_num) (by norm_num) (by norm_num)
      (by norm_num) (by norm_num) (by norm_num [sinP]) (by norm_num [sinP])
    exact ⟨by linarith only [h.1, h.2], by linarith only [h.1, h.2]⟩
  have hB6 : ((503635015957 : ℝ) / 800000000) ≤ sunTrueLongPre 0 (⟨2022, 12, 21⟩ : Date) false ∧ sunTrueLongPre 0 (⟨2022, 12, 21⟩ : Date) false ≤ ((31477188497313 : ℝ) / 50000000000) := by
    unfold sunTrueLongPre
    constructor <;> linarith only [hB3, hB4.1, hB4.2, hB5.1, hB5.2]
  have hB7 : ((215635015957 : ℝ) / 800000000) ≤ sunTrueLong 0 (⟨2022, 12, 21⟩ : Date) false ∧ sunTrueLong 0 (⟨2022, 12, 21⟩ : Date) false ≤ ((13477188497313 : ℝ) / 50000000000) := by
    unfold sunTrueLong
    rw [if_pos (by linarith only [hB6.1] : sunTrueLongPre 0 (⟨2022, 12, 21⟩ : Date) false > 360.0)]
    exact ⟨by linarith only [hB6.1], by linarith only [hB6.2]⟩
  have hB8 : ((-49998414887 : ℝ) / 50000000000) ≤ ss_sin (sunTrueLong 0 (⟨2022, 12, 21⟩ : Date) false) ∧ ss_sin (sunTrueLong 0 (⟨2022, 12, 21⟩ : Date) false) ≤ ((-999968297739 : ℝ) / 1000000000000) := by
    rw [ss_sin_shift270]
    have h := ss_cos_boundsNeg (sunTrueLong 0 (⟨2022, 12, 21⟩ : Date) false - 270) ((-364984043 : ℝ) / 800000000) ((-22811502687 : ℝ) / 50000000000) ((15925433169 : ℝ) / 2000000000000) ((187 : ℝ) / 1000000000000000) ((999968297739 : ℝ) / 1000000000000) ((49998414887 : ℝ) / 50000000000)
      (by linarith only [hB7.1]) (by linarith only [hB7.2])
      (by norm_num) (by norm_num) (by norm_num) (by norm_num)
      (by norm_num) (by norm_num) (by norm_num [cosP]) (by norm_num [cosP])
    exact ⟨by linarith only [h.1, h.2], by linarith only [h.1, h.2]⟩
  have hB9 : ((-39780738821 : ℝ) / 100000000000) ≤ sinDec 0 (⟨2022, 12, 21⟩ : Date) false ∧ sinDec 0 (⟨2022, 12, 21⟩ : Date) false ≤ ((-1989036941 : ℝ) / 5000000000) := by
    unfold sinDec
    exact ⟨by linarith only [hB8.1], by linarith only [hB8.2]⟩
  have hB10 : ((1582507181 : ℝ) / 10000000000) ≤ sinDec 0 (⟨2022, 12, 21⟩ : Date) false ^ 2 ∧ sinDec 0 (⟨2022, 12, 21⟩ : Date) false ^ 2 ≤ ((3956267953 : ℝ) / 25000000000) := by
    have h := mul_bounds_nn hB9.1 hB9.2 hB9.1 hB9.2 (by norm_num) (by norm_num)
    constructor <;> nlinarith only [h.1, h.2]
  have hB11 : ((91746895417 : ℝ) / 100000000000) ≤ cosDec 0 (⟨2022, 12, 21⟩ : Date) false ∧ cosDec 0 (⟨2022, 12, 21⟩ : Date) false ≤ ((91746895419 : ℝ) / 100000000000) := by
    rw [cosDec_sqrt]
    exact sqrt_bounds (by norm_num) (by norm_num) (by nlinarith only [hB10.1, hB10.2]) (by nlinarith only [hB10.1, hB10.2])
  have hB12 : ((-19455717117 : ℝ) / 50000000000) ≤ sinDec 0 (⟨2022, 12, 21⟩ : Date) false * ss_sin 78 ∧ sinDec 0 (⟨2022, 12, 21⟩ : Date) false * ss_sin 78 ≤ ((-4863929279 : ℝ) / 12500000000) := by
    have h := mul_bounds_np hB9.1 hB9.2 sharedTrig2.1 sharedTrig2.2 (by norm_num) (by norm_num)
    exact ⟨by linarith only [h.1], by linarith only [h.2]⟩
  have hB13 : ((18728522233 : ℝ) / 50000000000) ≤ ss_cos (zenithDeg "official") - sinDec 0 (⟨2022, 12, 21⟩ : Date) false * ss_sin 78 ∧ ss_cos (zenithDeg "official") - sinDec 0 (⟨2022, 12, 21⟩ : Date) false * ss_sin 78 ≤ ((37457044469 : ℝ) / 100000000000) := by
    constructor <;> linarith only [sharedTrig1.1, sharedTrig1.2, hB12.1, hB12.2]
  have hB14 : ((19075252153 : ℝ) / 100000000000) ≤ cosDec 0 (⟨2022, 12, 21⟩ : Date) false * ss_cos 78 ∧ cosDec 0 (⟨2022, 12, 21⟩ : Date) false * ss_cos 78 ≤ ((9537626077 : ℝ) / 50000000000) := by
    have h := mul_bounds_pp hB11.1 hB11.2 sharedTrig3.1 sharedTrig3.2 (by norm_num) (by norm_num)
    exact ⟨by linarith only [h.1], by linarith only [h.2]⟩
  have hB15 : ((49091152457 : ℝ) / 25000000000) ≤ cosH 78 0 (⟨2022, 12, 21⟩ : Date) "official" false ∧ cosH 78 0 (⟨2022, 12, 21⟩ : Date) "official" false ≤ ((39272921971 : ℝ) / 20000000000) := by
    unfold cosH
    constructor
    · apply le_div_of_pos (by linarith only [hB14.1])
      linarith only [hB13.1, hB13.2, hB14.1, hB14.2]
    · apply div_le_of_pos (by linarith only [hB14.1])
      linarith only [hB13.1, hB13.2, hB14.1, hB14.2]
  unfold ss_calc
  rw [if_pos (abs_le.mpr ⟨by linarith only [hB9.1], by linarith only [hB9.2]⟩)]
  rw [if_neg (by intro habs; have h2 := (abs_le.mp habs).2; linarith only [h2, hB15.1])]

set_option maxHeartbeats 4000000 in
theorem eval_uklat_nov22_rising :
    ss_calc 51.41416666 (-1.515) (⟨2022, 11, 22⟩ : Date) "official" true = Except.ok (⟨2022, 11, 22, 7, 34, 44, Tzinfo.utc⟩ : PyDatetime) := by
  have hC1 : dayOfYearN (⟨2022, 11, 22⟩ : Date) = 326 := by decide
  have hC2 : approxT (-1.515) (⟨2022, 11, 22⟩ : Date) true = ((7830101 : ℝ) / 24000) := by
    unfold approxT lngHour
    rw [hC1]
    rw [if_pos rfl]
    norm_num
  have hC3 : meanAnomaly (-1.515) (⟨2022, 11, 22⟩ : Date) true = ((581250880289269 : ℝ) / 1826298179000) := by
    unfold meanAnomaly
    rw [hC2]
    norm_num
  have hC4 : ((-66565715508358089 : ℝ) / 100000000000000000) ≤ ss_sin (meanAnomaly (-1.515) (⟨2022, 11, 22⟩ : Date) true) ∧ ss_sin (meanAnomaly (-1.515) (⟨2022, 11, 22⟩ : Date) true) ≤ ((-66565715508097261 : ℝ) / 100000000000000000) := by
    rw [ss_sin_shift360]
    have h := ss_sin_boundsNeg (meanAnomaly (-1.515) (⟨2022, 11, 22⟩ : Date) true - 360) ((-76216464150731 : ℝ) / 1826298179000) ((-76216464150731 : ℝ) / 1826298179000) ((3641870366390153 : ℝ) / 5000000000000000) ((71 : ℝ) / 1000000000000000000) ((-66565715508358089 : ℝ) / 100000000000000000) ((-66565715508097261 : ℝ) / 100000000000000000)
      (by rw [hC3]; try norm_num) (by rw [hC3]; try norm_num)
      (by norm_num) (by norm_num) (by norm_num) (by norm_num)
      (by norm_num) (by norm_num) (by norm_num [sinP]) (by norm_num [sinP])
    exact ⟨by linarith only [h.1, h.2], by linarith only [h.1, h.2]⟩
  have hC5 : ((-99350355247490449 : ℝ) / 100000000000000000) ≤ ss_sin (2 * meanAnomaly (-1.515) (⟨2022, 11, 22⟩ : Date) true) ∧ ss_sin (2 * meanAnomaly (-1.515) (⟨2022, 11, 22⟩ : Date) true) ≤ ((-24837588811872609 : ℝ) / 25000000000000000) := by
    rw [ss_sin_shift360, ss_sin_shift270]
    have h := ss_cos_boundsPos (2 * meanAnomaly (-1.515) (⟨2022, 11, 22⟩ : Date) true - 360 - 270) ((5966953904269 : ℝ) / 913149089500) ((5966953904269 : ℝ) / 913149089500) ((228096360477671 : ℝ) / 2000000000000000) ((59 : ℝ) / 1000000000000000000) ((24837588811872609 : ℝ) / 25000000000000000) ((99350355247490449 : ℝ) / 100000000000000000)
      (by rw [hC3]; try norm_num) (by rw [hC3]; try norm_num)
      (by norm_num) (by norm_num) (by norm_num) (by norm_num)
      (by norm_num) (by norm_num) (by norm_num [cosP]) (by norm_num [cosP])
    exact ⟨by linarith only [h.1, h.2], by linarith only [h.1, h.2]⟩
  have hC6 : ((5996059705142266581 : ℝ) / 10000000000000000) ≤ sunTrueLongPre (-1.515) (⟨2022, 11, 22⟩ : Date) true ∧ sunTrueLongPre (-1.515) (⟨2022, 11, 22⟩ : Date) true ≤ ((1499014926285579139 : ℝ) / 2500000000000000) := by
    unfold sunTrueLongPre
    constructor <;> linarith only [hC3, hC4.1, hC4.2, hC5.1, hC5.2]
  have hC7 : ((2396059705142266581 : ℝ) / 10000000000000000) ≤ sunTrueLong (-1.515) (⟨2022, 11, 22⟩ : Date) true ∧ sunTrueLong (-1.515) (⟨2022, 11, 22⟩ : Date) true ≤ ((599014926285579139 : ℝ) / 2500000000000000) := by
    unfold sunTrueLong
    rw [if_pos (by linarith only [hC6.1] : sunTrueLongPre (-1.515) (⟨2022, 11, 22⟩ : Date) true > 360.0)]
    exact ⟨by linarith only [hC6.1], by linarith only [hC6.2]⟩
  have hC8 : ((-86256639583916531 : ℝ) / 100000000000000000) ≤ ss_sin (sunTrueLong (-1.515) (⟨2022, 11, 22⟩ : Date) true) ∧ ss_sin (sunTrueLong (-1.515) (⟨2022, 11, 22⟩ : Date) true) ≤ ((-690053116670433 : ℝ) / 800000000000000) := by
    rw [ss_sin_shift270]
    have h := ss_cos_boundsNeg (sunTrueLong (-1.515) (⟨2022, 11, 22⟩ : Date) true - 270) ((-303940294857733419 : ℝ) / 10000000000000000) ((-75985073714420861 : ℝ) / 2500000000000000) ((5304758874749403 : ℝ) / 10000000000000000) ((273 : ℝ) / 6250000000000000) ((690053116670433 : ℝ) / 800000000000000) ((86256639583916531 : ℝ) / 100000000000000000)
      (by linarith only [hC7.1]) (by linarith only [hC7.2])
      (by norm_num) (by norm_num) (by norm_num) (by norm_num)
      (by norm_num) (by norm_num) (by norm_num [cosP]) (by norm_num [cosP])
    exact ⟨by linarith only [h.1, h.2], by linarith only [h.1, h.2]⟩
  have hC9 : ((-428932704490921 : ℝ) / 1250000000000000) ≤ sinDec (-1.515) (⟨2022, 11, 22⟩ : Date) true ∧ sinDec (-1.515) (⟨2022, 11, 22⟩ : Date) true ≤ ((-686292327184579 : ℝ) / 2000000000000000) := by
    unfold sinDec
    exact ⟨by linarith only [hC8.1], by linarith only [hC8.2]⟩
  have hC10 : ((1177492895881063 : ℝ) / 10000000000000000) ≤ sinDec (-1.515) (⟨2022, 11, 22⟩ : Date) true ^ 2 ∧ sinDec (-1.515) (⟨2022, 11, 22⟩ : Date) true ^ 2 ≤ ((1177492895884133 : ℝ) / 10000000000000000) := by
    have h := mul_bounds_nn hC9.1 hC9.2 hC9.1 hC9.2 (by norm_num) (by norm_num)
    constructor <;> nlinarith only [h.1, h.2]
  have hC11 : ((9392820185714121 : ℝ) / 10000000000000000) ≤ cosDec (-1.515) (⟨2022, 11, 22⟩ : Date) true ∧ cosDec (-1.515) (⟨2022, 11, 22⟩ : Date) true ≤ ((9392820185715757 : ℝ) / 10000000000000000) := by
    rw [cosDec_sqrt]
    exact sqrt_bounds (by norm_num) (by norm_num) (by nlinarith only [hC10.1, hC10.2]) (by nlinarith only [hC10.1, hC10.2])
  have hC12 : ((-536457352939429 : ℝ) / 2000000000000000) ≤ sinDec (-1.515) (⟨2022, 11, 22⟩ : Date) true * ss_sin 51.41416666 ∧ sinDec (-1.515) (⟨2022, 11, 22⟩ : Date) true * ss_sin 51.41416666 ≤ ((-2682286764631301 : ℝ) / 10000000000000000) := by
    have h := mul_bounds_np hC9.1 hC9.2 sharedTrig4.1 sharedTrig4.2 (by norm_num) (by norm_num)
    exact ⟨by linarith only [h.1], by linarith only [h.2]⟩
  have hC13 : ((1268423894057737 : ℝ) / 5000000000000000) ≤ ss_cos (zenithDeg "official") - sinDec (-1.515) (⟨2022, 11, 22⟩ : Date) true * ss_sin 51.41416666 ∧ ss_cos (zenithDeg "official") - sinDec (-1.515) (⟨2022, 11, 22⟩ : Date) true * ss_sin 51.41416666 ≤ ((2536847788181321 : ℝ) / 10000000000000000) := by
    constructor <;> linarith only [sharedTrig1.1, sharedTrig1.2, hC12.1, hC12.2]
  have hC14 : ((732271708898101 : ℝ) / 1250000000000000) ≤ cosDec (-1.515) (⟨2022, 11, 22⟩ : Date) true * ss_cos 51.41416666 ∧ cosDec (-1.515) (⟨2022, 11, 22⟩ : Date) true * ss_cos 51.41416666 ≤ ((5858173671194671 : ℝ) / 10000000000000000) := by
    have h := mul_bounds_pp hC11.1 hC11.2 sharedTrig5.1 sharedTrig5.2 (by norm_num) (by norm_num)
    exact ⟨by linarith only [h.1], by linarith only [h.2]⟩
  have hC15 : ((433044141485503 : ℝ) / 1000000000000000) ≤ cosH 51.41416666 (-1.515) (⟨2022, 11, 22⟩ : Date) "official" true ∧ cosH 51.41416666 (-1.515) (⟨2022, 11, 22⟩ : Date) "official" true ≤ ((1082610353743681 : ℝ) / 2500000000000000) := by
    unfold cosH
    constructor
    · apply le_div_of_pos (by linarith only [hC14.1])
      linarith only [hC13.1, hC13.2, hC14.1, hC14.2]
    · apply div_le_of_pos (by linarith only [hC14.1])
      linarith only [hC13.1, hC13.2, hC14.1, hC14.2]
  have hC16 : ((-50594388302375469 : ℝ) / 100000000000000000) ≤ ss_cos (sunTrueLong (-1.515) (⟨2022, 11, 22⟩ : Date) true) ∧ ss_cos (sunTrueLong (-1.515) (⟨2022, 11, 22⟩ : Date) true) ≤ ((-50594388302362501 : ℝ) / 100000000000000000) := by
    rw [ss_cos_shift270]
    have h := ss_sin_boundsNeg (sunTrueLong (-1.515) (⟨2022, 11, 22⟩ : Date) true - 270) ((-303940294857733419 : ℝ) / 10000000000000000) ((-75985073714420861 : ℝ) / 2500000000000000) ((5304758874749403 : ℝ) / 10000000000000000) ((273 : ℝ) / 6250000000000000) ((-50594388302375469 : ℝ) / 100000000000000000) ((-50594388302362501 : ℝ) / 100000000000000000)
      (by linarith only [hC7.1]) (by linarith only [hC7.2])
      (by norm_num) (by norm_num) (by norm_num) (by norm_num)
      (by norm_num) (by norm_num) (by norm_num [sinP]) (by norm_num [sinP])
    exact ⟨by linarith only [h.1, h.2], by linarith only [h.1, h.2]⟩
  have hC17 : ((8524328732694083 : ℝ) / 5000000000000000) ≤ ss_tan (sunTrueLong (-1.515) (⟨2022, 11, 22⟩ : Date) true) ∧ ss_tan (sunTrueLong (-1.515) (⟨2022, 11, 22⟩ : Date) true) ≤ ((8524328732707377 : ℝ) / 5000000000000000) := by
    rw [ss_tan_eq]
    constructor
    · apply le_div_of_neg (by linarith only [hC16.2])
      linarith only [hC8.1, hC8.2, hC16.1, hC16.2]
    · apply div_le_of_neg (by linarith only [hC16.2])
      linarith only [hC8.1, hC8.2, hC16.1, hC16.2]
  have hC18 : ((3911132509134699 : ℝ) / 2500000000000000) ≤ 0.91764 * ss_tan (sunTrueLong (-1.515) (⟨2022, 11, 22⟩ : Date) true) ∧ 0.91764 * ss_tan (sunTrueLong (-1.515) (⟨2022, 11, 22⟩ : Date) true) ≤ ((3128906007312639 : ℝ) / 2000000000000000) := by
    constructor <;> linarith only [hC17.1, hC17.2]
  have hC19 : ((84257690523107949 : ℝ) / 100000000000000000) ≤ ss_sin (((229652973067813 : ℝ) / 4000000000000)) ∧ ss_sin (((229652973067813 : ℝ) / 4000000000000)) ≤ ((42128845261673557 : ℝ) / 50000000000000000) := by
    rw [ss_sin_shift90]
    have h := ss_cos_boundsNeg (((229652973067813 : ℝ) / 4000000000000) - 90) ((-130347026932187 : ℝ) / 4000000000000) ((-130347026932187 : ℝ) / 4000000000000) ((5687461975380967 : ℝ) / 10000000000000000) ((3 : ℝ) / 100000000000000000) ((84257690523107949 : ℝ) / 100000000000000000) ((42128845261673557 : ℝ) / 50000000000000000)
      (by norm_num) (by norm_num)
      (by norm_num) (by norm_num) (by norm_num) (by norm_num)
      (by norm_num) (by norm_num) (by norm_num [cosP]) (by norm_num [cosP])
    exact ⟨by linarith only [h.1, h.2], by linarith only [h.1, h.2]⟩
  have hC20 : ((26928802366939791 : ℝ) / 50000000000000000) ≤ ss_cos (((229652973067813 : ℝ) / 4000000000000)) ∧ ss_cos (((229652973067813 : ℝ) / 4000000000000)) ≤ ((13464401183472513 : ℝ) / 25000000000000000) := by
    rw [ss_cos_shift90]
    have h := ss_sin_boundsNeg (((229652973067813 : ℝ) / 4000000000000) - 90) ((-130347026932187 : ℝ) / 4000000000000) ((-130347026932187 : ℝ) / 4000000000000) ((5687461975380967 : ℝ) / 10000000000000000) ((3 : ℝ) / 100000000000000000) ((-13464401183472513 : ℝ) / 25000000000000000) ((-26928802366939791 : ℝ) / 50000000000000000)
      (by norm_num) (by norm_num)
      (by norm_num) (by norm_num) (by norm_num) (by norm_num)
      (by norm_num) (by norm_num) (by norm_num [sinP]) (by norm_num [sinP])
    exact ⟨by linarith only [h.1, h.2], by linarith only [h.1, h.2]⟩
  have hC21 : ((1955566231997887 : ℝ) / 1250000000000000) ≤ ss_tan (((229652973067813 : ℝ) / 4000000000000)) ∧ ss_tan (((229652973067813 : ℝ) / 4000000000000)) ≤ ((7822264928015273 : ℝ) / 5000000000000000) := by
    rw [ss_tan_eq]
    constructor
    · apply le_div_of_pos (by linarith only [hC20.1])
      linarith only [hC19.1, hC19.2, hC20.1, hC20.2]
    · apply div_le_of_pos (by linarith only [hC20.1])
      linarith only [hC19.1, hC19.2, hC20.1, hC20.2]
  have hC22 : ((21064422771785393 : ℝ) / 25000000000000000) ≤ ss_sin (((287066219334969 : ℝ) / 5000000000000)) ∧ ss_sin (((287066219334969 : ℝ) / 5000000000000)) ≤ ((42128845543690373 : ℝ) / 50000000000000000) := by
    rw [ss_sin_shift90]
    have h := ss_cos_boundsNeg (((287066219334969 : ℝ) / 5000000000000) - 90) ((-162933780665031 : ℝ) / 5000000000000) ((-162933780665031 : ℝ) / 5000000000000) ((1137492374130827 : ℝ) / 2000000000000000) ((73 : ℝ) / 1000000000000000000) ((21064422771785393 : ℝ) / 25000000000000000) ((42128845543690373 : ℝ) / 50000000000000000)
      (by norm_num) (by norm_num)
      (by norm_num) (by norm_num) (by norm_num) (by norm_num)
      (by norm_num) (by norm_num) (by norm_num [cosP]) (by norm_num [cosP])
    exact ⟨by linarith only [h.1, h.2], by linarith only [h.1, h.2]⟩
  have hC23 : ((2154304154059019 : ℝ) / 4000000000000000) ≤ ss_cos (((287066219334969 : ℝ) / 5000000000000)) ∧ ss_cos (((287066219334969 : ℝ) / 5000000000000)) ≤ ((26928801925742977 : ℝ) / 50000000000000000) := by
    rw [ss_cos_shift90]
    have h := ss_sin_boundsNeg (((287066219334969 : ℝ) / 5000000000000) - 90) ((-162933780665031 : ℝ) / 5000000000000) ((-162933780665031 : ℝ) / 5000000000000) ((1137492374130827 : ℝ) / 2000000000000000) ((73 : ℝ) / 1000000000000000000) ((-26928801925742977 : ℝ) / 50000000000000000) ((-2154304154059019 : ℝ) / 4000000000000000)
      (by norm_num) (by norm_num)
      (by norm_num) (by norm_num) (by norm_num) (by norm_num)
      (by norm_num) (by norm_num) (by norm_num [sinP]) (by norm_num [sinP])
    exact ⟨by linarith only [h.1, h.2], by linarith only [h.1, h.2]⟩
  have hC24 : ((1564453021703023 : ℝ) / 1000000000000000) ≤ ss_tan (((287066219334969 : ℝ) / 5000000000000)) ∧ ss_tan (((287066219334969 : ℝ) / 5000000000000)) ≤ ((15644530217077683 : ℝ) / 10000000000000000) := by
    rw [ss_tan_eq]
    constructor
    · apply le_div_of_pos (by linarith only [hC23.1])
      linarith only [hC22.1, hC22.2, hC23.1, hC23.2]
    · apply div_le_of_pos (by linarith only [hC23.1])
      linarith only [hC22.1, hC22.2, hC23.1, hC23.2]
  have hC25 : ((229652973067813 : ℝ) / 4000000000000) ≤ rightAscensionRaw (-1.515) (⟨2022, 11, 22⟩ : Date) true ∧ rightAscensionRaw (-1.515) (⟨2022, 11, 22⟩ : Date) true ≤ ((287066219334969 : ℝ) / 5000000000000) := by
    unfold rightAscensionRaw
    constructor
    · exact ss_atan_ge (by rw [abs_lt]; constructor <;> norm_num) (by linarith only [hC21.2, hC18.1])
    · exact ss_atan_le (by rw [abs_lt]; constructor <;> norm_num) (by linarith only [hC24.1, hC18.2])
  have hC26 : ((229652973067813 : ℝ) / 4000000000000) ≤ rightAscensionNorm (-1.515) (⟨2022, 11, 22⟩ : Date) true ∧ rightAscensionNorm (-1.515) (⟨2022, 11, 22⟩ : Date) true ≤ ((287066219334969 : ℝ) / 5000000000000) := by
    unfold rightAscensionNorm
    rw [if_neg (not_lt.mpr (by linarith only [hC25.2] : rightAscensionRaw (-1.515) (⟨2022, 11, 22⟩ : Date) true ≤ 360.0)), if_neg (not_lt.mpr (by linarith only [hC25.1] : 0.0 ≤ rightAscensionRaw (-1.515) (⟨2022, 11, 22⟩ : Date) true))]
    exact ⟨by linarith only [hC25.1], by linarith only [hC25.2]⟩
  have hC27 : ⌊sunTrueLong (-1.515) (⟨2022, 11, 22⟩ : Date) true / 90.0⌋ = (2 : ℤ) := by
    rw [Int.floor_eq_iff]
    constructor
    · push_cast
      linarith only [hC7.1]
    · push_cast
      linarith only [hC7.2]
  have hC28 : ⌊rightAscensionNorm (-1.515) (⟨2022, 11, 22⟩ : Date) true / 90.0⌋ = (0 : ℤ) := by
    rw [Int.floor_eq_iff]
    constructor
    · push_cast
      linarith only [hC26.1]
    · push_cast
      linarith only [hC26.2]
  have hC29 : ((949652973067813 : ℝ) / 4000000000000) ≤ rightAscensionQuad (-1.515) (⟨2022, 11, 22⟩ : Date) true ∧ rightAscensionQuad (-1.515) (⟨2022, 11, 22⟩ : Date) true ≤ ((1187066219334969 : ℝ) / 5000000000000) := by
    unfold rightAscensionQuad
    rw [hC27, hC28]
    push_cast
    constructor <;> linarith only [hC26.1, hC26.2]
  have hC30 : ((79137747755651083 : ℝ) / 5000000000000000) ≤ rightAscensionHours (-1.515) (⟨2022, 11, 22⟩ : Date) true ∧ rightAscensionHours (-1.515) (⟨2022, 11, 22⟩ : Date) true ≤ ((395688739778323 : ℝ) / 25000000000000) := by
    unfold rightAscensionHours
    exact ⟨by linarith only [hC29.1], by linarith only [hC29.2]⟩
  have hC31 : ((10826103538616587 : ℝ) / 25000000000000000) ≤ ss_cos (((6433909528118239 : ℝ) / 100000000000000)) ∧ ss_cos (((6433909528118239 : ℝ) / 100000000000000)) ≤ ((8660882830893367 : ℝ) / 20000000000000000) := by
    rw [ss_cos_shift90]
    have h := ss_sin_boundsNeg (((6433909528118239 : ℝ) / 100000000000000) - 90) ((-2566090471881761 : ℝ) / 100000000000000) ((-2566090471881761 : ℝ) / 100000000000000) ((4478672763839171 : ℝ) / 10000000000000000) ((11 : ℝ) / 125000000000000000) ((-8660882830893367 : ℝ) / 20000000000000000) ((-10826103538616587 : ℝ) / 25000000000000000)
      (by norm_num) (by norm_num)
      (by norm_num) (by norm_num) (by norm_num) (by norm_num)
      (by norm_num) (by norm_num) (by norm_num [sinP]) (by norm_num [sinP])
    exact ⟨by linarith only [h.1, h.2], by linarith only [h.1, h.2]⟩
  have hC32 : ((5413051767978781 : ℝ) / 12500000000000000) ≤ ss_cos (((6433909528794323 : ℝ) / 100000000000000)) ∧ ss_cos (((6433909528794323 : ℝ) / 100000000000000)) ≤ ((43304414143830719 : ℝ) / 100000000000000000) := by
    rw [ss_cos_shift90]
    have h := ss_sin_boundsNeg (((6433909528794323 : ℝ) / 100000000000000) - 90) ((-2566090471205677 : ℝ) / 100000000000000) ((-2566090471205677 : ℝ) / 100000000000000) ((4478672762659181 : ℝ) / 10000000000000000) ((3 : ℝ) / 500000000000000000) ((-43304414143830719 : ℝ) / 100000000000000000) ((-5413051767978781 : ℝ) / 12500000000000000)
      (by norm_num) (by norm_num)
      (by norm_num) (by norm_num) (by norm_num) (by norm_num)
      (by norm_num) (by norm_num) (by norm_num [sinP]) (by norm_num [sinP])
    exact ⟨by linarith only [h.1, h.2], by linarith only [h.1, h.2]⟩
  have hC33 : ((6433909528118239 : ℝ) / 100000000000000) ≤ ss_acos (cosH 51.41416666 (-1.515) (⟨2022, 11, 22⟩ : Date) "official" true) ∧ ss_acos (cosH 51.41416666 (-1.515) (⟨2022, 11, 22⟩ : Date) "official" true) ≤ ((6433909528794323 : ℝ) / 100000000000000) := by
    constructor
    · exact ss_acos_ge (by norm_num) (by norm_num) (by linarith only [hC31.1, hC15.2])
    · exact ss_acos_le (by norm_num) (by norm_num) (by linarith only [hC32.2, hC15.1])
  have hC34 : ((29566090471205677 : ℝ) / 100000000000000) ≤ hourAngleDeg 51.41416666 (-1.515) (⟨2022, 11, 22⟩ : Date) "official" true ∧ hourAngleDeg 51.41416666 (-1.515) (⟨2022, 11, 22⟩ : Date) "official" true ≤ ((29566090471881761 : ℝ) / 100000000000000) := by
    unfold hourAngleDeg
    rw [if_pos rfl]
    exact ⟨by linarith only [hC33.1, hC33.2], by linarith only [hC33.1, hC33.2]⟩
  have hC35 : ((74781125023506679 : ℝ) / 10000000000000000) ≤ localMeanTime 51.41416666 (-1.515) (⟨2022, 11, 22⟩ : Date) "official" true ∧ localMeanTime 51.41416666 (-1.515) (⟨2022, 11, 22⟩ : Date) "official" true ≤ ((3739056271402047 : ℝ) / 500000000000000) := by
    unfold localMeanTime
    constructor <;> linarith only [hC34.1, hC34.2, hC30.1, hC30.2, hC2]
  have hC36 : ((75791125023506679 : ℝ) / 10000000000000000) ≤ utcPre 51.41416666 (-1.515) (⟨2022, 11, 22⟩ : Date) "official" true ∧ utcPre 51.41416666 (-1.515) (⟨2022, 11, 22⟩ : Date) "official" true ≤ ((3789556271402047 : ℝ) / 500000000000000) := by
    unfold utcPre lngHour
    constructor <;> linarith only [hC35.1, hC35.2]
  have hC37 : ((75791125023506679 : ℝ) / 10000000000000000) ≤ utcWrapped 51.41416666 (-1.515) (⟨2022, 11, 22⟩ : Date) "official" true ∧ utcWrapped 51.41416666 (-1.515) (⟨2022, 11, 22⟩ : Date) "official" true ≤ ((3789556271402047 : ℝ) / 500000000000000) := by
    unfold utcWrapped
    rw [if_neg (not_lt.mpr (by linarith only [hC36.2] : utcPre 51.41416666 (-1.515) (⟨2022, 11, 22⟩ : Date) "official" true ≤ 24.0)), if_neg (not_lt.mpr (by linarith only [hC36.1] : 0.0 ≤ utcPre 51.41416666 (-1.515) (⟨2022, 11, 22⟩ : Date) "official" true))]
    exact ⟨by linarith only [hC36.1], by linarith only [hC36.2]⟩
  have hC38 : localHour 51.41416666 (-1.515) (⟨2022, 11, 22⟩ : Date) "official" true = (7 : ℤ) := by
    unfold localHour
    exact pyTrunc_eval 7 (by norm_num) (by push_cast; linarith only [hC37.1]) (by push_cast; linarith only [hC37.2])
  have hC39 : ((localHour 51.41416666 (-1.515) (⟨2022, 11, 22⟩ : Date) "official" true : ℤ) : ℝ) = 7 := by
    rw [hC38]
    norm_num
  have hC40 : localMinute 51.41416666 (-1.515) (⟨2022, 11, 22⟩ : Date) "official" true = (34 : ℤ) := by
    unfold localMinute
    rw [hC39]
    exact pyTrunc_eval 34 (by norm_num) (by push_cast; linarith only [hC37.1]) (by push_cast; linarith only [hC37.2])
  have hC41 : ((localMinute 51.41416666 (-1.515) (⟨2022, 11, 22⟩ : Date) "official" true : ℤ) : ℝ) = 34 := by
    rw [hC40]
    norm_num
  have hC42 : localSecond 51.41416666 (-1.515) (⟨2022, 11, 22⟩ : Date) "official" true = (44 : ℤ) := by
    unfold localSecond
    rw [hC39, hC41]
    exact pyTrunc_eval 44 (by norm_num) (by push_cast; linarith only [hC37.1]) (by push_cast; linarith only [hC37.2])
  unfold ss_calc
  rw [if_pos (abs_le.mpr ⟨by linarith only [hC9.1], by linarith only [hC9.2]⟩)]
  rw [if_pos (abs_le.mpr ⟨by linarith only [hC15.1], by linarith only [hC15.2]⟩)]
  rw [hC38, hC40, hC42]
  exact pyDatetime_ok _ _ _ _ _ _ _ (by decide) (by decide) (by decide) (by decide) (by decide) (by decide) (by decide) (by decide) (by decide) (by decide) (by decide) (by decide)

set_option maxHeartbeats 4000000 in
theorem eval_uklat_nov22_setting :
    ss_calc 51.41416666 (-1.515) (⟨2022, 11, 22⟩ : Date) "official" false = Except.ok (⟨2022, 11, 22, 16, 8, 55, Tzinfo.utc⟩ : PyDatetime) := by
  have hD1 : dayOfYearN (⟨2022, 11, 22⟩ : Date) = 326 := by decide
  have hD2 : approxT (-1.515) (⟨2022, 11, 22⟩ : Date) false = ((7842101 : ℝ) / 24000) := by
    unfold approxT lngHour
    rw [hD1]
    rw [if_neg (by decide)]
    norm_num
  have hD3 : meanAnomaly (-1.515) (⟨2022, 11, 22⟩ : Date) false = ((582150880289269 : ℝ) / 1826298179000) := by
    unfold meanAnomaly
    rw [hD2]
    norm_num
  have hD4 : ((-6592140614546227 : ℝ) / 10000000000000000) ≤ ss_sin (meanAnomaly (-1.515) (⟨2022, 11, 22⟩ : Date) false) ∧ ss_sin (meanAnomaly (-1.515) (⟨2022, 11, 22⟩ : Date) false) ≤ ((-8240175768154847 : ℝ) / 12500000000000000) := by
    rw [ss_sin_shift360]
    have h := ss_sin_boundsNeg (meanAnomaly (-1.515) (⟨2022, 11, 22⟩ : Date) false - 360) ((-75316464150731 : ℝ) / 1826298179000) ((-75316464150731 : ℝ) / 1826298179000) ((3598865441322139 : ℝ) / 5000000000000000) ((3 : ℝ) / 500000000000000000) ((-6592140614546227 : ℝ) / 10000000000000000) ((-8240175768154847 : ℝ) / 12500000000000000)
      (by rw [hD3]; try norm_num) (by rw [hD3]; try norm_num)
      (by norm_num) (by norm_num) (by norm_num) (by norm_num)
      (by norm_num) (by norm_num) (by norm_num [sinP]) (by norm_num [sinP])
    exact ⟨by linarith only [h.1, h.2], by linarith only [h.1, h.2]⟩
  have hD5 : ((-19827981135104611 : ℝ) / 20000000000000000) ≤ ss_sin (2 * meanAnomaly (-1.515) (⟨2022, 11, 22⟩ : Date) false) ∧ ss_sin (2 * meanAnomaly (-1.515) (⟨2022, 11, 22⟩ : Date) false) ≤ ((-12392488209440381 : ℝ) / 12500000000000000) := by
    rw [ss_sin_shift360, ss_sin_shift270]
    have h := ss_cos_boundsPos (2 * meanAnomaly (-1.515) (⟨2022, 11, 22⟩ : Date) false - 360 - 270) ((6866953904269 : ℝ) / 913149089500) ((6866953904269 : ℝ) / 913149089500) ((131250150266041 : ℝ) / 1000000000000000) ((31 : ℝ) / 1000000000000000000) ((12392488209440381 : ℝ) / 12500000000000000) ((19827981135104611 : ℝ) / 20000000000000000)
      (by rw [hD3]; try norm_num) (by rw [hD3]; try norm_num)
      (by norm_num) (by norm_num) (by norm_num) (by norm_num)
      (by norm_num) (by norm_num) (by norm_num [cosP]) (by norm_num [cosP])
    exact ⟨by linarith only [h.1, h.2], by linarith only [h.1, h.2]⟩
  have hD6 : ((6001111577124688431 : ℝ) / 10000000000000000) ≤ sunTrueLongPre (-1.515) (⟨2022, 11, 22⟩ : Date) false ∧ sunTrueLongPre (-1.515) (⟨2022, 11, 22⟩ : Date) false ≤ ((3000555788562365627 : ℝ) / 5000000000000000) := by
    unfold sunTrueLongPre
    constructor <;> linarith only [hD3, hD4.1, hD4.2, hD5.1, hD5.2]
  have hD7 : ((2401111577124688431 : ℝ) / 10000000000000000) ≤ sunTrueLong (-1.515) (⟨2022, 11, 22⟩ : Date) false ∧ sunTrueLong (-1.515) (⟨2022, 11, 22⟩ : Date) false ≤ ((1200555788562365627 : ℝ) / 5000000000000000) := by
    unfold sunTrueLong
    rw [if_pos (by linarith only [hD6.1] : sunTrueLongPre (-1.515) (⟨2022, 11, 22⟩ : Date) false > 360.0)]
    exact ⟨by linarith only [hD6.1], by linarith only [hD6.2]⟩
  have hD8 : ((-86699380741130461 : ℝ) / 100000000000000000) ≤ ss_sin (sunTrueLong (-1.515) (⟨2022, 11, 22⟩ : Date) false) ∧ ss_sin (sunTrueLong (-1.515) (⟨2022, 11, 22⟩ : Date) false) ≤ ((-5418711296314887 : ℝ) / 6250000000000000) := by
    rw [ss_sin_shift270]
    have h := ss_cos_boundsNeg (sunTrueLong (-1.515) (⟨2022, 11, 22⟩ : Date) false - 270) ((-298888422875311569 : ℝ) / 10000000000000000) ((-149444211437634373 : ℝ) / 5000000000000000) ((5216587075266951 : ℝ) / 10000000000000000) ((9359 : ℝ) / 250000000000000000) ((5418711296314887 : ℝ) / 6250000000000000) ((86699380741130461 : ℝ) / 100000000000000000)
      (by linarith only [hD7.1]) (by linarith only [hD7.2])
      (by norm_num) (by norm_num) (by norm_num) (by norm_num)
      (by norm_num) (by norm_num) (by norm_num [cosP]) (by norm_num [cosP])
    exact ⟨by linarith only [h.1, h.2], by linarith only [h.1, h.2]⟩
  have hD9 : ((-862268691160913 : ℝ) / 2500000000000000) ≤ sinDec (-1.515) (⟨2022, 11, 22⟩ : Date) false ∧ sinDec (-1.515) (⟨2022, 11, 22⟩ : Date) false ≤ ((-3449074764639981 : ℝ) / 10000000000000000) := by
    unfold sinDec
    exact ⟨by linarith only [hD8.1], by linarith only [hD8.2]⟩
  have hD10 : ((594805836603817 : ℝ) / 5000000000000000) ≤ sinDec (-1.515) (⟨2022, 11, 22⟩ : Date) false ^ 2 ∧ sinDec (-1.515) (⟨2022, 11, 22⟩ : Date) false ^ 2 ≤ ((1189611673210167 : ℝ) / 10000000000000000) := by
    have h := mul_bounds_nn hD9.1 hD9.2 hD9.1 hD9.2 (by norm_num) (by norm_num)
    constructor <;> nlinarith only [h.1, h.2]
  have hD11 : ((9386366883299327 : ℝ) / 10000000000000000) ≤ cosDec (-1.515) (⟨2022, 11, 22⟩ : Date) false ∧ cosDec (-1.515) (⟨2022, 11, 22⟩ : Date) false ≤ ((9386366883300677 : ℝ) / 10000000000000000) := by
    rw [cosDec_sqrt]
    exact sqrt_bounds (by norm_num) (by norm_num) (by nlinarith only [hD10.1, hD10.2]) (by nlinarith only [hD10.1, hD10.2])
  have hD12 : ((-674013625476127 : ℝ) / 2500000000000000) ≤ sinDec (-1.515) (⟨2022, 11, 22⟩ : Date) false * ss_sin 51.41416666 ∧ sinDec (-1.515) (⟨2022, 11, 22⟩ : Date) false * ss_sin 51.41416666 ≤ ((-2696054501838971 : ℝ) / 10000000000000000) := by
    have h := mul_bounds_np hD9.1 hD9.2 sharedTrig4.1 sharedTrig4.2 (by norm_num) (by norm_num)
    exact ⟨by linarith only [h.1], by linarith only [h.2]⟩
  have hD13 : ((318826940665393 : ℝ) / 1250000000000000) ≤ ss_cos (zenithDeg "official") - sinDec (-1.515) (⟨2022, 11, 22⟩ : Date) false * ss_sin 51.41416666 ∧ ss_cos (zenithDeg "official") - sinDec (-1.515) (⟨2022, 11, 22⟩ : Date) false * ss_sin 51.41416666 ≤ ((637653881347171 : ℝ) / 2500000000000000) := by
    constructor <;> linarith only [sharedTrig1.1, sharedTrig1.2, hD12.1, hD12.2]
  have hD14 : ((585414883460207 : ℝ) / 1000000000000000) ≤ cosDec (-1.515) (⟨2022, 11, 22⟩ : Date) false * ss_cos 51.41416666 ∧ cosDec (-1.515) (⟨2022, 11, 22⟩ : Date) false * ss_cos 51.41416666 ≤ ((5854148834611749 : ℝ) / 10000000000000000) := by
    have h := mul_bounds_pp hD11.1 hD11.2 sharedTrig5.1 sharedTrig5.2 (by norm_num) (by norm_num)
    exact ⟨by linarith only [h.1], by linarith only [h.2]⟩
  have hD15 : ((217846829435137 : ℝ) / 500000000000000) ≤ cosH 51.41416666 (-1.515) (⟨2022, 11, 22⟩ : Date) "official" false ∧ cosH 51.41416666 (-1.515) (⟨2022, 11, 22⟩ : Date) "official" false ≤ ((43569365888219 : ℝ) / 100000000000000) := by
    unfold cosH
    constructor
    · apply le_div_of_pos (by linarith only [hD14.1])
      linarith only [hD13.1, hD13.2, hD14.1, hD14.2]
    · apply div_le_of_pos (by linarith only [hD14.1])
      linarith only [hD13.1, hD13.2, hD14.1, hD14.2]
  have hD16 : ((-38931164988531 : ℝ) / 78125000000000) ≤ ss_cos (sunTrueLong (-1.515) (⟨2022, 11, 22⟩ : Date) false) ∧ ss_cos (sunTrueLong (-1.515) (⟨2022, 11, 22⟩ : Date) false) ≤ ((-4983189118530879 : ℝ) / 10000000000000000) := by
    rw [ss_cos_shift270]
    have h := ss_sin_boundsNeg (sunTrueLong (-1.515) (⟨2022, 11, 22⟩ : Date) false - 270) ((-298888422875311569 : ℝ) / 10000000000000000) ((-149444211437634373 : ℝ) / 5000000000000000) ((5216587075266951 : ℝ) / 10000000000000000) ((9359 : ℝ) / 250000000000000000) ((-38931164988531 : ℝ) / 78125000000000) ((-4983189118530879 : ℝ) / 10000000000000000)
      (by linarith only [hD7.1]) (by linarith only [hD7.2])
      (by norm_num) (by norm_num) (by norm_num) (by norm_num)
      (by norm_num) (by norm_num) (by norm_num [sinP]) (by norm_num [sinP])
    exact ⟨by linarith only [h.1, h.2], by linarith only [h.1, h.2]⟩
  have hD17 : ((3479674508784429 : ℝ) / 2000000000000000) ≤ ss_tan (sunTrueLong (-1.515) (⟨2022, 11, 22⟩ : Date) false) ∧ ss_tan (sunTrueLong (-1.515) (⟨2022, 11, 22⟩ : Date) false) ≤ ((3479674508788893 : ℝ) / 2000000000000000) := by
    rw [ss_tan_eq]
    constructor
    · apply le_div_of_neg (by linarith only [hD16.2])
      linarith only [hD8.1, hD8.2, hD16.1, hD16.2]
    · apply div_le_of_neg (by linarith only [hD16.2])
      linarith only [hD8.1, hD8.2, hD16.1, hD16.2]
  have hD18 : ((15965442581204717 : ℝ) / 10000000000000000) ≤ 0.91764 * ss_tan (sunTrueLong (-1.515) (⟨2022, 11, 22⟩ : Date) false) ∧ 0.91764 * ss_tan (sunTrueLong (-1.515) (⟨2022, 11, 22⟩ : Date) false) ≤ ((15965442581225199 : ℝ) / 10000000000000000) := by
    constructor <;> linarith only [hD17.1, hD17.2]
  have hD19 : ((5296766393741817 : ℝ) / 6250000000000000) ≤ ss_sin (((11587782435351 : ℝ) / 200000000000)) ∧ ss_sin (((11587782435351 : ℝ) / 200000000000)) ≤ ((42374131150032921 : ℝ) / 50000000000000000) := by
    rw [ss_sin_shift90]
    have h := ss_cos_boundsNeg (((11587782435351 : ℝ) / 200000000000) - 90) ((-6412217564649 : ℝ) / 200000000000) ((-6412217564649 : ℝ) / 200000000000) ((5595715442866871 : ℝ) / 10000000000000000) ((3 : ℝ) / 50000000000000000) ((5296766393741817 : ℝ) / 6250000000000000) ((42374131150032921 : ℝ) / 50000000000000000)
      (by norm_num) (by norm_num)
      (by norm_num) (by norm_num) (by norm_num) (by norm_num)
      (by norm_num) (by norm_num) (by norm_num [cosP]) (by norm_num [cosP])
    exact ⟨by linarith only [h.1, h.2], by linarith only [h.1, h.2]⟩
  have hD20 : ((53082313788289209 : ℝ) / 100000000000000000) ≤ ss_cos (((11587782435351 : ℝ) / 200000000000)) ∧ ss_cos (((11587782435351 : ℝ) / 200000000000)) ≤ ((53082313788297691 : ℝ) / 100000000000000000) := by
    rw [ss_cos_shift90]
    have h := ss_sin_boundsNeg (((11587782435351 : ℝ) / 200000000000) - 90) ((-6412217564649 : ℝ) / 200000000000) ((-6412217564649 : ℝ) / 200000000000) ((5595715442866871 : ℝ) / 10000000000000000) ((3 : ℝ) / 50000000000000000) ((-53082313788297691 : ℝ) / 100000000000000000) ((-53082313788289209 : ℝ) / 100000000000000000)
      (by norm_num) (by norm_num)
      (by norm_num) (by norm_num) (by norm_num) (by norm_num)
      (by norm_num) (by norm_num) (by norm_num [sinP]) (by norm_num [sinP])
    exact ⟨by linarith only [h.1, h.2], by linarith only [h.1, h.2]⟩
  have hD21 : ((1596544239534493 : ℝ) / 1000000000000000) ≤ ss_tan (((11587782435351 : ℝ) / 200000000000)) ∧ ss_tan (((11587782435351 : ℝ) / 200000000000)) ≤ ((15965442395384551 : ℝ) / 10000000000000000) := by
    rw [ss_tan_eq]
    constructor
    · apply le_div_of_pos (by linarith only [hD20.1])
      linarith only [hD19.1, hD19.2, hD20.1, hD20.2]
    · apply div_le_of_pos (by linarith only [hD20.1])
      linarith only [hD19.1, hD19.2, hD20.1, hD20.2]
  have hD22 : ((8474826285577641 : ℝ) / 10000000000000000) ≤ ss_sin (((724236409709851 : ℝ) / 12500000000000)) ∧ ss_sin (((724236409709851 : ℝ) / 12500000000000)) ≤ ((84748262855973173 : ℝ) / 100000000000000000) := by
    rw [ss_sin_shift90]
    have h := ss_cos_boundsNeg (((724236409709851 : ℝ) / 12500000000000) - 90) ((-400763590290149 : ℝ) / 12500000000000) ((-400763590290149 : ℝ) / 12500000000000) ((2797857669070671 : ℝ) / 5000000000000000) ((27 : ℝ) / 1000000000000000000) ((8474826285577641 : ℝ) / 10000000000000000) ((84748262855973173 : ℝ) / 100000000000000000)
      (by norm_num) (by norm_num)
      (by norm_num) (by norm_num) (by norm_num) (by norm_num)
      (by norm_num) (by norm_num) (by norm_num [cosP]) (by norm_num [cosP])
    exact ⟨by linarith only [h.1, h.2], by linarith only [h.1, h.2]⟩
  have hD23 : ((53082312900758549 : ℝ) / 100000000000000000) ≤ ss_cos (((724236409709851 : ℝ) / 12500000000000)) ∧ ss_cos (((724236409709851 : ℝ) / 12500000000000)) ≤ ((2123292516030681 : ℝ) / 4000000000000000) := by
    rw [ss_cos_shift90]
    have h := ss_sin_boundsNeg (((724236409709851 : ℝ) / 12500000000000) - 90) ((-400763590290149 : ℝ) / 12500000000000) ((-400763590290149 : ℝ) / 12500000000000) ((2797857669070671 : ℝ) / 5000000000000000) ((27 : ℝ) / 1000000000000000000) ((-2123292516030681 : ℝ) / 4000000000000000) ((-53082312900758549 : ℝ) / 100000000000000000)
      (by norm_num) (by norm_num)
      (by norm_num) (by norm_num) (by norm_num) (by norm_num)
      (by norm_num) (by norm_num) (by norm_num [sinP]) (by norm_num [sinP])
    exact ⟨by linarith only [h.1, h.2], by linarith only [h.1, h.2]⟩
  have hD24 : ((15965442767010971 : ℝ) / 10000000000000000) ≤ ss_tan (((724236409709851 : ℝ) / 12500000000000)) ∧ ss_tan (((724236409709851 : ℝ) / 12500000000000)) ≤ ((15965442767050589 : ℝ) / 10000000000000000) := by
    rw [ss_tan_eq]
    constructor
    · apply le_div_of_pos (by linarith only [hD23.1])
      linarith only [hD22.1, hD22.2, hD23.1, hD23.2]
    · apply div_le_of_pos (by linarith only [hD23.1])
      linarith only [hD22.1, hD22.2, hD23.1, hD23.2]
  have hD25 : ((11587782435351 : ℝ) / 200000000000) ≤ rightAscensionRaw (-1.515) (⟨2022, 11, 22⟩ : Date) false ∧ rightAscensionRaw (-1.515) (⟨2022, 11, 22⟩ : Date) false ≤ ((724236409709851 : ℝ) / 12500000000000) := by
    unfold rightAscensionRaw
    constructor
    · exact ss_atan_ge (by rw [abs_lt]; constructor <;> norm_num) (by linarith only [hD21.2, hD18.1])
    · exact ss_atan_le (by rw [abs_lt]; constructor <;> norm_num) (by linarith only [hD24.1, hD18.2])
  have hD26 : ((11587782435351 : ℝ) / 200000000000) ≤ rightAscensionNorm (-1.515) (⟨2022, 11, 22⟩ : Date) false ∧ rightAscensionNorm (-1.515) (⟨2022, 11, 22⟩ : Date) false ≤ ((724236409709851 : ℝ) / 12500000000000) := by
    unfold rightAscensionNorm
    rw [if_neg (not_lt.mpr (by linarith only [hD25.2] : rightAscensionRaw (-1.515) (⟨2022, 11, 22⟩ : Date) false ≤ 360.0)), if_neg (not_lt.mpr (by linarith only [hD25.1] : 0.0 ≤ rightAscensionRaw (-1.515) (⟨2022, 11, 22⟩ : Date) false))]
    exact ⟨by linarith only [hD25.1], by linarith only [hD25.2]⟩
  have hD27 : ⌊sunTrueLong (-1.515) (⟨2022, 11, 22⟩ : Date) false / 90.0⌋ = (2 : ℤ) := by
    rw [Int.floor_eq_iff]
    constructor
    · push_cast
      linarith only [hD7.1]
    · push_cast
      linarith only [hD7.2]
  have hD28 : ⌊rightAscensionNorm (-1.515) (⟨2022, 11, 22⟩ : Date) false / 90.0⌋ = (0 : ℤ) := by
    rw [Int.floor_eq_iff]
    constructor
    · push_cast
      linarith only [hD26.1]
    · push_cast
      linarith only [hD26.2]
  have hD29 : ((47587782435351 : ℝ) / 200000000000) ≤ rightAscensionQuad (-1.515) (⟨2022, 11, 22⟩ : Date) false ∧ rightAscensionQuad (-1.515) (⟨2022, 11, 22⟩ : Date) false ≤ ((2974236409709851 : ℝ) / 12500000000000) := by
    unfold rightAscensionQuad
    rw [hD27, hD28]
    push_cast
    constructor <;> linarith only [hD26.1, hD26.2]
  have hD30 : ((15862594145117 : ℝ) / 1000000000000) ≤ rightAscensionHours (-1.515) (⟨2022, 11, 22⟩ : Date) false ∧ rightAscensionHours (-1.515) (⟨2022, 11, 22⟩ : Date) false ≤ ((79312970925596027 : ℝ) / 5000000000000000) := by
    unfold rightAscensionHours
    exact ⟨by linarith only [hD29.1], by linarith only [hD29.2]⟩
  have hD31 : ((21784682946465689 : ℝ) / 50000000000000000) ≤ ss_cos (((1604263982813011 : ℝ) / 25000000000000)) ∧ ss_cos (((1604263982813011 : ℝ) / 25000000000000)) ≤ ((8713873178586381 : ℝ) / 20000000000000000) := by
    rw [ss_cos_shift90]
    have h := ss_sin_boundsNeg (((1604263982813011 : ℝ) / 25000000000000) - 90) ((-645736017186989 : ℝ) / 25000000000000) ((-645736017186989 : ℝ) / 25000000000000) ((4508087839451061 : ℝ) / 10000000000000000) ((39 : ℝ) / 500000000000000000) ((-8713873178586381 : ℝ) / 20000000000000000) ((-21784682946465689 : ℝ) / 50000000000000000)
      (by norm_num) (by norm_num)
      (by norm_num) (by norm_num) (by norm_num) (by norm_num)
      (by norm_num) (by norm_num) (by norm_num [sinP]) (by norm_num [sinP])
    exact ⟨by linarith only [h.1, h.2], by linarith only [h.1, h.2]⟩
  have hD32 : ((43569365882313983 : ℝ) / 100000000000000000) ≤ ss_cos (((6417055931927897 : ℝ) / 100000000000000)) ∧ ss_cos (((6417055931927897 : ℝ) / 100000000000000)) ≤ ((4356936588231451 : ℝ) / 10000000000000000) := by
    rw [ss_cos_shift90]
    have h := ss_sin_boundsNeg (((6417055931927897 : ℝ) / 100000000000000) - 90) ((-2582944068072103 : ℝ) / 100000000000000) ((-2582944068072103 : ℝ) / 100000000000000) ((180323513530859 : ℝ) / 400000000000000) ((79 : ℝ) / 1000000000000000000) ((-4356936588231451 : ℝ) / 10000000000000000) ((-43569365882313983 : ℝ) / 100000000000000000)
      (by norm_num) (by norm_num)
      (by norm_num) (by norm_num) (by norm_num) (by norm_num)
      (by norm_num) (by norm_num) (by norm_num [sinP]) (by norm_num [sinP])
    exact ⟨by linarith only [h.1, h.2], by linarith only [h.1, h.2]⟩
  have hD33 : ((1604263982813011 : ℝ) / 25000000000000) ≤ ss_acos (cosH 51.41416666 (-1.515) (⟨2022, 11, 22⟩ : Date) "official" false) ∧ ss_acos (cosH 51.41416666 (-1.515) (⟨2022, 11, 22⟩ : Date) "official" false) ≤ ((6417055931927897 : ℝ) / 100000000000000) := by
    constructor
    · exact ss_acos_ge (by norm_num) (by norm_num) (by linarith only [hD31.1, hD15.2])
    · exact ss_acos_le (by norm_num) (by norm_num) (by linarith only [hD32.2, hD15.1])
  have hD34 : ((1604263982813011 : ℝ) / 25000000000000) ≤ hourAngleDeg 51.41416666 (-1.515) (⟨2022, 11, 22⟩ : Date) "official" false ∧ hourAngleDeg 51.41416666 (-1.515) (⟨2022, 11, 22⟩ : Date) "official" false ≤ ((6417055931927897 : ℝ) / 100000000000000) := by
    unfold hourAngleDeg
    rw [if_neg (by decide)]
    exact ⟨by linarith only [hD33.1, hD33.2], by linarith only [hD33.1, hD33.2]⟩
  have hD35 : ((-79523875969649707 : ℝ) / 10000000000000000) ≤ localMeanTime 51.41416666 (-1.515) (⟨2022, 11, 22⟩ : Date) "official" false ∧ localMeanTime 51.41416666 (-1.515) (⟨2022, 11, 22⟩ : Date) "official" false ≤ ((-39761937782560983 : ℝ) / 5000000000000000) := by
    unfold localMeanTime
    constructor <;> linarith only [hD34.1, hD34.2, hD30.1, hD30.2, hD2]
  have hD36 : ((-78513875969649707 : ℝ) / 10000000000000000) ≤ utcPre 51.41416666 (-1.515) (⟨2022, 11, 22⟩ : Date) "official" false ∧ utcPre 51.41416666 (-1.515) (⟨2022, 11, 22⟩ : Date) "official" false ≤ ((-39256937782560983 : ℝ) / 5000000000000000) := by
    unfold utcPre lngHour
    constructor <;> linarith only [hD35.1, hD35.2]
  have hD37 : ((161486124030350293 : ℝ) / 10000000000000000) ≤ utcWrapped 51.41416666 (-1.515) (⟨2022, 11, 22⟩ : Date) "official" false ∧ utcWrapped 51.41416666 (-1.515) (⟨2022, 11, 22⟩ : Date) "official" false ≤ ((80743062217439017 : ℝ) / 5000000000000000) := by
    unfold utcWrapped
    rw [if_neg (not_lt.mpr (by linarith only [hD36.2] : utcPre 51.41416666 (-1.515) (⟨2022, 11, 22⟩ : Date) "official" false ≤ 24.0)), if_pos (by linarith only [hD36.2] : utcPre 51.41416666 (-1.515) (⟨2022, 11, 22⟩ : Date) "official" false < 0.0)]
    exact ⟨by linarith only [hD36.1], by linarith only [hD36.2]⟩
  have hD38 : localHour 51.41416666 (-1.515) (⟨2022, 11, 22⟩ : Date) "official" false = (16 : ℤ) := by
    unfold localHour
    exact pyTrunc_eval 16 (by norm_num) (by push_cast; linarith only [hD37.1]) (by push_cast; linarith only [hD37.2])
  have hD39 : ((localHour 51.41416666 (-1.515) (⟨2022, 11, 22⟩ : Date) "official" false : ℤ) : ℝ) = 16 := by
    rw [hD38]
    norm_num
  have hD40 : localMinute 51.41416666 (-1.515) (⟨2022, 11, 22⟩ : Date) "official" false = (8 : ℤ) := by
    unfold localMinute
    rw [hD39]
    exact pyTrunc_eval 8 (by norm_num) (by push_cast; linarith only [hD37.1]) (by push_cast; linarith only [hD37.2])
  have hD41 : ((localMinute 51.41416666 (-1.515) (⟨2022, 11, 22⟩ : Date) "official" false : ℤ) : ℝ) = 8 := by
    rw [hD40]
    norm_num
  have hD42 : localSecond 51.41416666 (-1.515) (⟨2022, 11, 22⟩ : Date) "official" false = (55 : ℤ) := by
    unfold localSecond
    rw [hD39, hD41]
    exact pyTrunc_eval 55 (by norm_num) (by push_cast; linarith only [hD37.1]) (by push_cast; linarith only [hD37.2])
  unfold ss_calc
  rw [if_pos (abs_le.mpr ⟨by linarith only [hD9.1], by linarith only [hD9.2]⟩)]
  rw [if_pos (abs_le.mpr ⟨by linarith only [hD15.1], by linarith only [hD15.2]⟩)]
  rw [hD38, hD40, hD42]
  exact pyDatetime_ok _ _ _ _ _ _ _ (by decide) (by decide) (by decide) (by decide) (by decide) (by decide) (by decide) (by decide) (by decide) (by decide) (by decide) (by decide)

set_option maxHeartbeats 4000000 in
theorem eval_lat75_feb08_wrap :
    24.0 < utcWrapped 75.894 (-180) (⟨2022, 2, 8⟩ : Date) "official" true ∧ ss_calc 75.894 (-180) (⟨2022, 2, 8⟩ : Date) "official" true = Except.error PyError.dateValueError := by
  have hE1 : dayOfYearN (⟨2022, 2, 8⟩ : Date) = 39 := by decide
  have hE2 : approxT (-180) (⟨2022, 2, 8⟩ : Date) true = ((159 : ℝ) / 4) := by
    unfold approxT lngHour
    rw [hE1]
    rw [if_pos rfl]
    norm_num
  have hE3 : meanAnomaly (-180) (⟨2022, 2, 8⟩ : Date) true = ((65543305289269 : ℝ) / 1826298179000) := by
    unfold meanAnomaly
    rw [hE2]
    norm_num
  have hE4 : ((586211331569 : ℝ) / 1000000000000) ≤ ss_sin (meanAnomaly (-180) (⟨2022, 2, 8⟩ : Date) true) ∧ ss_sin (meanAnomaly (-180) (⟨2022, 2, 8⟩ : Date) true) ≤ ((586211331571 : ℝ) / 1000000000000) := by
    have h := ss_sin_boundsPos (meanAnomaly (-180) (⟨2022, 2, 8⟩ : Date) true) ((65543305289269 : ℝ) / 1826298179000) ((65543305289269 : ℝ) / 1826298179000) ((6263744294833 : ℝ) / 10000000000000) ((3 : ℝ) / 125000000000000) ((586211331569 : ℝ) / 1000000000000) ((586211331571 : ℝ) / 1000000000000)
      (by rw [hE3]; try norm_num) (by rw [hE3]; try norm_num)
      (by norm_num) (by norm_num) (by norm_num) (by norm_num)
      (by norm_num) (by norm_num) (by norm_num [sinP]) (by norm_num [sinP])
    exact ⟨by linarith only [h.1, h.2], by linarith only [h.1, h.2]⟩
  have hE5 : ((474923904799 : ℝ) / 500000000000) ≤ ss_sin (2 * meanAnomaly (-180) (⟨2022, 2, 8⟩ : Date) true) ∧ ss_sin (2 * meanAnomaly (-180) (⟨2022, 2, 8⟩ : Date) true) ≤ ((949847809599 : ℝ) / 1000000000000) := by
    rw [ss_sin_shift90]
    have h := ss_cos_boundsNeg (2 * meanAnomaly (-180) (⟨2022, 2, 8⟩ : Date) true - 90) ((-16640112765731 : ℝ) / 913149089500) ((-16640112765731 : ℝ) / 913149089500) ((3180474678283 : ℝ) / 10000000000000) ((13 : ℝ) / 250000000000000) ((474923904799 : ℝ) / 500000000000) ((949847809599 : ℝ) / 1000000000000)
      (by rw [hE3]; try norm_num) (by rw [hE3]; try norm_num)
      (by norm_num) (by norm_num) (by norm_num) (by norm_num)
      (by norm_num) (by norm_num) (by norm_num [cosP]) (by norm_num [cosP])
    exact ⟨by linarith only [h.1, h.2], by linarith only [h.1, h.2]⟩
  have hE6 : ((15983239453589 : ℝ) / 50000000000) ≤ sunTrueLongPre (-180) (⟨2022, 2, 8⟩ : Date) true ∧ sunTrueLongPre (-180) (⟨2022, 2, 8⟩ : Date) true ≤ ((1598323945359 : ℝ) / 5000000000) := by
    unfold sunTrueLongPre
    constructor <;> linarith only [hE3, hE4.1, hE4.2, hE5.1, hE5.2]
  have hE7 : ((15983239453589 : ℝ) / 50000000000) ≤ sunTrueLong (-180) (⟨2022, 2, 8⟩ : Date) true ∧ sunTrueLong (-180) (⟨2022, 2, 8⟩ : Date) true ≤ ((1598323945359 : ℝ) / 5000000000) := by
    unfold sunTrueLong
    rw [if_neg (not_lt.mpr (by linarith only [hE6.2] : sunTrueLongPre (-180) (⟨2022, 2, 8⟩ : Date) true ≤ 360.0)), if_neg (not_lt.mpr (by linarith only [hE6.1] : 0.0 ≤ sunTrueLongPre (-180) (⟨2022, 2, 8⟩ : Date) true))]
    exact ⟨by linarith only [hE6.1], by linarith only [hE6.2]⟩
  have hE8 : ((-323629176299 : ℝ) / 500000000000) ≤ ss_sin (sunTrueLong (-180) (⟨2022, 2, 8⟩ : Date) true) ∧ ss_sin (sunTrueLong (-180) (⟨2022, 2, 8⟩ : Date) true) ≤ ((-129451670519 : ℝ) / 200000000000) := by
    rw [ss_sin_shift360]
    have h := ss_sin_boundsNeg (sunTrueLong (-180) (⟨2022, 2, 8⟩ : Date) true - 360) ((-2016760546411 : ℝ) / 50000000000) ((-201676054641 : ℝ) / 5000000000) ((7039822351837 : ℝ) / 10000000000000) ((53 : ℝ) / 250000000000000) ((-323629176299 : ℝ) / 500000000000) ((-129451670519 : ℝ) / 200000000000)
      (by linarith only [hE7.1]) (by linarith only [hE7.2])
      (by norm_num) (by norm_num) (by norm_num) (by norm_num)
      (by norm_num) (by norm_num) (by norm_num [sinP]) (by norm_num [sinP])
    exact ⟨by linarith only [h.1, h.2], by linarith only [h.1, h.2]⟩
  have hE9 : ((-3218653973 : ℝ) / 12500000000) ≤ sinDec (-180) (⟨2022, 2, 8⟩ : Date) true ∧ sinDec (-180) (⟨2022, 2, 8⟩ : Date) true ≤ ((-12874615891 : ℝ) / 50000000000) := by
    unfold sinDec
    exact ⟨by linarith only [hE8.1], by linarith only [hE8.2]⟩
  have hE10 : ((6630229373 : ℝ) / 100000000000) ≤ sinDec (-180) (⟨2022, 2, 8⟩ : Date) true ^ 2 ∧ sinDec (-180) (⟨2022, 2, 8⟩ : Date) true ^ 2 ≤ ((10608367 : ℝ) / 160000000) := by
    have h := mul_bounds_nn hE9.1 hE9.2 hE9.1 hE9.2 (by norm_num) (by norm_num)
    constructor <;> nlinarith only [h.1, h.2]
  have hE11 : ((96628034557 : ℝ) / 100000000000) ≤ cosDec (-180) (⟨2022, 2, 8⟩ : Date) true ∧ cosDec (-180) (⟨2022, 2, 8⟩ : Date) true ≤ ((96628034559 : ℝ) / 100000000000) := by
    rw [cosDec_sqrt]
    exact sqrt_bounds (by norm_num) (by norm_num) (by nlinarith only [hE10.1, hE10.2]) (by nlinarith only [hE10.1, hE10.2])
  have hE12 : ((-24972802289 : ℝ) / 100000000000) ≤ sinDec (-180) (⟨2022, 2, 8⟩ : Date) true * ss_sin 75.894 ∧ sinDec (-180) (⟨2022, 2, 8⟩ : Date) true * ss_sin 75.894 ≤ ((-24972802287 : ℝ) / 100000000000) := by
    have h := mul_bounds_np hE9.1 hE9.2 sharedTrig6.1 sharedTrig6.2 (by norm_num) (by norm_num)
    exact ⟨by linarith only [h.1], by linarith only [h.2]⟩
  have hE13 : ((23518412521 : ℝ) / 100000000000) ≤ ss_cos (zenithDeg "official") - sinDec (-180) (⟨2022, 2, 8⟩ : Date) true * ss_sin 75.894 ∧ ss_cos (zenithDeg "official") - sinDec (-180) (⟨2022, 2, 8⟩ : Date) true * ss_sin 75.894 ≤ ((5879603131 : ℝ) / 25000000000) := by
    constructor <;> linarith only [sharedTrig1.1, sharedTrig1.2, hE12.1, hE12.2]
  have hE14 : ((23549853651 : ℝ) / 100000000000) ≤ cosDec (-180) (⟨2022, 2, 8⟩ : Date) true * ss_cos 75.894 ∧ cosDec (-180) (⟨2022, 2, 8⟩ : Date) true * ss_cos 75.894 ≤ ((5887463413 : ℝ) / 25000000000) := by
    have h := mul_bounds_pp hE11.1 hE11.2 sharedTrig7.1 sharedTrig7.2 (by norm_num) (by norm_num)
    exact ⟨by linarith only [h.1], by linarith only [h.2]⟩
  have hE15 : ((99866491183 : ℝ) / 100000000000) ≤ cosH 75.894 (-180) (⟨2022, 2, 8⟩ : Date) "official" true ∧ cosH 75.894 (-180) (⟨2022, 2, 8⟩ : Date) "official" true ≤ ((99866491201 : ℝ) / 100000000000) := by
    unfold cosH
    constructor
    · apply le_div_of_pos (by linarith only [hE14.1])
      linarith only [hE13.1, hE13.2, hE14.1, hE14.2]
    · apply div_le_of_pos (by linarith only [hE14.1])
      linarith only [hE13.1, hE13.2, hE14.1, hE14.2]
  have hE16 : ((95283837899 : ℝ) / 125000000000) ≤ ss_cos (sunTrueLong (-180) (⟨2022, 2, 8⟩ : Date) true) ∧ ss_cos (sunTrueLong (-180) (⟨2022, 2, 8⟩ : Date) true) ≤ ((30490828129 : ℝ) / 40000000000) := by
    rw [ss_cos_shift360]
    have h := ss_cos_boundsNeg (sunTrueLong (-180) (⟨2022, 2, 8⟩ : Date) true - 360) ((-2016760546411 : ℝ) / 50000000000) ((-201676054641 : ℝ) / 5000000000) ((7039822351837 : ℝ) / 10000000000000) ((53 : ℝ) / 250000000000000) ((95283837899 : ℝ) / 125000000000) ((30490828129 : ℝ) / 40000000000)
      (by linarith only [hE7.1]) (by linarith only [hE7.2])
      (by norm_num) (by norm_num) (by norm_num) (by norm_num)
      (by norm_num) (by norm_num) (by norm_num [cosP]) (by norm_num [cosP])
    exact ⟨by linarith only [h.1, h.2], by linarith only [h.1, h.2]⟩
  have hE17 : ((-4245593789 : ℝ) / 5000000000) ≤ ss_tan (sunTrueLong (-180) (⟨2022, 2, 8⟩ : Date) true) ∧ ss_tan (sunTrueLong (-180) (⟨2022, 2, 8⟩ : Date) true) ≤ ((-3396475031 : ℝ) / 4000000000) := by
    rw [ss_tan_eq]
    constructor
    · apply le_div_of_pos (by linarith only [hE16.1])
      linarith only [hE8.1, hE8.2, hE16.1, hE16.2]
    · apply div_le_of_pos (by linarith only [hE16.1])
      linarith only [hE8.1, hE8.2, hE16.1, hE16.2]
  have hE18 : ((-77918533691 : ℝ) / 100000000000) ≤ 0.91764 * ss_tan (sunTrueLong (-180) (⟨2022, 2, 8⟩ : Date) true) ∧ 0.91764 * ss_tan (sunTrueLong (-180) (⟨2022, 2, 8⟩ : Date) true) ≤ ((-38959266843 : ℝ) / 50000000000) := by
    constructor <;> linarith only [hE17.1, hE17.2]
  have hE19 : ((-614632185507 : ℝ) / 1000000000000) ≤ ss_sin (((-18962599547 : ℝ) / 500000000)) ∧ ss_sin (((-18962599547 : ℝ) / 500000000)) ≤ ((-122926437101 : ℝ) / 200000000000) := by
    have h := ss_sin_boundsNeg (((-18962599547 : ℝ) / 500000000)) ((-18962599547 : ℝ) / 500000000) ((-18962599547 : ℝ) / 500000000) ((6619195936647 : ℝ) / 10000000000000) ((3 : ℝ) / 100000000000000) ((-614632185507 : ℝ) / 1000000000000) ((-122926437101 : ℝ) / 200000000000)
      (by norm_num) (by norm_num)
      (by norm_num) (by norm_num) (by norm_num) (by norm_num)
      (by norm_num) (by norm_num) (by norm_num [sinP]) (by norm_num [sinP])
    exact ⟨by linarith only [h.1, h.2], by linarith only [h.1, h.2]⟩
  have hE20 : ((788813841483 : ℝ) / 1000000000000) ≤ ss_cos (((-18962599547 : ℝ) / 500000000)) ∧ ss_cos (((-18962599547 : ℝ) / 500000000)) ≤ ((788813841499 : ℝ) / 1000000000000) := by
    have h := ss_cos_boundsNeg (((-18962599547 : ℝ) / 500000000)) ((-18962599547 : ℝ) / 500000000) ((-18962599547 : ℝ) / 500000000) ((6619195936647 : ℝ) / 10000000000000) ((3 : ℝ) / 100000000000000) ((788813841483 : ℝ) / 1000000000000) ((788813841499 : ℝ) / 1000000000000)
      (by norm_num) (by norm_num)
      (by norm_num) (by norm_num) (by norm_num) (by norm_num)
      (by norm_num) (by norm_num) (by norm_num [cosP]) (by norm_num [cosP])
    exact ⟨by linarith only [h.1, h.2], by linarith only [h.1, h.2]⟩
  have hE21 : ((-77918534537 : ℝ) / 100000000000) ≤ ss_tan (((-18962599547 : ℝ) / 500000000)) ∧ ss_tan (((-18962599547 : ℝ) / 500000000)) ≤ ((-38959267267 : ℝ) / 50000000000) := by
    rw [ss_tan_eq]
    constructor
    · apply le_div_of_pos (by linarith only [hE20.1])
      linarith only [hE19.1, hE19.2, hE20.1, hE20.2]
    · apply div_le_of_pos (by linarith only [hE20.1])
      linarith only [hE19.1, hE19.2, hE20.1, hE20.2]
  have hE22 : ((-122926435441 : ℝ) / 200000000000) ≤ ss_sin (((-37925198491 : ℝ) / 1000000000)) ∧ ss_sin (((-37925198491 : ℝ) / 1000000000)) ≤ ((-614632177203 : ℝ) / 1000000000000) := by
    have h := ss_sin_boundsNeg (((-37925198491 : ℝ) / 1000000000)) ((-37925198491 : ℝ) / 1000000000) ((-37925198491 : ℝ) / 1000000000) ((1654798957851 : ℝ) / 2500000000000) ((13 : ℝ) / 200000000000000) ((-122926435441 : ℝ) / 200000000000) ((-614632177203 : ℝ) / 1000000000000)
      (by norm_num) (by norm_num)
      (by norm_num) (by norm_num) (by norm_num) (by norm_num)
      (by norm_num) (by norm_num) (by norm_num [sinP]) (by norm_num [sinP])
    exact ⟨by linarith only [h.1, h.2], by linarith only [h.1, h.2]⟩
  have hE23 : ((49300865497 : ℝ) / 62500000000) ≤ ss_cos (((-37925198491 : ℝ) / 1000000000)) ∧ ss_cos (((-37925198491 : ℝ) / 1000000000)) ≤ ((24650432749 : ℝ) / 31250000000) := by
    have h := ss_cos_boundsNeg (((-37925198491 : ℝ) / 1000000000)) ((-37925198491 : ℝ) / 1000000000) ((-37925198491 : ℝ) / 1000000000) ((1654798957851 : ℝ) / 2500000000000) ((13 : ℝ) / 200000000000000) ((49300865497 : ℝ) / 62500000000) ((24650432749 : ℝ) / 31250000000)
      (by norm_num) (by norm_num)
      (by norm_num) (by norm_num) (by norm_num) (by norm_num)
      (by norm_num) (by norm_num) (by norm_num [cosP]) (by norm_num [cosP])
    exact ⟨by linarith only [h.1, h.2], by linarith only [h.1, h.2]⟩
  have hE24 : ((-38959266423 : ℝ) / 50000000000) ≤ ss_tan (((-37925198491 : ℝ) / 1000000000)) ∧ ss_tan (((-37925198491 : ℝ) / 1000000000)) ≤ ((-77918532843 : ℝ) / 100000000000) := by
    rw [ss_tan_eq]
    constructor
    · apply le_div_of_pos (by linarith only [hE23.1])
      linarith only [hE22.1, hE22.2, hE23.1, hE23.2]
    · apply div_le_of_pos (by linarith only [hE23.1])
      linarith only [hE22.1, hE22.2, hE23.1, hE23.2]
  have hE25 : ((-18962599547 : ℝ) / 500000000) ≤ rightAscensionRaw (-180) (⟨2022, 2, 8⟩ : Date) true ∧ rightAscensionRaw (-180) (⟨2022, 2, 8⟩ : Date) true ≤ ((-37925198491 : ℝ) / 1000000000) := by
    unfold rightAscensionRaw
    constructor
    · exact ss_atan_ge (by rw [abs_lt]; constructor <;> norm_num) (by linarith only [hE21.2, hE18.1])
    · exact ss_atan_le (by rw [abs_lt]; constructor <;> norm_num) (by linarith only [hE24.1, hE18.2])
  have hE26 : ((161037400453 : ℝ) / 500000000) ≤ rightAscensionNorm (-180) (⟨2022, 2, 8⟩ : Date) true ∧ rightAscensionNorm (-180) (⟨2022, 2, 8⟩ : Date) true ≤ ((322074801509 : ℝ) / 1000000000) := by
    unfold rightAscensionNorm
    rw [if_neg (not_lt.mpr (by linarith only [hE25.2] : rightAscensionRaw (-180) (⟨2022, 2, 8⟩ : Date) true ≤ 360.0)), if_pos (by linarith only [hE25.2] : rightAscensionRaw (-180) (⟨2022, 2, 8⟩ : Date) true < 0.0)]
    exact ⟨by linarith only [hE25.1], by linarith only [hE25.2]⟩
  have hE27 : ⌊sunTrueLong (-180) (⟨2022, 2, 8⟩ : Date) true / 90.0⌋ = (3 : ℤ) := by
    rw [Int.floor_eq_iff]
    constructor
    · push_cast
      linarith only [hE7.1]
    · push_cast
      linarith only [hE7.2]
  have hE28 : ⌊rightAscensionNorm (-180) (⟨2022, 2, 8⟩ : Date) true / 90.0⌋ = (3 : ℤ) := by
    rw [Int.floor_eq_iff]
    constructor
    · push_cast
      linarith only [hE26.1]
    · push_cast
      linarith only [hE26.2]
  have hE29 : ((161037400453 : ℝ) / 500000000) ≤ rightAscensionQuad (-180) (⟨2022, 2, 8⟩ : Date) true ∧ rightAscensionQuad (-180) (⟨2022, 2, 8⟩ : Date) true ≤ ((322074801509 : ℝ) / 1000000000) := by
    unfold rightAscensionQuad
    rw [hE27, hE28]
    push_cast
    constructor <;> linarith only [hE26.1, hE26.2]
  have hE30 : ((2147165339373 : ℝ) / 100000000000) ≤ rightAscensionHours (-180) (⟨2022, 2, 8⟩ : Date) true ∧ rightAscensionHours (-180) (⟨2022, 2, 8⟩ : Date) true ≤ ((1073582671697 : ℝ) / 50000000000) := by
    unfold rightAscensionHours
    exact ⟨by linarith only [hE29.1], by linarith only [hE29.2]⟩
  have hE31 : ((249666228003 : ℝ) / 250000000000) ≤ ss_cos (((296101702629 : ℝ) / 100000000000)) ∧ ss_cos (((296101702629 : ℝ) / 100000000000)) ≤ ((998664912013 : ℝ) / 1000000000000) := by
    have h := ss_cos_boundsPos (((296101702629 : ℝ) / 100000000000)) ((296101702629 : ℝ) / 100000000000) ((296101702629 : ℝ) / 100000000000) ((516794963163 : ℝ) / 10000000000000) ((9 : ℝ) / 125000000000000) ((249666228003 : ℝ) / 250000000000) ((998664912013 : ℝ) / 1000000000000)
      (by norm_num) (by norm_num)
      (by norm_num) (by norm_num) (by norm_num) (by norm_num)
      (by norm_num) (by norm_num) (by norm_num [cosP]) (by norm_num [cosP])
    exact ⟨by linarith only [h.1, h.2], by linarith only [h.1, h.2]⟩
  have hE32 : ((998664911827 : ℝ) / 1000000000000) ≤ ss_cos (((59220344639 : ℝ) / 20000000000)) ∧ ss_cos (((59220344639 : ℝ) / 20000000000)) ≤ ((249666227957 : ℝ) / 250000000000) := by
    have h := ss_cos_boundsPos (((59220344639 : ℝ) / 20000000000)) ((59220344639 : ℝ) / 20000000000) ((59220344639 : ℝ) / 20000000000) ((258397499529 : ℝ) / 5000000000000) ((17 : ℝ) / 1000000000000000) ((998664911827 : ℝ) / 1000000000000) ((249666227957 : ℝ) / 250000000000)
      (by norm_num) (by norm_num)
      (by norm_num) (by norm_num) (by norm_num) (by norm_num)
      (by norm_num) (by norm_num) (by norm_num [cosP]) (by norm_num [cosP])
    exact ⟨by linarith only [h.1, h.2], by linarith only [h.1, h.2]⟩
  have hE33 : ((296101702629 : ℝ) / 100000000000) ≤ ss_acos (cosH 75.894 (-180) (⟨2022, 2, 8⟩ : Date) "official" true) ∧ ss_acos (cosH 75.894 (-180) (⟨2022, 2, 8⟩ : Date) "official" true) ≤ ((59220344639 : ℝ) / 20000000000) := by
    constructor
    · exact ss_acos_ge (by norm_num) (by norm_num) (by linarith only [hE31.1, hE15.2])
    · exact ss_acos_le (by norm_num) (by norm_num) (by linarith only [hE32.2, hE15.1])
  have hE34 : ((7140779655361 : ℝ) / 20000000000) ≤ hourAngleDeg 75.894 (-180) (⟨2022, 2, 8⟩ : Date) "official" true ∧ hourAngleDeg 75.894 (-180) (⟨2022, 2, 8⟩ : Date) "official" true ≤ ((35703898297371 : ℝ) / 100000000000) := by
    unfold hourAngleDeg
    rw [if_pos rfl]
    exact ⟨by linarith only [hE33.1, hE33.2], by linarith only [hE33.1, hE33.2]⟩
  have hE35 : ((3604027974493 : ℝ) / 100000000000) ≤ localMeanTime 75.894 (-180) (⟨2022, 2, 8⟩ : Date) "official" true ∧ localMeanTime 75.894 (-180) (⟨2022, 2, 8⟩ : Date) "official" true ≤ ((1802013989943 : ℝ) / 50000000000) := by
    unfold localMeanTime
    constructor <;> linarith only [hE34.1, hE34.2, hE30.1, hE30.2, hE2]
  have hE36 : ((4804027974493 : ℝ) / 100000000000) ≤ utcPre 75.894 (-180) (⟨2022, 2, 8⟩ : Date) "official" true ∧ utcPre 75.894 (-180) (⟨2022, 2, 8⟩ : Date) "official" true ≤ ((2402013989943 : ℝ) / 50000000000) := by
    unfold utcPre lngHour
    constructor <;> linarith only [hE35.1, hE35.2]
  have hE37 : ((2404027974493 : ℝ) / 100000000000) ≤ utcWrapped 75.894 (-180) (⟨2022, 2, 8⟩ : Date) "official" true ∧ utcWrapped 75.894 (-180) (⟨2022, 2, 8⟩ : Date) "official" true ≤ ((1202013989943 : ℝ) / 50000000000) := by
    unfold utcWrapped
    rw [if_pos (by linarith only [hE36.1] : utcPre 75.894 (-180) (⟨2022, 2, 8⟩ : Date) "official" true > 24.0)]
    exact ⟨by linarith only [hE36.1], by linarith only [hE36.2]⟩
  have hE38 : localHour 75.894 (-180) (⟨2022, 2, 8⟩ : Date) "official" true = (24 : ℤ) := by
    unfold localHour
    exact pyTrunc_eval 24 (by norm_num) (by push_cast; linarith only [hE37.1]) (by push_cast; linarith only [hE37.2])
  have hE39 : ((localHour 75.894 (-180) (⟨2022, 2, 8⟩ : Date) "official" true : ℤ) : ℝ) = 24 := by
    rw [hE38]
    norm_num
  constructor
  · linarith only [hE37.1]
  · unfold ss_calc
    rw [if_pos (abs_le.mpr ⟨by linarith only [hE9.1], by linarith only [hE9.2]⟩)]
    rw [if_pos (abs_le.mpr ⟨by linarith only [hE15.1], by linarith only [hE15.2]⟩)]
    rw [hE38]
    exact pyDatetime_hour_err _ _ _ _ _ _ _ (by decide)

set_option maxHeartbeats 4000000 in
theorem eval_lat50_feb21_astronomical_hour :
    (ss_calc 50 100 (⟨2022, 2, 21⟩ : Date) "astronomical" true).map PyDatetime.hour = Except.ok (22 : ℤ) := by
  have hF1 : dayOfYearN (⟨2022, 2, 21⟩ : Date) = 52 := by decide
  have hF2 : approxT 100 (⟨2022, 2, 21⟩ : Date) true = ((1871 : ℝ) / 36) := by
    unfold approxT lngHour
    rw [hF1]
    rw [if_pos rfl]
    norm_num
  have hF3 : meanAnomaly 100 (⟨2022, 2, 21⟩ : Date) true = ((87543305289269 : ℝ) / 1826298179000) := by
    unfold meanAnomaly
    rw [hF2]
    norm_num
  have hF4 : ((74238333527 : ℝ) / 100000000000) ≤ ss_sin (meanAnomaly 100 (⟨2022, 2, 21⟩ : Date) true) ∧ ss_sin (meanAnomaly 100 (⟨2022, 2, 21⟩ : Date) true) ≤ ((74238333533 : ℝ) / 100000000000) := by
    rw [ss_sin_shift90]
    have h := ss_cos_boundsNeg (meanAnomaly 100 (⟨2022, 2, 21⟩ : Date) true - 90) ((-76823530820731 : ℝ) / 1826298179000) ((-76823530820731 : ℝ) / 1826298179000) ((36708779849 : ℝ) / 50000000000) ((47 : ℝ) / 50000000000000) ((74238333527 : ℝ) / 100000000000) ((74238333533 : ℝ) / 100000000000)
      (by rw [hF3]; try norm_num) (by rw [hF3]; try norm_num)
      (by norm_num) (by norm_num) (by norm_num) (by norm_num)
      (by norm_num) (by norm_num) (by norm_num [cosP]) (by norm_num [cosP])
    exact ⟨by linarith only [h.1, h.2], by linarith only [h.1, h.2]⟩
  have hF5 : ((19895141703 : ℝ) / 20000000000) ≤ ss_sin (2 * meanAnomaly 100 (⟨2022, 2, 21⟩ : Date) true) ∧ ss_sin (2 * meanAnomaly 100 (⟨2022, 2, 21⟩ : Date) true) ≤ ((24868927129 : ℝ) / 25000000000) := by
    rw [ss_sin_shift90]
    have h := ss_cos_boundsPos (2 * meanAnomaly 100 (⟨2022, 2, 21⟩ : Date) true - 90) ((5359887234269 : ℝ) / 913149089500) ((5359887234269 : ℝ) / 913149089500) ((25611283209 : ℝ) / 250000000000) ((39 : ℝ) / 50000000000000) ((19895141703 : ℝ) / 20000000000) ((24868927129 : ℝ) / 25000000000)
      (by rw [hF3]; try norm_num) (by rw [hF3]; try norm_num)
      (by norm_num) (by norm_num) (by norm_num) (by norm_num)
      (by norm_num) (by norm_num) (by norm_num [cosP]) (by norm_num [cosP])
    exact ⟨by linarith only [h.1, h.2], by linarith only [h.1, h.2]⟩
  have hF6 : ((830027846209 : ℝ) / 2500000000) ≤ sunTrueLongPre 100 (⟨2022, 2, 21⟩ : Date) true ∧ sunTrueLongPre 100 (⟨2022, 2, 21⟩ : Date) true ≤ ((1660055692419 : ℝ) / 5000000000) := by
    unfold sunTrueLongPre
    constructor <;> linarith only [hF3, hF4.1, hF4.2, hF5.1, hF5.2]
  have hF7 : ((830027846209 : ℝ) / 2500000000) ≤ sunTrueLong 100 (⟨2022, 2, 21⟩ : Date) true ∧ sunTrueLong 100 (⟨2022, 2, 21⟩ : Date) true ≤ ((1660055692419 : ℝ) / 5000000000) := by
    unfold sunTrueLong
    rw [if_neg (not_lt.mpr (by linarith only [hF6.2] : sunTrueLongPre 100 (⟨2022, 2, 21⟩ : Date) true ≤ 360.0)), if_neg (not_lt.mpr (by linarith only [hF6.1] : 0.0 ≤ sunTrueLongPre 100 (⟨2022, 2, 21⟩ : Date) true))]
    exact ⟨by linarith only [hF6.1], by linarith only [hF6.2]⟩
  have hF8 : ((-46929990607 : ℝ) / 100000000000) ≤ ss_sin (sunTrueLong 100 (⟨2022, 2, 21⟩ : Date) true) ∧ ss_sin (sunTrueLong 100 (⟨2022, 2, 21⟩ : Date) true) ≤ ((-23464995303 : ℝ) / 50000000000) := by
    rw [ss_sin_shift360]
    have h := ss_sin_boundsNeg (sunTrueLong 100 (⟨2022, 2, 21⟩ : Date) true - 360) ((-69972153791 : ℝ) / 2500000000) ((-139944307581 : ℝ) / 5000000000) ((97699557469 : ℝ) / 200000000000) ((129 : ℝ) / 50000000000000) ((-46929990607 : ℝ) / 100000000000) ((-23464995303 : ℝ) / 50000000000)
      (by linarith only [hF7.1]) (by linarith only [hF7.2])
      (by norm_num) (by norm_num) (by norm_num) (by norm_num)
      (by norm_num) (by norm_num) (by norm_num [sinP]) (by norm_num [sinP])
    exact ⟨by linarith only [h.1, h.2], by linarith only [h.1, h.2]⟩
  have hF9 : ((-1866968887 : ℝ) / 10000000000) ≤ sinDec 100 (⟨2022, 2, 21⟩ : Date) true ∧ sinDec 100 (⟨2022, 2, 21⟩ : Date) true ≤ ((-933484443 : ℝ) / 5000000000) := by
    unfold sinDec
    exact ⟨by linarith only [hF8.1], by linarith only [hF8.2]⟩
  have hF10 : ((174278641 : ℝ) / 5000000000) ≤ sinDec 100 (⟨2022, 2, 21⟩ : Date) true ^ 2 ∧ sinDec 100 (⟨2022, 2, 21⟩ : Date) true ^ 2 ≤ ((348557283 : ℝ) / 10000000000) := by
    have h := mul_bounds_nn hF9.1 hF9.2 hF9.1 hF9.2 (by norm_num) (by norm_num)
    constructor <;> nlinarith only [h.1, h.2]
  have hF11 : ((307005489 : ℝ) / 312500000) ≤ cosDec 100 (⟨2022, 2, 21⟩ : Date) true ∧ cosDec 100 (⟨2022, 2, 21⟩ : Date) true ≤ ((9824175649 : ℝ) / 10000000000) := by
    rw [cosDec_sqrt]
    exact sqrt_bounds (by norm_num) (by norm_num) (by nlinarith only [hF10.1, hF10.2]) (by nlinarith only [hF10.1, hF10.2])
  have hF12 : ((-715090571 : ℝ) / 5000000000) ≤ sinDec 100 (⟨2022, 2, 21⟩ : Date) true * ss_sin 50 ∧ sinDec 100 (⟨2022, 2, 21⟩ : Date) true * ss_sin 50 ≤ ((-71509057 : ℝ) / 500000000) := by
    have h := mul_bounds_np hF9.1 hF9.2 sharedTrig9.1 sharedTrig9.2 (by norm_num) (by norm_num)
    exact ⟨by linarith only [h.1], by linarith only [h.2]⟩
  have hF13 : ((-414997201 : ℝ) / 2500000000) ≤ ss_cos (zenithDeg "astronomical") - sinDec 100 (⟨2022, 2, 21⟩ : Date) true * ss_sin 50 ∧ ss_cos (zenithDeg "astronomical") - sinDec 100 (⟨2022, 2, 21⟩ : Date) true * ss_sin 50 ≤ ((-1659988801 : ℝ) / 10000000000) := by
    constructor <;> linarith only [sharedTrig8.1, sharedTrig8.2, hF12.1, hF12.2]
  have hF14 : ((6314858381 : ℝ) / 10000000000) ≤ cosDec 100 (⟨2022, 2, 21⟩ : Date) true * ss_cos 50 ∧ cosDec 100 (⟨2022, 2, 21⟩ : Date) true * ss_cos 50 ≤ ((6314858383 : ℝ) / 10000000000) := by
    have h := mul_bounds_pp hF11.1 hF11.2 sharedTrig10.1 sharedTrig10.2 (by norm_num) (by norm_num)
    exact ⟨by linarith only [h.1], by linarith only [h.2]⟩
  have hF15 : ((-1314351569 : ℝ) / 5000000000) ≤ cosH 50 100 (⟨2022, 2, 21⟩ : Date) "astronomical" true ∧ cosH 50 100 (⟨2022, 2, 21⟩ : Date) "astronomical" true ≤ ((-657175783 : ℝ) / 2500000000) := by
    unfold cosH
    constructor
    · apply le_div_of_pos (by linarith only [hF14.1])
      linarith only [hF13.1, hF13.2, hF14.1, hF14.2]
    · apply div_le_of_pos (by linarith only [hF14.1])
      linarith only [hF13.1, hF13.2, hF14.1, hF14.2]
  have hF16 : ((17660776859 : ℝ) / 20000000000) ≤ ss_cos (sunTrueLong 100 (⟨2022, 2, 21⟩ : Date) true) ∧ ss_cos (sunTrueLong 100 (⟨2022, 2, 21⟩ : Date) true) ≤ ((11037985537 : ℝ) / 12500000000) := by
    rw [ss_cos_shift360]
    have h := ss_cos_boundsNeg (sunTrueLong 100 (⟨2022, 2, 21⟩ : Date) true - 360) ((-69972153791 : ℝ) / 2500000000) ((-139944307581 : ℝ) / 5000000000) ((97699557469 : ℝ) / 200000000000) ((129 : ℝ) / 50000000000000) ((17660776859 : ℝ) / 20000000000) ((11037985537 : ℝ) / 12500000000)
      (by linarith only [hF7.1]) (by linarith only [hF7.2])
      (by norm_num) (by norm_num) (by norm_num) (by norm_num)
      (by norm_num) (by norm_num) (by norm_num [cosP]) (by norm_num [cosP])
    exact ⟨by linarith only [h.1, h.2], by linarith only [h.1, h.2]⟩
  have hF17 : ((-664325117 : ℝ) / 1250000000) ≤ ss_tan (sunTrueLong 100 (⟨2022, 2, 21⟩ : Date) true) ∧ ss_tan (sunTrueLong 100 (⟨2022, 2, 21⟩ : Date) true) ≤ ((-1062920187 : ℝ) / 2000000000) := by
    rw [ss_tan_eq]
    constructor
    · apply le_div_of_pos (by linarith only [hF16.1])
      linarith only [hF8.1, hF8.2, hF16.1, hF16.2]
    · apply div_le_of_pos (by linarith only [hF16.1])
      linarith only [hF8.1, hF8.2, hF16.1, hF16.2]
  have hF18 : ((-4876890403 : ℝ) / 10000000000) ≤ 0.91764 * ss_tan (sunTrueLong 100 (⟨2022, 2, 21⟩ : Date) true) ∧ 0.91764 * ss_tan (sunTrueLong 100 (⟨2022, 2, 21⟩ : Date) true) ≤ ((-4876890401 : ℝ) / 10000000000) := by
    constructor <;> linarith only [hF17.1, hF17.2]
  have hF19 : ((-43833953159 : ℝ) / 100000000000) ≤ ss_sin (((-2599798463 : ℝ) / 100000000)) ∧ ss_sin (((-2599798463 : ℝ) / 100000000)) ≤ ((-43833953157 : ℝ) / 100000000000) := by
    have h := ss_sin_boundsNeg (((-2599798463 : ℝ) / 100000000)) ((-2599798463 : ℝ) / 100000000) ((-2599798463 : ℝ) / 100000000) ((453750430677 : ℝ) / 1000000000000) ((63 : ℝ) / 100000000000000) ((-43833953159 : ℝ) / 100000000000) ((-43833953157 : ℝ) / 100000000000)
      (by norm_num) (by norm_num)
      (by norm_num) (by norm_num) (by norm_num) (by norm_num)
      (by norm_num) (by norm_num) (by norm_num [sinP]) (by norm_num [sinP])
    exact ⟨by linarith only [h.1, h.2], by linarith only [h.1, h.2]⟩
  have hF20 : ((89880946537 : ℝ) / 100000000000) ≤ ss_cos (((-2599798463 : ℝ) / 100000000)) ∧ ss_cos (((-2599798463 : ℝ) / 100000000)) ≤ ((44940473269 : ℝ) / 50000000000) := by
    have h := ss_cos_boundsNeg (((-2599798463 : ℝ) / 100000000)) ((-2599798463 : ℝ) / 100000000) ((-2599798463 : ℝ) / 100000000) ((453750430677 : ℝ) / 1000000000000) ((63 : ℝ) / 100000000000000) ((89880946537 : ℝ) / 100000000000) ((44940473269 : ℝ) / 50000000000)
      (by norm_num) (by norm_num)
      (by norm_num) (by norm_num) (by norm_num) (by norm_num)
      (by norm_num) (by norm_num) (by norm_num [cosP]) (by norm_num [cosP])
    exact ⟨by linarith only [h.1, h.2], by linarith only [h.1, h.2]⟩
  have hF21 : ((-487689047 : ℝ) / 1000000000) ≤ ss_tan (((-2599798463 : ℝ) / 100000000)) ∧ ss_tan (((-2599798463 : ℝ) / 100000000)) ≤ ((-4876890469 : ℝ) / 10000000000) := by
    rw [ss_tan_eq]
    constructor
    · apply le_div_of_pos (by linarith only [hF20.1])
      linarith only [hF19.1, hF19.2, hF20.1, hF20.2]
    · apply div_le_of_pos (by linarith only [hF20.1])
      linarith only [hF19.1, hF19.2, hF20.1, hF20.2]
  have hF22 : ((-21916976093 : ℝ) / 50000000000) ≤ ss_sin (((-2599798401 : ℝ) / 100000000)) ∧ ss_sin (((-2599798401 : ℝ) / 100000000)) ≤ ((-8766790437 : ℝ) / 20000000000) := by
    have h := ss_sin_boundsNeg (((-2599798401 : ℝ) / 100000000)) ((-2599798401 : ℝ) / 100000000) ((-2599798401 : ℝ) / 100000000) ((28359401241 : ℝ) / 62500000000) ((67 : ℝ) / 100000000000000) ((-21916976093 : ℝ) / 50000000000) ((-8766790437 : ℝ) / 20000000000)
      (by norm_num) (by norm_num)
      (by norm_num) (by norm_num) (by norm_num) (by norm_num)
      (by norm_num) (by norm_num) (by norm_num [sinP]) (by norm_num [sinP])
    exact ⟨by linarith only [h.1, h.2], by linarith only [h.1, h.2]⟩
  have hF23 : ((22470236753 : ℝ) / 25000000000) ≤ ss_cos (((-2599798401 : ℝ) / 100000000)) ∧ ss_cos (((-2599798401 : ℝ) / 100000000)) ≤ ((89880947013 : ℝ) / 100000000000) := by
    have h := ss_cos_boundsNeg (((-2599798401 : ℝ) / 100000000)) ((-2599798401 : ℝ) / 100000000) ((-2599798401 : ℝ) / 100000000) ((28359401241 : ℝ) / 62500000000) ((67 : ℝ) / 100000000000000) ((22470236753 : ℝ) / 25000000000) ((89880947013 : ℝ) / 100000000000)
      (by norm_num) (by norm_num)
      (by norm_num) (by norm_num) (by norm_num) (by norm_num)
      (by norm_num) (by norm_num) (by norm_num [cosP]) (by norm_num [cosP])
    exact ⟨by linarith only [h.1, h.2], by linarith only [h.1, h.2]⟩
  have hF24 : ((-152402823 : ℝ) / 312500000) ≤ ss_tan (((-2599798401 : ℝ) / 100000000)) ∧ ss_tan (((-2599798401 : ℝ) / 100000000)) ≤ ((-975378067 : ℝ) / 2000000000) := by
    rw [ss_tan_eq]
    constructor
    · apply le_div_of_pos (by linarith only [hF23.1])
      linarith only [hF22.1, hF22.2, hF23.1, hF23.2]
    · apply div_le_of_pos (by linarith only [hF23.1])
      linarith only [hF22.1, hF22.2, hF23.1, hF23.2]
  have hF25 : ((-2599798463 : ℝ) / 100000000) ≤ rightAscensionRaw 100 (⟨2022, 2, 21⟩ : Date) true ∧ rightAscensionRaw 100 (⟨2022, 2, 21⟩ : Date) true ≤ ((-2599798401 : ℝ) / 100000000) := by
    unfold rightAscensionRaw
    constructor
    · exact ss_atan_ge (by rw [abs_lt]; constructor <;> norm_num) (by linarith only [hF21.2, hF18.1])
    · exact ss_atan_le (by rw [abs_lt]; constructor <;> norm_num) (by linarith only [hF24.1, hF18.2])
  have hF26 : ((33400201537 : ℝ) / 100000000) ≤ rightAscensionNorm 100 (⟨2022, 2, 21⟩ : Date) true ∧ rightAscensionNorm 100 (⟨2022, 2, 21⟩ : Date) true ≤ ((33400201599 : ℝ) / 100000000) := by
    unfold rightAscensionNorm
    rw [if_neg (not_lt.mpr (by linarith only [hF25.2] : rightAscensionRaw 100 (⟨2022, 2, 21⟩ : Date) true ≤ 360.0)), if_pos (by linarith only [hF25.2] : rightAscensionRaw 100 (⟨2022, 2, 21⟩ : Date) true < 0.0)]
    exact ⟨by linarith only [hF25.1], by linarith only [hF25.2]⟩
  have hF27 : ⌊sunTrueLong 100 (⟨2022, 2, 21⟩ : Date) true / 90.0⌋ = (3 : ℤ) := by
    rw [Int.floor_eq_iff]
    constructor
    · push_cast
      linarith only [hF7.1]
    · push_cast
      linarith only [hF7.2]
  have hF28 : ⌊rightAscensionNorm 100 (⟨2022, 2, 21⟩ : Date) true / 90.0⌋ = (3 : ℤ) := by
    rw [Int.floor_eq_iff]
    constructor
    · push_cast
      linarith only [hF26.1]
    · push_cast
      linarith only [hF26.2]
  have hF29 : ((33400201537 : ℝ) / 100000000) ≤ rightAscensionQuad 100 (⟨2022, 2, 21⟩ : Date) true ∧ rightAscensionQuad 100 (⟨2022, 2, 21⟩ : Date) true ≤ ((33400201599 : ℝ) / 100000000) := by
    unfold rightAscensionQuad
    rw [hF27, hF28]
    push_cast
    constructor <;> linarith only [hF26.1, hF26.2]
  have hF30 : ((111334005123 : ℝ) / 5000000000) ≤ rightAscensionHours 100 (⟨2022, 2, 21⟩ : Date) true ∧ rightAscensionHours 100 (⟨2022, 2, 21⟩ : Date) true ≤ ((11133400533 : ℝ) / 500000000) := by
    unfold rightAscensionHours
    exact ⟨by linarith only [hF29.1], by linarith only [hF29.2]⟩
  have hF31 : ((-5257406263 : ℝ) / 20000000000) ≤ ss_cos (((1052404447787 : ℝ) / 10000000000)) ∧ ss_cos (((1052404447787 : ℝ) / 10000000000)) ≤ ((-13143515657 : ℝ) / 50000000000) := by
    rw [ss_cos_shift90]
    have h := ss_sin_boundsPos (((1052404447787 : ℝ) / 10000000000) - 90) ((152404447787 : ℝ) / 10000000000) ((152404447787 : ℝ) / 10000000000) ((33249492607 : ℝ) / 125000000000) ((7 : ℝ) / 10000000000000) ((13143515657 : ℝ) / 50000000000) ((5257406263 : ℝ) / 20000000000)
      (by norm_num) (by norm_num)
      (by norm_num) (by norm_num) (by norm_num) (by norm_num)
      (by norm_num) (by norm_num) (by norm_num [sinP]) (by norm_num [sinP])
    exact ⟨by linarith only [h.1, h.2], by linarith only [h.1, h.2]⟩
  have hF32 : ((-13143515693 : ℝ) / 50000000000) ≤ ss_cos (((263101112051 : ℝ) / 2500000000)) ∧ ss_cos (((263101112051 : ℝ) / 2500000000)) ≤ ((-5257406277 : ℝ) / 20000000000) := by
    rw [ss_cos_shift90]
    have h := ss_sin_boundsPos (((263101112051 : ℝ) / 2500000000) - 90) ((38101112051 : ℝ) / 2500000000) ((38101112051 : ℝ) / 2500000000) ((16624746349 : ℝ) / 62500000000) ((1 : ℝ) / 2000000000000) ((5257406277 : ℝ) / 20000000000) ((13143515693 : ℝ) / 50000000000)
      (by norm_num) (by norm_num)
      (by norm_num) (by norm_num) (by norm_num) (by norm_num)
      (by norm_num) (by norm_num) (by norm_num [sinP]) (by norm_num [sinP])
    exact ⟨by linarith only [h.1, h.2], by linarith only [h.1, h.2]⟩
  have hF33 : ((1052404447787 : ℝ) / 10000000000) ≤ ss_acos (cosH 50 100 (⟨2022, 2, 21⟩ : Date) "astronomical" true) ∧ ss_acos (cosH 50 100 (⟨2022, 2, 21⟩ : Date) "astronomical" true) ≤ ((263101112051 : ℝ) / 2500000000) := by
    constructor
    · exact ss_acos_ge (by norm_num) (by norm_num) (by linarith only [hF31.1, hF15.2])
    · exact ss_acos_le (by norm_num) (by norm_num) (by linarith only [hF32.2, hF15.1])
  have hF34 : ((636898887949 : ℝ) / 2500000000) ≤ hourAngleDeg 50 100 (⟨2022, 2, 21⟩ : Date) "astronomical" true ∧ hourAngleDeg 50 100 (⟨2022, 2, 21⟩ : Date) "astronomical" true ≤ ((2547595552213 : ℝ) / 10000000000) := by
    unfold hourAngleDeg
    rw [if_pos rfl]
    exact ⟨by linarith only [hF33.1, hF33.2], by linarith only [hF33.1, hF33.2]⟩
  have hF35 : ((73034191619 : ℝ) / 2500000000) ≤ localMeanTime 50 100 (⟨2022, 2, 21⟩ : Date) "astronomical" true ∧ localMeanTime 50 100 (⟨2022, 2, 21⟩ : Date) "astronomical" true ≤ ((292136766919 : ℝ) / 10000000000) := by
    unfold localMeanTime
    constructor <;> linarith only [hF34.1, hF34.2, hF30.1, hF30.2, hF2]
  have hF36 : ((225470099809 : ℝ) / 10000000000) ≤ utcPre 50 100 (⟨2022, 2, 21⟩ : Date) "astronomical" true ∧ utcPre 50 100 (⟨2022, 2, 21⟩ : Date) "astronomical" true ≤ ((225470100253 : ℝ) / 10000000000) := by
    unfold utcPre lngHour
    constructor <;> linarith only [hF35.1, hF35.2]
  have hF37 : ((225470099809 : ℝ) / 10000000000) ≤ utcWrapped 50 100 (⟨2022, 2, 21⟩ : Date) "astronomical" true ∧ utcWrapped 50 100 (⟨2022, 2, 21⟩ : Date) "astronomical" true ≤ ((225470100253 : ℝ) / 10000000000) := by
    unfold utcWrapped
    rw [if_neg (not_lt.mpr (by linarith only [hF36.2] : utcPre 50 100 (⟨2022, 2, 21⟩ : Date) "astronomical" true ≤ 24.0)), if_neg (not_lt.mpr (by linarith only [hF36.1] : 0.0 ≤ utcPre 50 100 (⟨2022, 2, 21⟩ : Date) "astronomical" true))]
    exact ⟨by linarith only [hF36.1], by linarith only [hF36.2]⟩
  have hF38 : localHour 50 100 (⟨2022, 2, 21⟩ : Date) "astronomical" true = (22 : ℤ) := by
    unfold localHour
    exact pyTrunc_eval 22 (by norm_num) (by push_cast; linarith only [hF37.1]) (by push_cast; linarith only [hF37.2])
  have hF39 : ((localHour 50 100 (⟨2022, 2, 21⟩ : Date) "astronomical" true : ℤ) : ℝ) = 22 := by
    rw [hF38]
    norm_num
  have hF40 : 0 ≤ localMinute 50 100 (⟨2022, 2, 21⟩ : Date) "astronomical" true ∧ localMinute 50 100 (⟨2022, 2, 21⟩ : Date) "astronomical" true ≤ 59 := by
    unfold localMinute
    rw [hF39]
    exact pyTrunc_range 59 (by linarith only [hF37.1]) (by push_cast; linarith only [hF37.2])
  have hF41 : ((localMinute 50 100 (⟨2022, 2, 21⟩ : Date) "astronomical" true : ℤ) : ℝ) ≤ (utcWrapped 50 100 (⟨2022, 2, 21⟩ : Date) "astronomical" true - 22) * 60.0 ∧ (utcWrapped 50 100 (⟨2022, 2, 21⟩ : Date) "astronomical" true - 22) * 60.0 < ((localMinute 50 100 (⟨2022, 2, 21⟩ : Date) "astronomical" true : ℤ) : ℝ) + 1 := by
    unfold localMinute
    rw [hF39]
    exact pyTrunc_bracket (by linarith only [hF37.1])
  have hF42 : 0 ≤ localSecond 50 100 (⟨2022, 2, 21⟩ : Date) "astronomical" true ∧ localSecond 50 100 (⟨2022, 2, 21⟩ : Date) "astronomical" true ≤ 59 := by
    unfold localSecond
    rw [hF39]
    exact pyTrunc_range 59 (by linarith only [hF41.1]) (by push_cast; linarith only [hF41.2])
  unfold ss_calc
  rw [if_pos (abs_le.mpr ⟨by linarith only [hF9.1], by linarith only [hF9.2]⟩)]
  rw [if_pos (abs_le.mpr ⟨by linarith only [hF15.1], by linarith only [hF15.2]⟩)]
  rw [hF38]
  exact pyDatetime_hour _ _ _ _ _ _ _ (by decide) (by decide) (by decide) (by decide) (by decide) (by decide) (by decide) (by decide) hF40.1 hF40.2 hF42.1 hF42.2

set_option maxHeartbeats 4000000 in
theorem eval_lat50_feb21_official_hour :
    (ss_calc 50 100 (⟨2022, 2, 21⟩ : Date) "official" true).map PyDatetime.hour = Except.ok (0 : ℤ) := by
  have hG1 : dayOfYearN (⟨2022, 2, 21⟩ : Date) = 52 := by decide
  have hG2 : approxT 100 (⟨2022, 2, 21⟩ : Date) true = ((1871 : ℝ) / 36) := by
    unfold approxT lngHour
    rw [hG1]
    rw [if_pos rfl]
    norm_num
  have hG3 : meanAnomaly 100 (⟨2022, 2, 21⟩ : Date) true = ((87543305289269 : ℝ) / 1826298179000) := by
    unfold meanAnomaly
    rw [hG2]
    norm_num
  have hG4 : ((74238333527 : ℝ) / 100000000000) ≤ ss_sin (meanAnomaly 100 (⟨2022, 2, 21⟩ : Date) true) ∧ ss_sin (meanAnomaly 100 (⟨2022, 2, 21⟩ : Date) true) ≤ ((74238333533 : ℝ) / 100000000000) := by
    rw [ss_sin_shift90]
    have h := ss_cos_boundsNeg (meanAnomaly 100 (⟨2022, 2, 21⟩ : Date) true - 90) ((-76823530820731 : ℝ) / 1826298179000) ((-76823530820731 : ℝ) / 1826298179000) ((36708779849 : ℝ) / 50000000000) ((47 : ℝ) / 50000000000000) ((74238333527 : ℝ) / 100000000000) ((74238333533 : ℝ) / 100000000000)
      (by rw [hG3]; try norm_num) (by rw [hG3]; try norm_num)
      (by norm_num) (by norm_num) (by norm_num) (by norm_num)
      (by norm_num) (by norm_num) (by norm_num [cosP]) (by norm_num [cosP])
    exact ⟨by linarith only [h.1, h.2], by linarith only [h.1, h.2]⟩
  have hG5 : ((19895141703 : ℝ) / 20000000000) ≤ ss_sin (2 * meanAnomaly 100 (⟨2022, 2, 21⟩ : Date) true) ∧ ss_sin (2 * meanAnomaly 100 (⟨2022, 2, 21⟩ : Date) true) ≤ ((24868927129 : ℝ) / 25000000000) := by
    rw [ss_sin_shift90]
    have h := ss_cos_boundsPos (2 * meanAnomaly 100 (⟨2022, 2, 21⟩ : Date) true - 90) ((5359887234269 : ℝ) / 913149089500) ((5359887234269 : ℝ) / 913149089500) ((25611283209 : ℝ) / 250000000000) ((39 : ℝ) / 50000000000000) ((19895141703 : ℝ) / 20000000000) ((24868927129 : ℝ) / 25000000000)
      (by rw [hG3]; try norm_num) (by rw [hG3]; try norm_num)
      (by norm_num) (by norm_num) (by norm_num) (by norm_num)
      (by norm_num) (by norm_num) (by norm_num [cosP]) (by norm_num [cosP])
    exact ⟨by linarith only [h.1, h.2], by linarith only [h.1, h.2]⟩
  have hG6 : ((830027846209 : ℝ) / 2500000000) ≤ sunTrueLongPre 100 (⟨2022, 2, 21⟩ : Date) true ∧ sunTrueLongPre 100 (⟨2022, 2, 21⟩ : Date) true ≤ ((1660055692419 : ℝ) / 5000000000) := by
    unfold sunTrueLongPre
    constructor <;> linarith only [hG3, hG4.1, hG4.2, hG5.1, hG5.2]
  have hG7 : ((830027846209 : ℝ) / 2500000000) ≤ sunTrueLong 100 (⟨2022, 2, 21⟩ : Date) true ∧ sunTrueLong 100 (⟨2022, 2, 21⟩ : Date) true ≤ ((1660055692419 : ℝ) / 5000000000) := by
    unfold sunTrueLong
    rw [if_neg (not_lt.mpr (by linarith only [hG6.2] : sunTrueLongPre 100 (⟨2022, 2, 21⟩ : Date) true ≤ 360.0)), if_neg (not_lt.mpr (by linarith only [hG6.1] : 0.0 ≤ sunTrueLongPre 100 (⟨2022, 2, 21⟩ : Date) true))]
    exact ⟨by linarith only [hG6.1], by linarith only [hG6.2]⟩
  have hG8 : ((-46929990607 : ℝ) / 100000000000) ≤ ss_sin (sunTrueLong 100 (⟨2022, 2, 21⟩ : Date) true) ∧ ss_sin (sunTrueLong 100 (⟨2022, 2, 21⟩ : Date) true) ≤ ((-23464995303 : ℝ) / 50000000000) := by
    rw [ss_sin_shift360]
    have h := ss_sin_boundsNeg (sunTrueLong 100 (⟨2022, 2, 21⟩ : Date) true - 360) ((-69972153791 : ℝ) / 2500000000) ((-139944307581 : ℝ) / 5000000000) ((97699557469 : ℝ) / 200000000000) ((129 : ℝ) / 50000000000000) ((-46929990607 : ℝ) / 100000000000) ((-23464995303 : ℝ) / 50000000000)
      (by linarith only [hG7.1]) (by linarith only [hG7.2])
      (by norm_num) (by norm_num) (by norm_num) (by norm_num)
      (by norm_num) (by norm_num) (by norm_num [sinP]) (by norm_num [sinP])
    exact ⟨by linarith only [h.1, h.2], by linarith only [h.1, h.2]⟩
  have hG9 : ((-1866968887 : ℝ) / 10000000000) ≤ sinDec 100 (⟨2022, 2, 21⟩ : Date) true ∧ sinDec 100 (⟨2022, 2, 21⟩ : Date) true ≤ ((-933484443 : ℝ) / 5000000000) := by
    unfold sinDec
    exact ⟨by linarith only [hG8.1], by linarith only [hG8.2]⟩
  have hG10 : ((174278641 : ℝ) / 5000000000) ≤ sinDec 100 (⟨2022, 2, 21⟩ : Date) true ^ 2 ∧ sinDec 100 (⟨2022, 2, 21⟩ : Date) true ^ 2 ≤ ((348557283 : ℝ) / 10000000000) := by
    have h := mul_bounds_nn hG9.1 hG9.2 hG9.1 hG9.2 (by norm_num) (by norm_num)
    constructor <;> nlinarith only [h.1, h.2]
  have hG11 : ((307005489 : ℝ) / 312500000) ≤ cosDec 100 (⟨2022, 2, 21⟩ : Date) true ∧ cosDec 100 (⟨2022, 2, 21⟩ : Date) true ≤ ((9824175649 : ℝ) / 10000000000) := by
    rw [cosDec_sqrt]
    exact sqrt_bounds (by norm_num) (by norm_num) (by nlinarith only [hG10.1, hG10.2]) (by nlinarith only [hG10.1, hG10.2])
  have hG12 : ((-715090571 : ℝ) / 5000000000) ≤ sinDec 100 (⟨2022, 2, 21⟩ : Date) true * ss_sin 50 ∧ sinDec 100 (⟨2022, 2, 21⟩ : Date) true * ss_sin 50 ≤ ((-71509057 : ℝ) / 500000000) := by
    have h := mul_bounds_np hG9.1 hG9.2 sharedTrig9.1 sharedTrig9.2 (by norm_num) (by norm_num)
    exact ⟨by linarith only [h.1], by linarith only [h.2]⟩
  have hG13 : ((1284742163 : ℝ) / 10000000000) ≤ ss_cos (zenithDeg "official") - sinDec 100 (⟨2022, 2, 21⟩ : Date) true * ss_sin 50 ∧ ss_cos (zenithDeg "official") - sinDec 100 (⟨2022, 2, 21⟩ : Date) true * ss_sin 50 ≤ ((642371083 : ℝ) / 5000000000) := by
    constructor <;> linarith only [sharedTrig1.1, sharedTrig1.2, hG12.1, hG12.2]
  have hG14 : ((6314858381 : ℝ) / 10000000000) ≤ cosDec 100 (⟨2022, 2, 21⟩ : Date) true * ss_cos 50 ∧ cosDec 100 (⟨2022, 2, 21⟩ : Date) true * ss_cos 50 ≤ ((6314858383 : ℝ) / 10000000000) := by
    have h := mul_bounds_pp hG11.1 hG11.2 sharedTrig10.1 sharedTrig10.2 (by norm_num) (by norm_num)
    exact ⟨by linarith only [h.1], by linarith only [h.2]⟩
  have hG15 : ((2034475019 : ℝ) / 10000000000) ≤ cosH 50 100 (⟨2022, 2, 21⟩ : Date) "official" true ∧ cosH 50 100 (⟨2022, 2, 21⟩ : Date) "official" true ≤ ((81379001 : ℝ) / 400000000) := by
    unfold cosH
    constructor
    · apply le_div_of_pos (by linarith only [hG14.1])
      linarith only [hG13.1, hG13.2, hG14.1, hG14.2]
    · apply div_le_of_pos (by linarith only [hG14.1])
      linarith only [hG13.1, hG13.2, hG14.1, hG14.2]
  have hG16 : ((17660776859 : ℝ) / 20000000000) ≤ ss_cos (sunTrueLong 100 (⟨2022, 2, 21⟩ : Date) true) ∧ ss_cos (sunTrueLong 100 (⟨2022, 2, 21⟩ : Date) true) ≤ ((11037985537 : ℝ) / 12500000000) := by
    rw [ss_cos_shift360]
    have h := ss_cos_boundsNeg (sunTrueLong 100 (⟨2022, 2, 21⟩ : Date) true - 360) ((-69972153791 : ℝ) / 2500000000) ((-139944307581 : ℝ) / 5000000000) ((97699557469 : ℝ) / 200000000000) ((129 : ℝ) / 50000000000000) ((17660776859 : ℝ) / 20000000000) ((11037985537 : ℝ) / 12500000000)
      (by linarith only [hG7.1]) (by linarith only [hG7.2])
      (by norm_num) (by norm_num) (by norm_num) (by norm_num)
      (by norm_num) (by norm_num) (by norm_num [cosP]) (by norm_num [cosP])
    exact ⟨by linarith only [h.1, h.2], by linarith only [h.1, h.2]⟩
  have hG17 : ((-664325117 : ℝ) / 1250000000) ≤ ss_tan (sunTrueLong 100 (⟨2022, 2, 21⟩ : Date) true) ∧ ss_tan (sunTrueLong 100 (⟨2022, 2, 21⟩ : Date) true) ≤ ((-1062920187 : ℝ) / 2000000000) := by
    rw [ss_tan_eq]
    constructor
    · apply le_div_of_pos (by linarith only [hG16.1])
      linarith only [hG8.1, hG8.2, hG16.1, hG16.2]
    · apply div_le_of_pos (by linarith only [hG16.1])
      linarith only [hG8.1, hG8.2, hG16.1, hG16.2]
  have hG18 : ((-4876890403 : ℝ) / 10000000000) ≤ 0.91764 * ss_tan (sunTrueLong 100 (⟨2022, 2, 21⟩ : Date) true) ∧ 0.91764 * ss_tan (sunTrueLong 100 (⟨2022, 2, 21⟩ : Date) true) ≤ ((-4876890401 : ℝ) / 10000000000) := by
    constructor <;> linarith only [hG17.1, hG17.2]
  have hG19 : ((-43833953159 : ℝ) / 100000000000) ≤ ss_sin (((-2599798463 : ℝ) / 100000000)) ∧ ss_sin (((-2599798463 : ℝ) / 100000000)) ≤ ((-43833953157 : ℝ) / 100000000000) := by
    have h := ss_sin_boundsNeg (((-2599798463 : ℝ) / 100000000)) ((-2599798463 : ℝ) / 100000000) ((-2599798463 : ℝ) / 100000000) ((453750430677 : ℝ) / 1000000000000) ((63 : ℝ) / 100000000000000) ((-43833953159 : ℝ) / 100000000000) ((-43833953157 : ℝ) / 100000000000)
      (by norm_num) (by norm_num)
      (by norm_num) (by norm_num) (by norm_num) (by norm_num)
      (by norm_num) (by norm_num) (by norm_num [sinP]) (by norm_num [sinP])
    exact ⟨by linarith only [h.1, h.2], by linarith only [h.1, h.2]⟩
  have hG20 : ((89880946537 : ℝ) / 100000000000) ≤ ss_cos (((-2599798463 : ℝ) / 100000000)) ∧ ss_cos (((-2599798463 : ℝ) / 100000000)) ≤ ((44940473269 : ℝ) / 50000000000) := by
    have h := ss_cos_boundsNeg (((-2599798463 : ℝ) / 100000000)) ((-2599798463 : ℝ) / 100000000) ((-2599798463 : ℝ) / 100000000) ((453750430677 : ℝ) / 1000000000000) ((63 : ℝ) / 100000000000000) ((89880946537 : ℝ) / 100000000000) ((44940473269 : ℝ) / 50000000000)
      (by norm_num) (by norm_num)
      (by norm_num) (by norm_num) (by norm_num) (by norm_num)
      (by norm_num) (by norm_num) (by norm_num [cosP]) (by norm_num [cosP])
    exact ⟨by linarith only [h.1, h.2], by linarith only [h.1, h.2]⟩
  have hG21 : ((-487689047 : ℝ) / 1000000000) ≤ ss_tan (((-2599798463 : ℝ) / 100000000)) ∧ ss_tan (((-2599798463 : ℝ) / 100000000)) ≤ ((-4876890469 : ℝ) / 10000000000) := by
    rw [ss_tan_eq]
    constructor
    · apply le_div_of_pos (by linarith only [hG20.1])
      linarith only [hG19.1, hG19.2, hG20.1, hG20.2]
    · apply div_le_of_pos (by linarith only [hG20.1])
      linarith only [hG19.1, hG19.2, hG20.1, hG20.2]
  have hG22 : ((-21916976093 : ℝ) / 50000000000) ≤ ss_sin (((-2599798401 : ℝ) / 100000000)) ∧ ss_sin (((-2599798401 : ℝ) / 100000000)) ≤ ((-8766790437 : ℝ) / 20000000000) := by
    have h := ss_sin_boundsNeg (((-2599798401 : ℝ) / 100000000)) ((-2599798401 : ℝ) / 100000000) ((-2599798401 : ℝ) / 100000000) ((28359401241 : ℝ) / 62500000000) ((67 : ℝ) / 100000000000000) ((-21916976093 : ℝ) / 50000000000) ((-8766790437 : ℝ) / 20000000000)
      (by norm_num) (by norm_num)
      (by norm_num) (by norm_num) (by norm_num) (by norm_num)
      (by norm_num) (by norm_num) (by norm_num [sinP]) (by norm_num [sinP])
    exact ⟨by linarith only [h.1, h.2], by linarith only [h.1, h.2]⟩
  have hG23 : ((22470236753 : ℝ) / 25000000000) ≤ ss_cos (((-2599798401 : ℝ) / 100000000)) ∧ ss_cos (((-2599798401 : ℝ) / 100000000)) ≤ ((89880947013 : ℝ) / 100000000000) := by
    have h := ss_cos_boundsNeg (((-2599798401 : ℝ) / 100000000)) ((-2599798401 : ℝ) / 100000000) ((-2599798401 : ℝ) / 100000000) ((28359401241 : ℝ) / 62500000000) ((67 : ℝ) / 100000000000000) ((22470236753 : ℝ) / 25000000000) ((89880947013 : ℝ) / 100000000000)
      (by norm_num) (by norm_num)
      (by norm_num) (by norm_num) (by norm_num) (by norm_num)
      (by norm_num) (by norm_num) (by norm_num [cosP]) (by norm_num [cosP])
    exact ⟨by linarith only [h.1, h.2], by linarith only [h.1, h.2]⟩
  have hG24 : ((-152402823 : ℝ) / 312500000) ≤ ss_tan (((-2599798401 : ℝ) / 100000000)) ∧ ss_tan (((-2599798401 : ℝ) / 100000000)) ≤ ((-975378067 : ℝ) / 2000000000) := by
    rw [ss_tan_eq]
    constructor
    · apply le_div_of_pos (by linarith only [hG23.1])
      linarith only [hG22.1, hG22.2, hG23.1, hG23.2]
    · apply div_le_of_pos (by linarith only [hG23.1])
      linarith only [hG22.1, hG22.2, hG23.1, hG23.2]
  have hG25 : ((-2599798463 : ℝ) / 100000000) ≤ rightAscensionRaw 100 (⟨2022, 2, 21⟩ : Date) true ∧ rightAscensionRaw 100 (⟨2022, 2, 21⟩ : Date) true ≤ ((-2599798401 : ℝ) / 100000000) := by
    unfold rightAscensionRaw
    constructor
    · exact ss_atan_ge (by rw [abs_lt]; constructor <;> norm_num) (by linarith only [hG21.2, hG18.1])
    · exact ss_atan_le (by rw [abs_lt]; constructor <;> norm_num) (by linarith only [hG24.1, hG18.2])
  have hG26 : ((33400201537 : ℝ) / 100000000) ≤ rightAscensionNorm 100 (⟨2022, 2, 21⟩ : Date) true ∧ rightAscensionNorm 100 (⟨2022, 2, 21⟩ : Date) true ≤ ((33400201599 : ℝ) / 100000000) := by
    unfold rightAscensionNorm
    rw [if_neg (not_lt.mpr (by linarith only [hG25.2] : rightAscensionRaw 100 (⟨2022, 2, 21⟩ : Date) true ≤ 360.0)), if_pos (by linarith only [hG25.2] : rightAscensionRaw 100 (⟨2022, 2, 21⟩ : Date) true < 0.0)]
    exact ⟨by linarith only [hG25.1], by linarith only [hG25.2]⟩
  have hG27 : ⌊sunTrueLong 100 (⟨2022, 2, 21⟩ : Date) true / 90.0⌋ = (3 : ℤ) := by
    rw [Int.floor_eq_iff]
    constructor
    · push_cast
      linarith only [hG7.1]
    · push_cast
      linarith only [hG7.2]
  have hG28 : ⌊rightAscensionNorm 100 (⟨2022, 2, 21⟩ : Date) true / 90.0⌋ = (3 : ℤ) := by
    rw [Int.floor_eq_iff]
    constructor
    · push_cast
      linarith only [hG26.1]
    · push_cast
      linarith only [hG26.2]
  have hG29 : ((33400201537 : ℝ) / 100000000) ≤ rightAscensionQuad 100 (⟨2022, 2, 21⟩ : Date) true ∧ rightAscensionQuad 100 (⟨2022, 2, 21⟩ : Date) true ≤ ((33400201599 : ℝ) / 100000000) := by
    unfold rightAscensionQuad
    rw [hG27, hG28]
    push_cast
    constructor <;> linarith only [hG26.1, hG26.2]
  have hG30 : ((111334005123 : ℝ) / 5000000000) ≤ rightAscensionHours 100 (⟨2022, 2, 21⟩ : Date) true ∧ rightAscensionHours 100 (⟨2022, 2, 21⟩ : Date) true ≤ ((11133400533 : ℝ) / 500000000) := by
    unfold rightAscensionHours
    exact ⟨by linarith only [hG29.1], by linarith only [hG29.2]⟩
  have hG31 : ((4068950051 : ℝ) / 20000000000) ≤ ss_cos (((782613675973 : ℝ) / 10000000000)) ∧ ss_cos (((782613675973 : ℝ) / 10000000000)) ≤ ((1271546891 : ℝ) / 6250000000) := by
    rw [ss_cos_shift90]
    have h := ss_sin_boundsNeg (((782613675973 : ℝ) / 10000000000) - 90) ((-117386324027 : ℝ) / 10000000000) ((-117386324027 : ℝ) / 10000000000) ((204877785109 : ℝ) / 1000000000000) ((3 : ℝ) / 5000000000000) ((-1271546891 : ℝ) / 6250000000) ((-4068950051 : ℝ) / 20000000000)
      (by norm_num) (by norm_num)
      (by norm_num) (by norm_num) (by norm_num) (by norm_num)
      (by norm_num) (by norm_num) (by norm_num [sinP]) (by norm_num [sinP])
    exact ⟨by linarith only [h.1, h.2], by linarith only [h.1, h.2]⟩
  have hG32 : ((2543093773 : ℝ) / 12500000000) ≤ ss_cos (((156522735277 : ℝ) / 2000000000)) ∧ ss_cos (((156522735277 : ℝ) / 2000000000)) ≤ ((4068950037 : ℝ) / 20000000000) := by
    rw [ss_cos_shift90]
    have h := ss_sin_boundsNeg (((156522735277 : ℝ) / 2000000000) - 90) ((-23477264723 : ℝ) / 2000000000) ((-23477264723 : ℝ) / 2000000000) ((20487778439 : ℝ) / 100000000000) ((67 : ℝ) / 100000000000000) ((-4068950037 : ℝ) / 20000000000) ((-2543093773 : ℝ) / 12500000000)
      (by norm_num) (by norm_num)
      (by norm_num) (by norm_num) (by norm_num) (by norm_num)
      (by norm_num) (by norm_num) (by norm_num [sinP]) (by norm_num [sinP])
    exact ⟨by linarith only [h.1, h.2], by linarith only [h.1, h.2]⟩
  have hG33 : ((782613675973 : ℝ) / 10000000000) ≤ ss_acos (cosH 50 100 (⟨2022, 2, 21⟩ : Date) "official" true) ∧ ss_acos (cosH 50 100 (⟨2022, 2, 21⟩ : Date) "official" true) ≤ ((156522735277 : ℝ) / 2000000000) := by
    constructor
    · exact ss_acos_ge (by norm_num) (by norm_num) (by linarith only [hG31.1, hG15.2])
    · exact ss_acos_le (by norm_num) (by norm_num) (by linarith only [hG32.2, hG15.1])
  have hG34 : ((563477264723 : ℝ) / 2000000000) ≤ hourAngleDeg 50 100 (⟨2022, 2, 21⟩ : Date) "official" true ∧ hourAngleDeg 50 100 (⟨2022, 2, 21⟩ : Date) "official" true ≤ ((2817386324027 : ℝ) / 10000000000) := by
    unfold hourAngleDeg
    rw [if_pos rfl]
    exact ⟨by linarith only [hG33.1, hG33.2], by linarith only [hG33.1, hG33.2]⟩
  have hG35 : ((310122817931 : ℝ) / 10000000000) ≤ localMeanTime 50 100 (⟨2022, 2, 21⟩ : Date) "official" true ∧ localMeanTime 50 100 (⟨2022, 2, 21⟩ : Date) "official" true ≤ ((310122818373 : ℝ) / 10000000000) := by
    unfold localMeanTime
    constructor <;> linarith only [hG34.1, hG34.2, hG30.1, hG30.2, hG2]
  have hG36 : ((7608004727 : ℝ) / 312500000) ≤ utcPre 50 100 (⟨2022, 2, 21⟩ : Date) "official" true ∧ utcPre 50 100 (⟨2022, 2, 21⟩ : Date) "official" true ≤ ((243456151707 : ℝ) / 10000000000) := by
    unfold utcPre lngHour
    constructor <;> linarith only [hG35.1, hG35.2]
  have hG37 : ((108004727 : ℝ) / 312500000) ≤ utcWrapped 50 100 (⟨2022, 2, 21⟩ : Date) "official" true ∧ utcWrapped 50 100 (⟨2022, 2, 21⟩ : Date) "official" true ≤ ((3456151707 : ℝ) / 10000000000) := by
    unfold utcWrapped
    rw [if_pos (by linarith only [hG36.1] : utcPre 50 100 (⟨2022, 2, 21⟩ : Date) "official" true > 24.0)]
    exact ⟨by linarith only [hG36.1], by linarith only [hG36.2]⟩
  have hG38 : localHour 50 100 (⟨2022, 2, 21⟩ : Date) "official" true = (0 : ℤ) := by
    unfold localHour
    exact pyTrunc_eval 0 (by norm_num) (by push_cast; linarith only [hG37.1]) (by push_cast; linarith only [hG37.2])
  have hG39 : ((localHour 50 100 (⟨2022, 2, 21⟩ : Date) "official" true : ℤ) : ℝ) = 0 := by
    rw [hG38]
    norm_num
  have hG40 : 0 ≤ localMinute 50 100 (⟨2022, 2, 21⟩ : Date) "official" true ∧ localMinute 50 100 (⟨2022, 2, 21⟩ : Date) "official" true ≤ 59 := by
    unfold localMinute
    rw [hG39]
    exact pyTrunc_range 59 (by linarith only [hG37.1]) (by push_cast; linarith only [hG37.2])
  have hG41 : ((localMinute 50 100 (⟨2022, 2, 21⟩ : Date) "official" true : ℤ) : ℝ) ≤ (utcWrapped 50 100 (⟨2022, 2, 21⟩ : Date) "official" true - 0) * 60.0 ∧ (utcWrapped 50 100 (⟨2022, 2, 21⟩ : Date) "official" true - 0) * 60.0 < ((localMinute 50 100 (⟨2022, 2, 21⟩ : Date) "official" true : ℤ) : ℝ) + 1 := by
    unfold localMinute
    rw [hG39]
    exact pyTrunc_bracket (by linarith only [hG37.1])
  have hG42 : 0 ≤ localSecond 50 100 (⟨2022, 2, 21⟩ : Date) "official" true ∧ localSecond 50 100 (⟨2022, 2, 21⟩ : Date) "official" true ≤ 59 := by
    unfold localSecond
    rw [hG39]
    exact pyTrunc_range 59 (by linarith only [hG41.1]) (by push_cast; linarith only [hG41.2])
  unfold ss_calc
  rw [if_pos (abs_le.mpr ⟨by linarith only [hG9.1], by linarith only [hG9.2]⟩)]
  rw [if_pos (abs_le.mpr ⟨by linarith only [hG15.1], by linarith only [hG15.2]⟩)]
  rw [hG38]
  exact pyDatetime_hour _ _ _ _ _ _ _ (by decide) (by decide) (by decide) (by decide) (by decide) (by decide) (by decide) (by decide) hG40.1 hG40.2 hG42.1 hG42.2

set_option maxHeartbeats 4000000 in
theorem eval_lon105_nov22_hour :
    (ss_calc 51.41416666 105 (⟨2022, 11, 22⟩ : Date) "official" true).map PyDatetime.hour = Except.ok (0 : ℤ) := by
  have hH1 : dayOfYearN (⟨2022, 11, 22⟩ : Date) = 326 := by decide
  have hH2 : approxT 105 (⟨2022, 11, 22⟩ : Date) true = ((7823 : ℝ) / 24) := by
    unfold approxT lngHour
    rw [hH1]
    rw [if_pos rfl]
    norm_num
  have hH3 : meanAnomaly 105 (⟨2022, 11, 22⟩ : Date) true = ((580718305289269 : ℝ) / 1826298179000) := by
    unfold meanAnomaly
    rw [hH2]
    norm_num
  have hH4 : ((-2092020921 : ℝ) / 3125000000) ≤ ss_sin (meanAnomaly 105 (⟨2022, 11, 22⟩ : Date) true) ∧ ss_sin (meanAnomaly 105 (⟨2022, 11, 22⟩ : Date) true) ≤ ((-6694466947 : ℝ) / 10000000000) := by
    rw [ss_sin_shift360]
    have h := ss_sin_boundsNeg (meanAnomaly 105 (⟨2022, 11, 22⟩ : Date) true - 360) ((-76749039150731 : ℝ) / 1826298179000) ((-76749039150731 : ℝ) / 1826298179000) ((9168296327 : ℝ) / 12500000000) ((9 : ℝ) / 50000000000000) ((-2092020921 : ℝ) / 3125000000) ((-6694466947 : ℝ) / 10000000000)
      (by rw [hH3]; try norm_num) (by rw [hH3]; try norm_num)
      (by norm_num) (by norm_num) (by norm_num) (by norm_num)
      (by norm_num) (by norm_num) (by norm_num [sinP]) (by norm_num [sinP])
    exact ⟨by linarith only [h.1, h.2], by linarith only [h.1, h.2]⟩
  have hH5 : ((-19892209449 : ℝ) / 20000000000) ≤ ss_sin (2 * meanAnomaly 105 (⟨2022, 11, 22⟩ : Date) true) ∧ ss_sin (2 * meanAnomaly 105 (⟨2022, 11, 22⟩ : Date) true) ≤ ((-24865261811 : ℝ) / 25000000000) := by
    rw [ss_sin_shift360, ss_sin_shift270]
    have h := ss_cos_boundsPos (2 * meanAnomaly 105 (⟨2022, 11, 22⟩ : Date) true - 360 - 270) ((5434378904269 : ℝ) / 913149089500) ((5434378904269 : ℝ) / 913149089500) ((4154756579 : ℝ) / 40000000000) ((3 : ℝ) / 12500000000000) ((24865261811 : ℝ) / 25000000000) ((19892209449 : ℝ) / 20000000000)
      (by rw [hH3]; try norm_num) (by rw [hH3]; try norm_num)
      (by norm_num) (by norm_num) (by norm_num) (by norm_num)
      (by norm_num) (by norm_num) (by norm_num [cosP]) (by norm_num [cosP])
    exact ⟨by linarith only [h.1, h.2], by linarith only [h.1, h.2]⟩
  have hH6 : ((374566920709 : ℝ) / 625000000) ≤ sunTrueLongPre 105 (⟨2022, 11, 22⟩ : Date) true ∧ sunTrueLongPre 105 (⟨2022, 11, 22⟩ : Date) true ≤ ((2996535365673 : ℝ) / 5000000000) := by
    unfold sunTrueLongPre
    constructor <;> linarith only [hH3, hH4.1, hH4.2, hH5.1, hH5.2]
  have hH7 : ((149566920709 : ℝ) / 625000000) ≤ sunTrueLong 105 (⟨2022, 11, 22⟩ : Date) true ∧ sunTrueLong 105 (⟨2022, 11, 22⟩ : Date) true ≤ ((1196535365673 : ℝ) / 5000000000) := by
    unfold sunTrueLong
    rw [if_pos (by linarith only [hH6.1] : sunTrueLongPre 105 (⟨2022, 11, 22⟩ : Date) true > 360.0)]
    exact ⟨by linarith only [hH6.1], by linarith only [hH6.2]⟩
  have hH8 : ((-85991529131 : ℝ) / 100000000000) ≤ ss_sin (sunTrueLong 105 (⟨2022, 11, 22⟩ : Date) true) ∧ ss_sin (sunTrueLong 105 (⟨2022, 11, 22⟩ : Date) true) ≤ ((-8599152913 : ℝ) / 10000000000) := by
    rw [ss_sin_shift270]
    have h := ss_cos_boundsNeg (sunTrueLong 105 (⟨2022, 11, 22⟩ : Date) true - 270) ((-19183079291 : ℝ) / 625000000) ((-153464634327 : ℝ) / 5000000000) ((535692630877 : ℝ) / 1000000000000) ((39 : ℝ) / 20000000000000) ((8599152913 : ℝ) / 10000000000) ((85991529131 : ℝ) / 100000000000)
      (by linarith only [hH7.1]) (by linarith only [hH7.2])
      (by norm_num) (by norm_num) (by norm_num) (by norm_num)
      (by norm_num) (by norm_num) (by norm_num [cosP]) (by norm_num [cosP])
    exact ⟨by linarith only [h.1, h.2], by linarith only [h.1, h.2]⟩
  have hH9 : ((-855228753 : ℝ) / 2500000000) ≤ sinDec 105 (⟨2022, 11, 22⟩ : Date) true ∧ sinDec 105 (⟨2022, 11, 22⟩ : Date) true ≤ ((-3420915011 : ℝ) / 10000000000) := by
    unfold sinDec
    exact ⟨by linarith only [hH8.1], by linarith only [hH8.2]⟩
  have hH10 : ((1170265951 : ℝ) / 10000000000) ≤ sinDec 105 (⟨2022, 11, 22⟩ : Date) true ^ 2 ∧ sinDec 105 (⟨2022, 11, 22⟩ : Date) true ^ 2 ≤ ((36570811 : ℝ) / 312500000) := by
    have h := mul_bounds_nn hH9.1 hH9.2 hH9.1 hH9.2 (by norm_num) (by norm_num)
    constructor <;> nlinarith only [h.1, h.2]
  have hH11 : ((1879333291 : ℝ) / 2000000000) ≤ cosDec 105 (⟨2022, 11, 22⟩ : Date) true ∧ cosDec 105 (⟨2022, 11, 22⟩ : Date) true ≤ ((9396666457 : ℝ) / 10000000000) := by
    rw [cosDec_sqrt]
    exact sqrt_bounds (by norm_num) (by norm_num) (by nlinarith only [hH10.1, hH10.2]) (by nlinarith only [hH10.1, hH10.2])
  have hH12 : ((-167127671 : ℝ) / 625000000) ≤ sinDec 105 (⟨2022, 11, 22⟩ : Date) true * ss_sin 51.41416666 ∧ sinDec 105 (⟨2022, 11, 22⟩ : Date) true * ss_sin 51.41416666 ≤ ((-1337021367 : ℝ) / 5000000000) := by
    have h := mul_bounds_np hH9.1 hH9.2 sharedTrig4.1 sharedTrig4.2 (by norm_num) (by norm_num)
    exact ⟨by linarith only [h.1], by linarith only [h.2]⟩
  have hH13 : ((2528603757 : ℝ) / 10000000000) ≤ ss_cos (zenithDeg "official") - sinDec 105 (⟨2022, 11, 22⟩ : Date) true * ss_sin 51.41416666 ∧ ss_cos (zenithDeg "official") - sinDec 105 (⟨2022, 11, 22⟩ : Date) true * ss_sin 51.41416666 ≤ ((31607547 : ℝ) / 125000000) := by
    constructor <;> linarith only [sharedTrig1.1, sharedTrig1.2, hH12.1, hH12.2]
  have hH14 : ((732571567 : ℝ) / 1250000000) ≤ cosDec 105 (⟨2022, 11, 22⟩ : Date) true * ss_cos 51.41416666 ∧ cosDec 105 (⟨2022, 11, 22⟩ : Date) true * ss_cos 51.41416666 ≤ ((5860572539 : ℝ) / 10000000000) := by
    have h := mul_bounds_pp hH11.1 hH11.2 sharedTrig5.1 sharedTrig5.2 (by norm_num) (by norm_num)
    exact ⟨by linarith only [h.1], by linarith only [h.2]⟩
  have hH15 : ((2157300963 : ℝ) / 5000000000) ≤ cosH 51.41416666 105 (⟨2022, 11, 22⟩ : Date) "official" true ∧ cosH 51.41416666 105 (⟨2022, 11, 22⟩ : Date) "official" true ≤ ((862920387 : ℝ) / 2000000000) := by
    unfold cosH
    constructor
    · apply le_div_of_pos (by linarith only [hH14.1])
      linarith only [hH13.1, hH13.2, hH14.1, hH14.2]
    · apply div_le_of_pos (by linarith only [hH14.1])
      linarith only [hH13.1, hH13.2, hH14.1, hH14.2]
  have hH16 : ((-51043676571 : ℝ) / 100000000000) ≤ ss_cos (sunTrueLong 105 (⟨2022, 11, 22⟩ : Date) true) ∧ ss_cos (sunTrueLong 105 (⟨2022, 11, 22⟩ : Date) true) ≤ ((-51043676569 : ℝ) / 100000000000) := by
    rw [ss_cos_shift270]
    have h := ss_sin_boundsNeg (sunTrueLong 105 (⟨2022, 11, 22⟩ : Date) true - 270) ((-19183079291 : ℝ) / 625000000) ((-153464634327 : ℝ) / 5000000000) ((535692630877 : ℝ) / 1000000000000) ((39 : ℝ) / 20000000000000) ((-51043676571 : ℝ) / 100000000000) ((-51043676569 : ℝ) / 100000000000)
      (by linarith only [hH7.1]) (by linarith only [hH7.2])
      (by norm_num) (by norm_num) (by norm_num) (by norm_num)
      (by norm_num) (by norm_num) (by norm_num [sinP]) (by norm_num [sinP])
    exact ⟨by linarith only [h.1, h.2], by linarith only [h.1, h.2]⟩
  have hH17 : ((16846656609 : ℝ) / 10000000000) ≤ ss_tan (sunTrueLong 105 (⟨2022, 11, 22⟩ : Date) true) ∧ ss_tan (sunTrueLong 105 (⟨2022, 11, 22⟩ : Date) true) ≤ ((16846656611 : ℝ) / 10000000000) := by
    rw [ss_tan_eq]
    constructor
    · apply le_div_of_neg (by linarith only [hH16.2])
      linarith only [hH8.1, hH8.2, hH16.1, hH16.2]
    · apply div_le_of_neg (by linarith only [hH16.2])
      linarith only [hH8.1, hH8.2, hH16.1, hH16.2]
  have hH18 : ((1545916597 : ℝ) / 1000000000) ≤ 0.91764 * ss_tan (sunTrueLong 105 (⟨2022, 11, 22⟩ : Date) true) ∧ 0.91764 * ss_tan (sunTrueLong 105 (⟨2022, 11, 22⟩ : Date) true) ≤ ((15459165973 : ℝ) / 10000000000) := by
    constructor <;> linarith only [hH17.1, hH17.2]
  have hH19 : ((16792884189 : ℝ) / 20000000000) ≤ ss_sin (((5710256807 : ℝ) / 100000000)) ∧ ss_sin (((5710256807 : ℝ) / 100000000)) ≤ ((83964420947 : ℝ) / 100000000000) := by
    rw [ss_sin_shift90]
    have h := ss_cos_boundsNeg (((5710256807 : ℝ) / 100000000) - 90) ((-3289743193 : ℝ) / 100000000) ((-3289743193 : ℝ) / 100000000) ((57416850263 : ℝ) / 100000000000) ((79 : ℝ) / 100000000000000) ((16792884189 : ℝ) / 20000000000) ((83964420947 : ℝ) / 100000000000)
      (by norm_num) (by norm_num)
      (by norm_num) (by norm_num) (by norm_num) (by norm_num)
      (by norm_num) (by norm_num) (by norm_num [cosP]) (by norm_num [cosP])
    exact ⟨by linarith only [h.1, h.2], by linarith only [h.1, h.2]⟩
  have hH20 : ((54313681657 : ℝ) / 100000000000) ≤ ss_cos (((5710256807 : ℝ) / 100000000)) ∧ ss_cos (((5710256807 : ℝ) / 100000000)) ≤ ((27156840829 : ℝ) / 50000000000) := by
    rw [ss_cos_shift90]
    have h := ss_sin_boundsNeg (((5710256807 : ℝ) / 100000000) - 90) ((-3289743193 : ℝ) / 100000000) ((-3289743193 : ℝ) / 100000000) ((57416850263 : ℝ) / 100000000000) ((79 : ℝ) / 100000000000000) ((-27156840829 : ℝ) / 50000000000) ((-54313681657 : ℝ) / 100000000000)
      (by norm_num) (by norm_num)
      (by norm_num) (by norm_num) (by norm_num) (by norm_num)
      (by norm_num) (by norm_num) (by norm_num [sinP]) (by norm_num [sinP])
    exact ⟨by linarith only [h.1, h.2], by linarith only [h.1, h.2]⟩
  have hH21 : ((1545916579 : ℝ) / 1000000000) ≤ ss_tan (((5710256807 : ℝ) / 100000000)) ∧ ss_tan (((5710256807 : ℝ) / 100000000)) ≤ ((483098931 : ℝ) / 312500000) := by
    rw [ss_tan_eq]
    constructor
    · apply le_div_of_pos (by linarith only [hH20.1])
      linarith only [hH19.1, hH19.2, hH20.1, hH20.2]
    · apply div_le_of_pos (by linarith only [hH20.1])
      linarith only [hH19.1, hH19.2, hH20.1, hH20.2]
  have hH22 : ((20991105381 : ℝ) / 25000000000) ≤ ss_sin (((1427564217 : ℝ) / 25000000)) ∧ ss_sin (((1427564217 : ℝ) / 25000000)) ≤ ((3358576861 : ℝ) / 4000000000) := by
    rw [ss_sin_shift90]
    have h := ss_cos_boundsNeg (((1427564217 : ℝ) / 25000000) - 90) ((-822435783 : ℝ) / 25000000) ((-822435783 : ℝ) / 25000000) ((574168491983 : ℝ) / 1000000000000) ((3 : ℝ) / 10000000000000) ((20991105381 : ℝ) / 25000000000) ((3358576861 : ℝ) / 4000000000)
      (by norm_num) (by norm_num)
      (by norm_num) (by norm_num) (by norm_num) (by norm_num)
      (by norm_num) (by norm_num) (by norm_num [cosP]) (by norm_num [cosP])
    exact ⟨by linarith only [h.1, h.2], by linarith only [h.1, h.2]⟩
  have hH23 : ((54313680763 : ℝ) / 100000000000) ≤ ss_cos (((1427564217 : ℝ) / 25000000)) ∧ ss_cos (((1427564217 : ℝ) / 25000000)) ≤ ((13578420191 : ℝ) / 25000000000) := by
    rw [ss_cos_shift90]
    have h := ss_sin_boundsNeg (((1427564217 : ℝ) / 25000000) - 90) ((-822435783 : ℝ) / 25000000) ((-822435783 : ℝ) / 25000000) ((574168491983 : ℝ) / 1000000000000) ((3 : ℝ) / 10000000000000) ((-13578420191 : ℝ) / 25000000000) ((-54313680763 : ℝ) / 100000000000)
      (by norm_num) (by norm_num)
      (by norm_num) (by norm_num) (by norm_num) (by norm_num)
      (by norm_num) (by norm_num) (by norm_num [sinP]) (by norm_num [sinP])
    exact ⟨by linarith only [h.1, h.2], by linarith only [h.1, h.2]⟩
  have hH24 : ((15459166151 : ℝ) / 10000000000) ≤ ss_tan (((1427564217 : ℝ) / 25000000)) ∧ ss_tan (((1427564217 : ℝ) / 25000000)) ≤ ((15459166153 : ℝ) / 10000000000) := by
    rw [ss_tan_eq]
    constructor
    · apply le_div_of_pos (by linarith only [hH23.1])
      linarith only [hH22.1, hH22.2, hH23.1, hH23.2]
    · apply div_le_of_pos (by linarith only [hH23.1])
      linarith only [hH22.1, hH22.2, hH23.1, hH23.2]
  have hH25 : ((5710256807 : ℝ) / 100000000) ≤ rightAscensionRaw 105 (⟨2022, 11, 22⟩ : Date) true ∧ rightAscensionRaw 105 (⟨2022, 11, 22⟩ : Date) true ≤ ((1427564217 : ℝ) / 25000000) := by
    unfold rightAscensionRaw
    constructor
    · exact ss_atan_ge (by rw [abs_lt]; constructor <;> norm_num) (by linarith only [hH21.2, hH18.1])
    · exact ss_atan_le (by rw [abs_lt]; constructor <;> norm_num) (by linarith only [hH24.1, hH18.2])
  have hH26 : ((5710256807 : ℝ) / 100000000) ≤ rightAscensionNorm 105 (⟨2022, 11, 22⟩ : Date) true ∧ rightAscensionNorm 105 (⟨2022, 11, 22⟩ : Date) true ≤ ((1427564217 : ℝ) / 25000000) := by
    unfold rightAscensionNorm
    rw [if_neg (not_lt.mpr (by linarith only [hH25.2] : rightAscensionRaw 105 (⟨2022, 11, 22⟩ : Date) true ≤ 360.0)), if_neg (not_lt.mpr (by linarith only [hH25.1] : 0.0 ≤ rightAscensionRaw 105 (⟨2022, 11, 22⟩ : Date) true))]
    exact ⟨by linarith only [hH25.1], by linarith only [hH25.2]⟩
  have hH27 : ⌊sunTrueLong 105 (⟨2022, 11, 22⟩ : Date) true / 90.0⌋ = (2 : ℤ) := by
    rw [Int.floor_eq_iff]
    constructor
    · push_cast
      linarith only [hH7.1]
    · push_cast
      linarith only [hH7.2]
  have hH28 : ⌊rightAscensionNorm 105 (⟨2022, 11, 22⟩ : Date) true / 90.0⌋ = (0 : ℤ) := by
    rw [Int.floor_eq_iff]
    constructor
    · push_cast
      linarith only [hH26.1]
    · push_cast
      linarith only [hH26.2]
  have hH29 : ((23710256807 : ℝ) / 100000000) ≤ rightAscensionQuad 105 (⟨2022, 11, 22⟩ : Date) true ∧ rightAscensionQuad 105 (⟨2022, 11, 22⟩ : Date) true ≤ ((5927564217 : ℝ) / 25000000) := by
    unfold rightAscensionQuad
    rw [hH27, hH28]
    push_cast
    constructor <;> linarith only [hH26.1, hH26.2]
  have hH30 : ((158068378713 : ℝ) / 10000000000) ≤ rightAscensionHours 105 (⟨2022, 11, 22⟩ : Date) true ∧ rightAscensionHours 105 (⟨2022, 11, 22⟩ : Date) true ≤ ((1975854739 : ℝ) / 125000000) := by
    unfold rightAscensionHours
    exact ⟨by linarith only [hH29.1], by linarith only [hH29.2]⟩
  have hH31 : ((21573009677 : ℝ) / 50000000000) ≤ ss_cos (((644397365629 : ℝ) / 10000000000)) ∧ ss_cos (((644397365629 : ℝ) / 10000000000)) ≤ ((8629203871 : ℝ) / 20000000000) := by
    rw [ss_cos_shift90]
    have h := ss_sin_boundsNeg (((644397365629 : ℝ) / 10000000000) - 90) ((-255602634371 : ℝ) / 10000000000) ((-255602634371 : ℝ) / 10000000000) ((89222150931 : ℝ) / 200000000000) ((49 : ℝ) / 100000000000000) ((-8629203871 : ℝ) / 20000000000) ((-21573009677 : ℝ) / 50000000000)
      (by norm_num) (by norm_num)
      (by norm_num) (by norm_num) (by norm_num) (by norm_num)
      (by norm_num) (by norm_num) (by norm_num [sinP]) (by norm_num [sinP])
    exact ⟨by linarith only [h.1, h.2], by linarith only [h.1, h.2]⟩
  have hH32 : ((8629203851 : ℝ) / 20000000000) ≤ ss_cos (((322198683131 : ℝ) / 5000000000)) ∧ ss_cos (((322198683131 : ℝ) / 5000000000)) ≤ ((5393252407 : ℝ) / 12500000000) := by
    rw [ss_cos_shift90]
    have h := ss_sin_boundsNeg (((322198683131 : ℝ) / 5000000000) - 90) ((-127801316869 : ℝ) / 5000000000) ((-127801316869 : ℝ) / 5000000000) ((8922215071 : ℝ) / 20000000000) ((7 : ℝ) / 25000000000000) ((-5393252407 : ℝ) / 12500000000) ((-8629203851 : ℝ) / 20000000000)
      (by norm_num) (by norm_num)
      (by norm_num) (by norm_num) (by norm_num) (by norm_num)
      (by norm_num) (by norm_num) (by norm_num [sinP]) (by norm_num [sinP])
    exact ⟨by linarith only [h.1, h.2], by linarith only [h.1, h.2]⟩
  have hH33 : ((644397365629 : ℝ) / 10000000000) ≤ ss_acos (cosH 51.41416666 105 (⟨2022, 11, 22⟩ : Date) "official" true) ∧ ss_acos (cosH 51.41416666 105 (⟨2022, 11, 22⟩ : Date) "official" true) ≤ ((322198683131 : ℝ) / 5000000000) := by
    constructor
    · exact ss_acos_ge (by norm_num) (by norm_num) (by linarith only [hH31.1, hH15.2])
    · exact ss_acos_le (by norm_num) (by norm_num) (by linarith only [hH32.2, hH15.1])
  have hH34 : ((1477801316869 : ℝ) / 5000000000) ≤ hourAngleDeg 51.41416666 105 (⟨2022, 11, 22⟩ : Date) "official" true ∧ hourAngleDeg 51.41416666 105 (⟨2022, 11, 22⟩ : Date) "official" true ≤ ((2955602634371 : ℝ) / 10000000000) := by
    unfold hourAngleDeg
    rw [if_pos rfl]
    exact ⟨by linarith only [hH33.1, hH33.2], by linarith only [hH33.1, hH33.2]⟩
  have hH35 : ((37350666731 : ℝ) / 5000000000) ≤ localMeanTime 51.41416666 105 (⟨2022, 11, 22⟩ : Date) "official" true ∧ localMeanTime 51.41416666 105 (⟨2022, 11, 22⟩ : Date) "official" true ≤ ((9337666739 : ℝ) / 1250000000) := by
    unfold localMeanTime
    constructor <;> linarith only [hH34.1, hH34.2, hH30.1, hH30.2, hH2]
  have hH36 : ((2350666731 : ℝ) / 5000000000) ≤ utcPre 51.41416666 105 (⟨2022, 11, 22⟩ : Date) "official" true ∧ utcPre 51.41416666 105 (⟨2022, 11, 22⟩ : Date) "official" true ≤ ((587666739 : ℝ) / 1250000000) := by
    unfold utcPre lngHour
    constructor <;> linarith only [hH35.1, hH35.2]
  have hH37 : ((2350666731 : ℝ) / 5000000000) ≤ utcWrapped 51.41416666 105 (⟨2022, 11, 22⟩ : Date) "official" true ∧ utcWrapped 51.41416666 105 (⟨2022, 11, 22⟩ : Date) "official" true ≤ ((587666739 : ℝ) / 1250000000) := by
    unfold utcWrapped
    rw [if_neg (not_lt.mpr (by linarith only [hH36.2] : utcPre 51.41416666 105 (⟨2022, 11, 22⟩ : Date) "official" true ≤ 24.0)), if_neg (not_lt.mpr (by linarith only [hH36.1] : 0.0 ≤ utcPre 51.41416666 105 (⟨2022, 11, 22⟩ : Date) "official" true))]
    exact ⟨by linarith only [hH36.1], by linarith only [hH36.2]⟩
  have hH38 : localHour 51.41416666 105 (⟨2022, 11, 22⟩ : Date) "official" true = (0 : ℤ) := by
    unfold localHour
    exact pyTrunc_eval 0 (by norm_num) (by push_cast; linarith only [hH37.1]) (by push_cast; linarith only [hH37.2])
  have hH39 : ((localHour 51.41416666 105 (⟨2022, 11, 22⟩ : Date) "official" true : ℤ) : ℝ) = 0 := by
    rw [hH38]
    norm_num
  have hH40 : 0 ≤ localMinute 51.41416666 105 (⟨2022, 11, 22⟩ : Date) "official" true ∧ localMinute 51.41416666 105 (⟨2022, 11, 22⟩ : Date) "official" true ≤ 59 := by
    unfold localMinute
    rw [hH39]
    exact pyTrunc_range 59 (by linarith only [hH37.1]) (by push_cast; linarith only [hH37.2])
  have hH41 : ((localMinute 51.41416666 105 (⟨2022, 11, 22⟩ : Date) "official" true : ℤ) : ℝ) ≤ (utcWrapped 51.41416666 105 (⟨2022, 11, 22⟩ : Date) "official" true - 0) * 60.0 ∧ (utcWrapped 51.41416666 105 (⟨2022, 11, 22⟩ : Date) "official" true - 0) * 60.0 < ((localMinute 51.41416666 105 (⟨2022, 11, 22⟩ : Date) "official" true : ℤ) : ℝ) + 1 := by
    unfold localMinute
    rw [hH39]
    exact pyTrunc_bracket (by linarith only [hH37.1])
  have hH42 : 0 ≤ localSecond 51.41416666 105 (⟨2022, 11, 22⟩ : Date) "official" true ∧ localSecond 51.41416666 105 (⟨2022, 11, 22⟩ : Date) "official" true ≤ 59 := by
    unfold localSecond
    rw [hH39]
    exact pyTrunc_range 59 (by linarith only [hH41.1]) (by push_cast; linarith only [hH41.2])
  unfold ss_calc
  rw [if_pos (abs_le.mpr ⟨by linarith only [hH9.1], by linarith only [hH9.2]⟩)]
  rw [if_pos (abs_le.mpr ⟨by linarith only [hH15.1], by linarith only [hH15.2]⟩)]
  rw [hH38]
  exact pyDatetime_hour _ _ _ _ _ _ _ (by decide) (by decide) (by decide) (by decide) (by decide) (by decide) (by decide) (by decide) hH40.1 hH40.2 hH42.1 hH42.2

set_option maxHeartbeats 4000000 in
theorem eval_lon118_nov22_hour :
    (ss_calc 51.41416666 118 (⟨2022, 11, 22⟩ : Date) "official" true).map PyDatetime.hour = Except.ok (23 : ℤ) := by
  have hI1 : dayOfYearN (⟨2022, 11, 22⟩ : Date) = 326 := by decide
  have hI2 : approxT 118 (⟨2022, 11, 22⟩ : Date) true = ((29333 : ℝ) / 90) := by
    unfold approxT lngHour
    rw [hI1]
    rw [if_pos rfl]
    norm_num
  have hI3 : meanAnomaly 118 (⟨2022, 11, 22⟩ : Date) true = ((580653305289269 : ℝ) / 1826298179000) := by
    unfold meanAnomaly
    rw [hI2]
    norm_num
  have hI4 : ((-66990801703 : ℝ) / 100000000000) ≤ ss_sin (meanAnomaly 118 (⟨2022, 11, 22⟩ : Date) true) ∧ ss_sin (meanAnomaly 118 (⟨2022, 11, 22⟩ : Date) true) ≤ ((-33495400851 : ℝ) / 50000000000) := by
    rw [ss_sin_shift360]
    have h := ss_sin_boundsNeg (meanAnomaly 118 (⟨2022, 11, 22⟩ : Date) true - 360) ((-76814039150731 : ℝ) / 1826298179000) ((-76814039150731 : ℝ) / 1826298179000) ((734084888411 : ℝ) / 1000000000000) ((19 : ℝ) / 100000000000000) ((-66990801703 : ℝ) / 100000000000) ((-33495400851 : ℝ) / 50000000000)
      (by rw [hI3]; try norm_num) (by rw [hI3]; try norm_num)
      (by norm_num) (by norm_num) (by norm_num) (by norm_num)
      (by norm_num) (by norm_num) (by norm_num [sinP]) (by norm_num [sinP])
    exact ⟨by linarith only [h.1, h.2], by linarith only [h.1, h.2]⟩
  have hI5 : ((-49736925799 : ℝ) / 50000000000) ≤ ss_sin (2 * meanAnomaly 118 (⟨2022, 11, 22⟩ : Date) true) ∧ ss_sin (2 * meanAnomaly 118 (⟨2022, 11, 22⟩ : Date) true) ≤ ((-99473851597 : ℝ) / 100000000000) := by
    rw [ss_sin_shift360, ss_sin_shift270]
    have h := ss_cos_boundsPos (2 * meanAnomaly 118 (⟨2022, 11, 22⟩ : Date) true - 360 - 270) ((5369378904269 : ℝ) / 913149089500) ((5369378904269 : ℝ) / 913149089500) ((102626549973 : ℝ) / 1000000000000) ((7 : ℝ) / 25000000000000) ((99473851597 : ℝ) / 100000000000) ((49736925799 : ℝ) / 50000000000)
      (by rw [hI3]; try norm_num) (by rw [hI3]; try norm_num)
      (by norm_num) (by norm_num) (by norm_num) (by norm_num)
      (by norm_num) (by norm_num) (by norm_num [cosP]) (by norm_num [cosP])
    exact ⟨by linarith only [h.1, h.2], by linarith only [h.1, h.2]⟩
  have hI6 : ((5992705955587 : ℝ) / 10000000000) ≤ sunTrueLongPre 118 (⟨2022, 11, 22⟩ : Date) true ∧ sunTrueLongPre 118 (⟨2022, 11, 22⟩ : Date) true ≤ ((1498176488897 : ℝ) / 2500000000) := by
    unfold sunTrueLongPre
    constructor <;> linarith only [hI3, hI4.1, hI4.2, hI5.1, hI5.2]
  have hI7 : ((2392705955587 : ℝ) / 10000000000) ≤ sunTrueLong 118 (⟨2022, 11, 22⟩ : Date) true ∧ sunTrueLong 118 (⟨2022, 11, 22⟩ : Date) true ≤ ((598176488897 : ℝ) / 2500000000) := by
    unfold sunTrueLong
    rw [if_pos (by linarith only [hI6.1] : sunTrueLongPre 118 (⟨2022, 11, 22⟩ : Date) true > 360.0)]
    exact ⟨by linarith only [hI6.1], by linarith only [hI6.2]⟩
  have hI8 : ((-17191802911 : ℝ) / 20000000000) ≤ ss_sin (sunTrueLong 118 (⟨2022, 11, 22⟩ : Date) true) ∧ ss_sin (sunTrueLong 118 (⟨2022, 11, 22⟩ : Date) true) ≤ ((-42979507277 : ℝ) / 50000000000) := by
    rw [ss_sin_shift270]
    have h := ss_cos_boundsNeg (sunTrueLong 118 (⟨2022, 11, 22⟩ : Date) true - 270) ((-307294044413 : ℝ) / 10000000000) ((-76823511103 : ℝ) / 2500000000) ((536329284677 : ℝ) / 1000000000000) ((11 : ℝ) / 10000000000000) ((42979507277 : ℝ) / 50000000000) ((17191802911 : ℝ) / 20000000000)
      (by linarith only [hI7.1]) (by linarith only [hI7.2])
      (by norm_num) (by norm_num) (by norm_num) (by norm_num)
      (by norm_num) (by norm_num) (by norm_num [cosP]) (by norm_num [cosP])
    exact ⟨by linarith only [h.1, h.2], by linarith only [h.1, h.2]⟩
  have hI9 : ((-1709810759 : ℝ) / 5000000000) ≤ sinDec 118 (⟨2022, 11, 22⟩ : Date) true ∧ sinDec 118 (⟨2022, 11, 22⟩ : Date) true ≤ ((-854905379 : ℝ) / 2500000000) := by
    unfold sinDec
    exact ⟨by linarith only [hI8.1], by linarith only [hI8.2]⟩
  have hI10 : ((1169381131 : ℝ) / 10000000000) ≤ sinDec 118 (⟨2022, 11, 22⟩ : Date) true ^ 2 ∧ sinDec 118 (⟨2022, 11, 22⟩ : Date) true ^ 2 ≤ ((1169381133 : ℝ) / 10000000000) := by
    have h := mul_bounds_nn hI9.1 hI9.2 hI9.1 hI9.2 (by norm_num) (by norm_num)
    constructor <;> nlinarith only [h.1, h.2]
  have hI11 : ((9397137259 : ℝ) / 10000000000) ≤ cosDec 118 (⟨2022, 11, 22⟩ : Date) true ∧ cosDec 118 (⟨2022, 11, 22⟩ : Date) true ≤ ((9397137261 : ℝ) / 10000000000) := by
    rw [cosDec_sqrt]
    exact sqrt_bounds (by norm_num) (by norm_num) (by nlinarith only [hI10.1, hI10.2]) (by nlinarith only [hI10.1, hI10.2])
  have hI12 : ((-668257911 : ℝ) / 2500000000) ≤ sinDec 118 (⟨2022, 11, 22⟩ : Date) true * ss_sin 51.41416666 ∧ sinDec 118 (⟨2022, 11, 22⟩ : Date) true * ss_sin 51.41416666 ≤ ((-1336515821 : ℝ) / 5000000000) := by
    have h := mul_bounds_np hI9.1 hI9.2 sharedTrig4.1 sharedTrig4.2 (by norm_num) (by norm_num)
    exact ⟨by linarith only [h.1], by linarith only [h.2]⟩
  have hI13 : ((505518533 : ℝ) / 2000000000) ≤ ss_cos (zenithDeg "official") - sinDec 118 (⟨2022, 11, 22⟩ : Date) true * ss_sin 51.41416666 ∧ ss_cos (zenithDeg "official") - sinDec 118 (⟨2022, 11, 22⟩ : Date) true * ss_sin 51.41416666 ≤ ((631898167 : ℝ) / 2500000000) := by
    constructor <;> linarith only [sharedTrig1.1, sharedTrig1.2, hI12.1, hI12.2]
  have hI14 : ((586086617 : ℝ) / 1000000000) ≤ cosDec 118 (⟨2022, 11, 22⟩ : Date) true * ss_cos 51.41416666 ∧ cosDec 118 (⟨2022, 11, 22⟩ : Date) true * ss_cos 51.41416666 ≤ ((5860866173 : ℝ) / 10000000000) := by
    have h := mul_bounds_pp hI11.1 hI11.2 sharedTrig5.1 sharedTrig5.2 (by norm_num) (by norm_num)
    exact ⟨by linarith only [h.1], by linarith only [h.2]⟩
  have hI15 : ((1078165151 : ℝ) / 2500000000) ≤ cosH 51.41416666 118 (⟨2022, 11, 22⟩ : Date) "official" true ∧ cosH 51.41416666 118 (⟨2022, 11, 22⟩ : Date) "official" true ≤ ((1078165153 : ℝ) / 2500000000) := by
    unfold cosH
    constructor
    · apply le_div_of_pos (by linarith only [hI14.1])
      linarith only [hI13.1, hI13.2, hI14.1, hI14.2]
    · apply div_le_of_pos (by linarith only [hI14.1])
      linarith only [hI13.1, hI13.2, hI14.1, hI14.2]
  have hI16 : ((-24950397 : ℝ) / 48828125) ≤ ss_cos (sunTrueLong 118 (⟨2022, 11, 22⟩ : Date) true) ∧ ss_cos (sunTrueLong 118 (⟨2022, 11, 22⟩ : Date) true) ≤ ((-10219682611 : ℝ) / 20000000000) := by
    rw [ss_cos_shift270]
    have h := ss_sin_boundsNeg (sunTrueLong 118 (⟨2022, 11, 22⟩ : Date) true - 270) ((-307294044413 : ℝ) / 10000000000) ((-76823511103 : ℝ) / 2500000000) ((536329284677 : ℝ) / 1000000000000) ((11 : ℝ) / 10000000000000) ((-24950397 : ℝ) / 48828125) ((-10219682611 : ℝ) / 20000000000)
      (by linarith only [hI7.1]) (by linarith only [hI7.2])
      (by norm_num) (by norm_num) (by norm_num) (by norm_num)
      (by norm_num) (by norm_num) (by norm_num [sinP]) (by norm_num [sinP])
    exact ⟨by linarith only [h.1, h.2], by linarith only [h.1, h.2]⟩
  have hI17 : ((16822247387 : ℝ) / 10000000000) ≤ ss_tan (sunTrueLong 118 (⟨2022, 11, 22⟩ : Date) true) ∧ ss_tan (sunTrueLong 118 (⟨2022, 11, 22⟩ : Date) true) ≤ ((16822247389 : ℝ) / 10000000000) := by
    rw [ss_tan_eq]
    constructor
    · apply le_div_of_neg (by linarith only [hI16.2])
      linarith only [hI8.1, hI8.2, hI16.1, hI16.2]
    · apply div_le_of_neg (by linarith only [hI16.2])
      linarith only [hI8.1, hI8.2, hI16.1, hI16.2]
  have hI18 : ((3859191773 : ℝ) / 2500000000) ≤ 0.91764 * ss_tan (sunTrueLong 118 (⟨2022, 11, 22⟩ : Date) true) ∧ 0.91764 * ss_tan (sunTrueLong 118 (⟨2022, 11, 22⟩ : Date) true) ≤ ((3087353419 : ℝ) / 2000000000) := by
    constructor <;> linarith only [hI17.1, hI17.2]
  have hI19 : ((83928477491 : ℝ) / 100000000000) ≤ ss_sin (((5706467051 : ℝ) / 100000000)) ∧ ss_sin (((5706467051 : ℝ) / 100000000)) ≤ ((83928477493 : ℝ) / 100000000000) := by
    rw [ss_sin_shift90]
    have h := ss_cos_boundsNeg (((5706467051 : ℝ) / 100000000) - 90) ((-3293532949 : ℝ) / 100000000) ((-3293532949 : ℝ) / 100000000) ((57482993983 : ℝ) / 100000000000) ((1 : ℝ) / 3125000000000) ((83928477491 : ℝ) / 100000000000) ((83928477493 : ℝ) / 100000000000)
      (by norm_num) (by norm_num)
      (by norm_num) (by norm_num) (by norm_num) (by norm_num)
      (by norm_num) (by norm_num) (by norm_num [cosP]) (by norm_num [cosP])
    exact ⟨by linarith only [h.1, h.2], by linarith only [h.1, h.2]⟩
  have hI20 : ((54369206963 : ℝ) / 100000000000) ≤ ss_cos (((5706467051 : ℝ) / 100000000)) ∧ ss_cos (((5706467051 : ℝ) / 100000000)) ≤ ((13592301741 : ℝ) / 25000000000) := by
    rw [ss_cos_shift90]
    have h := ss_sin_boundsNeg (((5706467051 : ℝ) / 100000000) - 90) ((-3293532949 : ℝ) / 100000000) ((-3293532949 : ℝ) / 100000000) ((57482993983 : ℝ) / 100000000000) ((1 : ℝ) / 3125000000000) ((-13592301741 : ℝ) / 25000000000) ((-54369206963 : ℝ) / 100000000000)
      (by norm_num) (by norm_num)
      (by norm_num) (by norm_num) (by norm_num) (by norm_num)
      (by norm_num) (by norm_num) (by norm_num [sinP]) (by norm_num [sinP])
    exact ⟨by linarith only [h.1, h.2], by linarith only [h.1, h.2]⟩
  have hI21 : ((3859191727 : ℝ) / 2500000000) ≤ ss_tan (((5706467051 : ℝ) / 100000000)) ∧ ss_tan (((5706467051 : ℝ) / 100000000)) ≤ ((1543676691 : ℝ) / 1000000000) := by
    rw [ss_tan_eq]
    constructor
    · apply le_div_of_pos (by linarith only [hI20.1])
      linarith only [hI19.1, hI19.2, hI20.1, hI20.2]
    · apply div_le_of_pos (by linarith only [hI20.1])
      linarith only [hI19.1, hI19.2, hI20.1, hI20.2]
  have hI22 : ((131138247 : ℝ) / 156250000) ≤ ss_sin (((5706467113 : ℝ) / 100000000)) ∧ ss_sin (((5706467113 : ℝ) / 100000000)) ≤ ((83928478081 : ℝ) / 100000000000) := by
    rw [ss_sin_shift90]
    have h := ss_cos_boundsNeg (((5706467113 : ℝ) / 100000000) - 90) ((-3293532887 : ℝ) / 100000000) ((-3293532887 : ℝ) / 100000000) ((574829929009 : ℝ) / 1000000000000) ((9 : ℝ) / 25000000000000) ((131138247 : ℝ) / 156250000) ((83928478081 : ℝ) / 100000000000)
      (by norm_num) (by norm_num)
      (by norm_num) (by norm_num) (by norm_num) (by norm_num)
      (by norm_num) (by norm_num) (by norm_num [cosP]) (by norm_num [cosP])
    exact ⟨by linarith only [h.1, h.2], by linarith only [h.1, h.2]⟩
  have hI23 : ((10873841211 : ℝ) / 20000000000) ≤ ss_cos (((5706467113 : ℝ) / 100000000)) ∧ ss_cos (((5706467113 : ℝ) / 100000000)) ≤ ((6796150757 : ℝ) / 12500000000) := by
    rw [ss_cos_shift90]
    have h := ss_sin_boundsNeg (((5706467113 : ℝ) / 100000000) - 90) ((-3293532887 : ℝ) / 100000000) ((-3293532887 : ℝ) / 100000000) ((574829929009 : ℝ) / 1000000000000) ((9 : ℝ) / 25000000000000) ((-6796150757 : ℝ) / 12500000000) ((-10873841211 : ℝ) / 20000000000)
      (by norm_num) (by norm_num)
      (by norm_num) (by norm_num) (by norm_num) (by norm_num)
      (by norm_num) (by norm_num) (by norm_num [sinP]) (by norm_num [sinP])
    exact ⟨by linarith only [h.1, h.2], by linarith only [h.1, h.2]⟩
  have hI24 : ((7718383637 : ℝ) / 5000000000) ≤ ss_tan (((5706467113 : ℝ) / 100000000)) ∧ ss_tan (((5706467113 : ℝ) / 100000000)) ≤ ((3859191819 : ℝ) / 2500000000) := by
    rw [ss_tan_eq]
    constructor
    · apply le_div_of_pos (by linarith only [hI23.1])
      linarith only [hI22.1, hI22.2, hI23.1, hI23.2]
    · apply div_le_of_pos (by linarith only [hI23.1])
      linarith only [hI22.1, hI22.2, hI23.1, hI23.2]
  have hI25 : ((5706467051 : ℝ) / 100000000) ≤ rightAscensionRaw 118 (⟨2022, 11, 22⟩ : Date) true ∧ rightAscensionRaw 118 (⟨2022, 11, 22⟩ : Date) true ≤ ((5706467113 : ℝ) / 100000000) := by
    unfold rightAscensionRaw
    constructor
    · exact ss_atan_ge (by rw [abs_lt]; constructor <;> norm_num) (by linarith only [hI21.2, hI18.1])
    · exact ss_atan_le (by rw [abs_lt]; constructor <;> norm_num) (by linarith only [hI24.1, hI18.2])
  have hI26 : ((5706467051 : ℝ) / 100000000) ≤ rightAscensionNorm 118 (⟨2022, 11, 22⟩ : Date) true ∧ rightAscensionNorm 118 (⟨2022, 11, 22⟩ : Date) true ≤ ((5706467113 : ℝ) / 100000000) := by
    unfold rightAscensionNorm
    rw [if_neg (not_lt.mpr (by linarith only [hI25.2] : rightAscensionRaw 118 (⟨2022, 11, 22⟩ : Date) true ≤ 360.0)), if_neg (not_lt.mpr (by linarith only [hI25.1] : 0.0 ≤ rightAscensionRaw 118 (⟨2022, 11, 22⟩ : Date) true))]
    exact ⟨by linarith only [hI25.1], by linarith only [hI25.2]⟩
  have hI27 : ⌊sunTrueLong 118 (⟨2022, 11, 22⟩ : Date) true / 90.0⌋ = (2 : ℤ) := by
    rw [Int.floor_eq_iff]
    constructor
    · push_cast
      linarith only [hI7.1]
    · push_cast
      linarith only [hI7.2]
  have hI28 : ⌊rightAscensionNorm 118 (⟨2022, 11, 22⟩ : Date) true / 90.0⌋ = (0 : ℤ) := by
    rw [Int.floor_eq_iff]
    constructor
    · push_cast
      linarith only [hI26.1]
    · push_cast
      linarith only [hI26.2]
  have hI29 : ((23706467051 : ℝ) / 100000000) ≤ rightAscensionQuad 118 (⟨2022, 11, 22⟩ : Date) true ∧ rightAscensionQuad 118 (⟨2022, 11, 22⟩ : Date) true ≤ ((23706467113 : ℝ) / 100000000) := by
    unfold rightAscensionQuad
    rw [hI27, hI28]
    push_cast
    constructor <;> linarith only [hI26.1, hI26.2]
  have hI30 : ((158043113673 : ℝ) / 10000000000) ≤ rightAscensionHours 118 (⟨2022, 11, 22⟩ : Date) true ∧ rightAscensionHours 118 (⟨2022, 11, 22⟩ : Date) true ≤ ((158043114087 : ℝ) / 10000000000) := by
    unfold rightAscensionHours
    exact ⟨by linarith only [hI29.1], by linarith only [hI29.2]⟩
  have hI31 : ((10781651531 : ℝ) / 25000000000) ≤ ss_cos (((25780826227 : ℝ) / 400000000)) ∧ ss_cos (((25780826227 : ℝ) / 400000000)) ≤ ((345012849 : ℝ) / 800000000) := by
    rw [ss_cos_shift90]
    have h := ss_sin_boundsNeg (((25780826227 : ℝ) / 400000000) - 90) ((-10219173773 : ℝ) / 400000000) ((-10219173773 : ℝ) / 400000000) ((445895572931 : ℝ) / 1000000000000) ((1 : ℝ) / 4000000000000) ((-345012849 : ℝ) / 800000000) ((-10781651531 : ℝ) / 25000000000)
      (by norm_num) (by norm_num)
      (by norm_num) (by norm_num) (by norm_num) (by norm_num)
      (by norm_num) (by norm_num) (by norm_num [sinP]) (by norm_num [sinP])
    exact ⟨by linarith only [h.1, h.2], by linarith only [h.1, h.2]⟩
  have hI32 : ((8625321207 : ℝ) / 20000000000) ≤ ss_cos (((161130164061 : ℝ) / 2500000000)) ∧ ss_cos (((161130164061 : ℝ) / 2500000000)) ≤ ((10781651509 : ℝ) / 25000000000) := by
    rw [ss_cos_shift90]
    have h := ss_sin_boundsNeg (((161130164061 : ℝ) / 2500000000) - 90) ((-63869835939 : ℝ) / 2500000000) ((-63869835939 : ℝ) / 2500000000) ((222947785969 : ℝ) / 500000000000) ((17 : ℝ) / 50000000000000) ((-10781651509 : ℝ) / 25000000000) ((-8625321207 : ℝ) / 20000000000)
      (by norm_num) (by norm_num)
      (by norm_num) (by norm_num) (by norm_num) (by norm_num)
      (by norm_num) (by norm_num) (by norm_num [sinP]) (by norm_num [sinP])
    exact ⟨by linarith only [h.1, h.2], by linarith only [h.1, h.2]⟩
  have hI33 : ((25780826227 : ℝ) / 400000000) ≤ ss_acos (cosH 51.41416666 118 (⟨2022, 11, 22⟩ : Date) "official" true) ∧ ss_acos (cosH 51.41416666 118 (⟨2022, 11, 22⟩ : Date) "official" true) ≤ ((161130164061 : ℝ) / 2500000000) := by
    constructor
    · exact ss_acos_ge (by norm_num) (by norm_num) (by linarith only [hI31.1, hI15.2])
    · exact ss_acos_le (by norm_num) (by norm_num) (by linarith only [hI32.2, hI15.1])
  have hI34 : ((738869835939 : ℝ) / 2500000000) ≤ hourAngleDeg 51.41416666 118 (⟨2022, 11, 22⟩ : Date) "official" true ∧ hourAngleDeg 51.41416666 118 (⟨2022, 11, 22⟩ : Date) "official" true ≤ ((118219173773 : ℝ) / 400000000) := by
    unfold hourAngleDeg
    rw [if_pos rfl]
    exact ⟨by linarith only [hI33.1, hI33.2], by linarith only [hI33.1, hI33.2]⟩
  have hI35 : ((74691577701 : ℝ) / 10000000000) ≤ localMeanTime 51.41416666 118 (⟨2022, 11, 22⟩ : Date) "official" true ∧ localMeanTime 51.41416666 118 (⟨2022, 11, 22⟩ : Date) "official" true ≤ ((37345789077 : ℝ) / 5000000000) := by
    unfold localMeanTime
    constructor <;> linarith only [hI34.1, hI34.2, hI30.1, hI30.2, hI2]
  have hI36 : ((-1987544483 : ℝ) / 5000000000) ≤ utcPre 51.41416666 118 (⟨2022, 11, 22⟩ : Date) "official" true ∧ utcPre 51.41416666 118 (⟨2022, 11, 22⟩ : Date) "official" true ≤ ((-31055379 : ℝ) / 78125000) := by
    unfold utcPre lngHour
    constructor <;> linarith only [hI35.1, hI35.2]
  have hI37 : ((118012455517 : ℝ) / 5000000000) ≤ utcWrapped 51.41416666 118 (⟨2022, 11, 22⟩ : Date) "official" true ∧ utcWrapped 51.41416666 118 (⟨2022, 11, 22⟩ : Date) "official" true ≤ ((1843944621 : ℝ) / 78125000) := by
    unfold utcWrapped
    rw [if_neg (not_lt.mpr (by linarith only [hI36.2] : utcPre 51.41416666 118 (⟨2022, 11, 22⟩ : Date) "official" true ≤ 24.0)), if_pos (by linarith only [hI36.2] : utcPre 51.41416666 118 (⟨2022, 11, 22⟩ : Date) "official" true < 0.0)]
    exact ⟨by linarith only [hI36.1], by linarith only [hI36.2]⟩
  have hI38 : localHour 51.41416666 118 (⟨2022, 11, 22⟩ : Date) "official" true = (23 : ℤ) := by
    unfold localHour
    exact pyTrunc_eval 23 (by norm_num) (by push_cast; linarith only [hI37.1]) (by push_cast; linarith only [hI37.2])
  have hI39 : ((localHour 51.41416666 118 (⟨2022, 11, 22⟩ : Date) "official" true : ℤ) : ℝ) = 23 := by
    rw [hI38]
    norm_num
  have hI40 : 0 ≤ localMinute 51.41416666 118 (⟨2022, 11, 22⟩ : Date) "official" true ∧ localMinute 51.41416666 118 (⟨2022, 11, 22⟩ : Date) "official" true ≤ 59 := by
    unfold localMinute
    rw [hI39]
    exact pyTrunc_range 59 (by linarith only [hI37.1]) (by push_cast; linarith only [hI37.2])
  have hI41 : ((localMinute 51.41416666 118 (⟨2022, 11, 22⟩ : Date) "official" true : ℤ) : ℝ) ≤ (utcWrapped 51.41416666 118 (⟨2022, 11, 22⟩ : Date) "official" true - 23) * 60.0 ∧ (utcWrapped 51.41416666 118 (⟨2022, 11, 22⟩ : Date) "official" true - 23) * 60.0 < ((localMinute 51.41416666 118 (⟨2022, 11, 22⟩ : Date) "official" true : ℤ) : ℝ) + 1 := by
    unfold localMinute
    rw [hI39]
    exact pyTrunc_bracket (by linarith only [hI37.1])
  have hI42 : 0 ≤ localSecond 51.41416666 118 (⟨2022, 11, 22⟩ : Date) "official" true ∧ localSecond 51.41416666 118 (⟨2022, 11, 22⟩ : Date) "official" true ≤ 59 := by
    unfold localSecond
    rw [hI39]
    exact pyTrunc_range 59 (by linarith only [hI41.1]) (by push_cast; linarith only [hI41.2])
  unfold ss_calc
  rw [if_pos (abs_le.mpr ⟨by linarith only [hI9.1], by linarith only [hI9.2]⟩)]
  rw [if_pos (abs_le.mpr ⟨by linarith only [hI15.1], by linarith only [hI15.2]⟩)]
  rw [hI38]
  exact pyDatetime_hour _ _ _ _ _ _ _ (by decide) (by decide) (by decide) (by decide) (by decide) (by decide) (by decide) (by decide) hI40.1 hI40.2 hI42.1 hI42.2

set_option maxHeartbeats 4000000 in
theorem eval_lonm20_nov22_hour :
    (ss_calc 51.41416666 (-20) (⟨2022, 11, 22⟩ : Date) "official" true).map PyDatetime.hour = Except.ok (8 : ℤ) := by
  have hJ1 : dayOfYearN (⟨2022, 11, 22⟩ : Date) = 326 := by decide
  have hJ2 : approxT (-20) (⟨2022, 11, 22⟩ : Date) true = ((11747 : ℝ) / 36) := by
    unfold approxT lngHour
    rw [hJ1]
    rw [if_pos rfl]
    norm_num
  have hJ3 : meanAnomaly (-20) (⟨2022, 11, 22⟩ : Date) true = ((581343305289269 : ℝ) / 1826298179000) := by
    unfold meanAnomaly
    rw [hJ2]
    norm_num
  have hJ4 : ((-13299954919 : ℝ) / 20000000000) ≤ ss_sin (meanAnomaly (-20) (⟨2022, 11, 22⟩ : Date) true) ∧ ss_sin (meanAnomaly (-20) (⟨2022, 11, 22⟩ : Date) true) ≤ ((-33249887297 : ℝ) / 50000000000) := by
    rw [ss_sin_shift360]
    have h := ss_sin_boundsNeg (meanAnomaly (-20) (⟨2022, 11, 22⟩ : Date) true - 360) ((-76124039150731 : ℝ) / 1826298179000) ((-76124039150731 : ℝ) / 1826298179000) ((727490799901 : ℝ) / 1000000000000) ((31 : ℝ) / 50000000000000) ((-13299954919 : ℝ) / 20000000000) ((-33249887297 : ℝ) / 50000000000)
      (by rw [hJ3]; try norm_num) (by rw [hJ3]; try norm_num)
      (by norm_num) (by norm_num) (by norm_num) (by norm_num)
      (by norm_num) (by norm_num) (by norm_num [sinP]) (by norm_num [sinP])
    exact ⟨by linarith only [h.1, h.2], by linarith only [h.1, h.2]⟩
  have hJ5 : ((-99330096741 : ℝ) / 100000000000) ≤ ss_sin (2 * meanAnomaly (-20) (⟨2022, 11, 22⟩ : Date) true) ∧ ss_sin (2 * meanAnomaly (-20) (⟨2022, 11, 22⟩ : Date) true) ≤ ((-4966504837 : ℝ) / 5000000000) := by
    rw [ss_sin_shift360, ss_sin_shift270]
    have h := ss_cos_boundsPos (2 * meanAnomaly (-20) (⟨2022, 11, 22⟩ : Date) true - 360 - 270) ((6059378904269 : ℝ) / 913149089500) ((6059378904269 : ℝ) / 913149089500) ((57907363497 : ℝ) / 500000000000) ((13 : ℝ) / 100000000000000) ((4966504837 : ℝ) / 5000000000) ((99330096741 : ℝ) / 100000000000)
      (by rw [hJ3]; try norm_num) (by rw [hJ3]; try norm_num)
      (by norm_num) (by norm_num) (by norm_num) (by norm_num)
      (by norm_num) (by norm_num) (by norm_num [cosP]) (by norm_num [cosP])
    exact ⟨by linarith only [h.1, h.2], by linarith only [h.1, h.2]⟩
  have hJ6 : ((1199315691661 : ℝ) / 2000000000) ≤ sunTrueLongPre (-20) (⟨2022, 11, 22⟩ : Date) true ∧ sunTrueLongPre (-20) (⟨2022, 11, 22⟩ : Date) true ≤ ((2998289229153 : ℝ) / 5000000000) := by
    unfold sunTrueLongPre
    constructor <;> linarith only [hJ3, hJ4.1, hJ4.2, hJ5.1, hJ5.2]
  have hJ7 : ((479315691661 : ℝ) / 2000000000) ≤ sunTrueLong (-20) (⟨2022, 11, 22⟩ : Date) true ∧ sunTrueLong (-20) (⟨2022, 11, 22⟩ : Date) true ≤ ((1198289229153 : ℝ) / 5000000000) := by
    unfold sunTrueLong
    rw [if_pos (by linarith only [hJ6.1] : sunTrueLongPre (-20) (⟨2022, 11, 22⟩ : Date) true > 360.0)]
    exact ⟨by linarith only [hJ6.1], by linarith only [hJ6.2]⟩
  have hJ8 : ((-43151206067 : ℝ) / 50000000000) ≤ ss_sin (sunTrueLong (-20) (⟨2022, 11, 22⟩ : Date) true) ∧ ss_sin (sunTrueLong (-20) (⟨2022, 11, 22⟩ : Date) true) ≤ ((-86302412133 : ℝ) / 100000000000) := by
    rw [ss_sin_shift270]
    have h := ss_cos_boundsNeg (sunTrueLong (-20) (⟨2022, 11, 22⟩ : Date) true - 270) ((-60684308339 : ℝ) / 2000000000) ((-151710770847 : ℝ) / 5000000000) ((105914098481 : ℝ) / 200000000000) ((1 : ℝ) / 800000000000) ((86302412133 : ℝ) / 100000000000) ((43151206067 : ℝ) / 50000000000)
      (by linarith only [hJ7.1]) (by linarith only [hJ7.2])
      (by norm_num) (by norm_num) (by norm_num) (by norm_num)
      (by norm_num) (by norm_num) (by norm_num [cosP]) (by norm_num [cosP])
    exact ⟨by linarith only [h.1, h.2], by linarith only [h.1, h.2]⟩
  have hJ9 : ((-670563 : ℝ) / 1953125) ≤ sinDec (-20) (⟨2022, 11, 22⟩ : Date) true ∧ sinDec (-20) (⟨2022, 11, 22⟩ : Date) true ≤ ((-3433282559 : ℝ) / 10000000000) := by
    unfold sinDec
    exact ⟨by linarith only [hJ8.1], by linarith only [hJ8.2]⟩
  have hJ10 : ((9208929 : ℝ) / 78125000) ≤ sinDec (-20) (⟨2022, 11, 22⟩ : Date) true ^ 2 ∧ sinDec (-20) (⟨2022, 11, 22⟩ : Date) true ^ 2 ≤ ((589371457 : ℝ) / 5000000000) := by
    have h := mul_bounds_nn hJ9.1 hJ9.2 hJ9.1 hJ9.2 (by norm_num) (by norm_num)
    constructor <;> nlinarith only [h.1, h.2]
  have hJ11 : ((37568619 : ℝ) / 40000000) ≤ cosDec (-20) (⟨2022, 11, 22⟩ : Date) true ∧ cosDec (-20) (⟨2022, 11, 22⟩ : Date) true ≤ ((73376209 : ℝ) / 78125000) := by
    rw [cosDec_sqrt]
    exact sqrt_bounds (by norm_num) (by norm_num) (by nlinarith only [hJ10.1, hJ10.2]) (by nlinarith only [hJ10.1, hJ10.2])
  have hJ12 : ((-536742027 : ℝ) / 2000000000) ≤ sinDec (-20) (⟨2022, 11, 22⟩ : Date) true * ss_sin 51.41416666 ∧ sinDec (-20) (⟨2022, 11, 22⟩ : Date) true * ss_sin 51.41416666 ≤ ((-1341855067 : ℝ) / 5000000000) := by
    have h := mul_bounds_np hJ9.1 hJ9.2 sharedTrig4.1 sharedTrig4.2 (by norm_num) (by norm_num)
    exact ⟨by linarith only [h.1], by linarith only [h.2]⟩
  have hJ13 : ((2538271157 : ℝ) / 10000000000) ≤ ss_cos (zenithDeg "official") - sinDec (-20) (⟨2022, 11, 22⟩ : Date) true * ss_sin 51.41416666 ∧ ss_cos (zenithDeg "official") - sinDec (-20) (⟨2022, 11, 22⟩ : Date) true * ss_sin 51.41416666 ≤ ((2538271159 : ℝ) / 10000000000) := by
    constructor <;> linarith only [sharedTrig1.1, sharedTrig1.2, hJ12.1, hJ12.2]
  have hJ14 : ((732219831 : ℝ) / 1250000000) ≤ cosDec (-20) (⟨2022, 11, 22⟩ : Date) true * ss_cos 51.41416666 ∧ cosDec (-20) (⟨2022, 11, 22⟩ : Date) true * ss_cos 51.41416666 ≤ ((117155173 : ℝ) / 200000000) := by
    have h := mul_bounds_pp hJ11.1 hJ11.2 sharedTrig5.1 sharedTrig5.2 (by norm_num) (by norm_num)
    exact ⟨by linarith only [h.1], by linarith only [h.2]⟩
  have hJ15 : ((16926477 : ℝ) / 39062500) ≤ cosH 51.41416666 (-20) (⟨2022, 11, 22⟩ : Date) "official" true ∧ cosH 51.41416666 (-20) (⟨2022, 11, 22⟩ : Date) "official" true ≤ ((2166589059 : ℝ) / 5000000000) := by
    unfold cosH
    constructor
    · apply le_div_of_pos (by linarith only [hJ14.1])
      linarith only [hJ13.1, hJ13.2, hJ14.1, hJ14.2]
    · apply div_le_of_pos (by linarith only [hJ14.1])
      linarith only [hJ13.1, hJ13.2, hJ14.1, hJ14.2]
  have hJ16 : ((-1262906781 : ℝ) / 2500000000) ≤ ss_cos (sunTrueLong (-20) (⟨2022, 11, 22⟩ : Date) true) ∧ ss_cos (sunTrueLong (-20) (⟨2022, 11, 22⟩ : Date) true) ≤ ((-50516271239 : ℝ) / 100000000000) := by
    rw [ss_cos_shift270]
    have h := ss_sin_boundsNeg (sunTrueLong (-20) (⟨2022, 11, 22⟩ : Date) true - 270) ((-60684308339 : ℝ) / 2000000000) ((-151710770847 : ℝ) / 5000000000) ((105914098481 : ℝ) / 200000000000) ((1 : ℝ) / 800000000000) ((-1262906781 : ℝ) / 2500000000) ((-50516271239 : ℝ) / 100000000000)
      (by linarith only [hJ7.1]) (by linarith only [hJ7.2])
      (by norm_num) (by norm_num) (by norm_num) (by norm_num)
      (by norm_num) (by norm_num) (by norm_num [sinP]) (by norm_num [sinP])
    exact ⟨by linarith only [h.1, h.2], by linarith only [h.1, h.2]⟩
  have hJ17 : ((8542041011 : ℝ) / 5000000000) ≤ ss_tan (sunTrueLong (-20) (⟨2022, 11, 22⟩ : Date) true) ∧ ss_tan (sunTrueLong (-20) (⟨2022, 11, 22⟩ : Date) true) ≤ ((17084082023 : ℝ) / 10000000000) := by
    rw [ss_tan_eq]
    constructor
    · apply le_div_of_neg (by linarith only [hJ16.2])
      linarith only [hJ8.1, hJ8.2, hJ16.1, hJ16.2]
    · apply div_le_of_neg (by linarith only [hJ16.2])
      linarith only [hJ8.1, hJ8.2, hJ16.1, hJ16.2]
  have hJ18 : ((7838518513 : ℝ) / 5000000000) ≤ 0.91764 * ss_tan (sunTrueLong (-20) (⟨2022, 11, 22⟩ : Date) true) ∧ 0.91764 * ss_tan (sunTrueLong (-20) (⟨2022, 11, 22⟩ : Date) true) ≤ ((3919259257 : ℝ) / 2500000000) := by
    constructor <;> linarith only [hJ17.1, hJ17.2]
  have hJ19 : ((16861672257 : ℝ) / 20000000000) ≤ ss_sin (((114934377 : ℝ) / 2000000)) ∧ ss_sin (((114934377 : ℝ) / 2000000)) ≤ ((84308361287 : ℝ) / 100000000000) := by
    rw [ss_sin_shift90]
    have h := ss_cos_boundsNeg (((114934377 : ℝ) / 2000000) - 90) ((-65065623 : ℝ) / 2000000) ((-65065623 : ℝ) / 2000000) ((283902337803 : ℝ) / 500000000000) ((33 : ℝ) / 100000000000000) ((16861672257 : ℝ) / 20000000000) ((84308361287 : ℝ) / 100000000000)
      (by norm_num) (by norm_num)
      (by norm_num) (by norm_num) (by norm_num) (by norm_num)
      (by norm_num) (by norm_num) (by norm_num [cosP]) (by norm_num [cosP])
    exact ⟨by linarith only [h.1, h.2], by linarith only [h.1, h.2]⟩
  have hJ20 : ((5377825041 : ℝ) / 10000000000) ≤ ss_cos (((114934377 : ℝ) / 2000000)) ∧ ss_cos (((114934377 : ℝ) / 2000000)) ≤ ((53778250411 : ℝ) / 100000000000) := by
    rw [ss_cos_shift90]
    have h := ss_sin_boundsNeg (((114934377 : ℝ) / 2000000) - 90) ((-65065623 : ℝ) / 2000000) ((-65065623 : ℝ) / 2000000) ((283902337803 : ℝ) / 500000000000) ((33 : ℝ) / 100000000000000) ((-53778250411 : ℝ) / 100000000000) ((-5377825041 : ℝ) / 10000000000)
      (by norm_num) (by norm_num)
      (by norm_num) (by norm_num) (by norm_num) (by norm_num)
      (by norm_num) (by norm_num) (by norm_num [sinP]) (by norm_num [sinP])
    exact ⟨by linarith only [h.1, h.2], by linarith only [h.1, h.2]⟩
  have hJ21 : ((15677036839 : ℝ) / 10000000000) ≤ ss_tan (((114934377 : ℝ) / 2000000)) ∧ ss_tan (((114934377 : ℝ) / 2000000)) ≤ ((15677036841 : ℝ) / 10000000000) := by
    rw [ss_tan_eq]
    constructor
    · apply le_div_of_pos (by linarith only [hJ20.1])
      linarith only [hJ19.1, hJ19.2, hJ20.1, hJ20.2]
    · apply div_le_of_pos (by linarith only [hJ20.1])
      linarith only [hJ19.1, hJ19.2, hJ20.1, hJ20.2]
  have hJ22 : ((84308361867 : ℝ) / 100000000000) ≤ ss_sin (((89792483 : ℝ) / 1562500)) ∧ ss_sin (((89792483 : ℝ) / 1562500)) ≤ ((84308361869 : ℝ) / 100000000000) := by
    rw [ss_sin_shift90]
    have h := ss_cos_boundsNeg (((89792483 : ℝ) / 1562500) - 90) ((-50832517 : ℝ) / 1562500) ((-50832517 : ℝ) / 1562500) ((113560932957 : ℝ) / 200000000000) ((37 : ℝ) / 100000000000000) ((84308361867 : ℝ) / 100000000000) ((84308361869 : ℝ) / 100000000000)
      (by norm_num) (by norm_num)
      (by norm_num) (by norm_num) (by norm_num) (by norm_num)
      (by norm_num) (by norm_num) (by norm_num [cosP]) (by norm_num [cosP])
    exact ⟨by linarith only [h.1, h.2], by linarith only [h.1, h.2]⟩
  have hJ23 : ((26889124749 : ℝ) / 50000000000) ≤ ss_cos (((89792483 : ℝ) / 1562500)) ∧ ss_cos (((89792483 : ℝ) / 1562500)) ≤ ((53778249499 : ℝ) / 100000000000) := by
    rw [ss_cos_shift90]
    have h := ss_sin_boundsNeg (((89792483 : ℝ) / 1562500) - 90) ((-50832517 : ℝ) / 1562500) ((-50832517 : ℝ) / 1562500) ((113560932957 : ℝ) / 200000000000) ((37 : ℝ) / 100000000000000) ((-53778249499 : ℝ) / 100000000000) ((-26889124749 : ℝ) / 50000000000)
      (by norm_num) (by norm_num)
      (by norm_num) (by norm_num) (by norm_num) (by norm_num)
      (by norm_num) (by norm_num) (by norm_num [sinP]) (by norm_num [sinP])
    exact ⟨by linarith only [h.1, h.2], by linarith only [h.1, h.2]⟩
  have hJ24 : ((15677037213 : ℝ) / 10000000000) ≤ ss_tan (((89792483 : ℝ) / 1562500)) ∧ ss_tan (((89792483 : ℝ) / 1562500)) ≤ ((3135407443 : ℝ) / 2000000000) := by
    rw [ss_tan_eq]
    constructor
    · apply le_div_of_pos (by linarith only [hJ23.1])
      linarith only [hJ22.1, hJ22.2, hJ23.1, hJ23.2]
    · apply div_le_of_pos (by linarith only [hJ23.1])
      linarith only [hJ22.1, hJ22.2, hJ23.1, hJ23.2]
  have hJ25 : ((114934377 : ℝ) / 2000000) ≤ rightAscensionRaw (-20) (⟨2022, 11, 22⟩ : Date) true ∧ rightAscensionRaw (-20) (⟨2022, 11, 22⟩ : Date) true ≤ ((89792483 : ℝ) / 1562500) := by
    unfold rightAscensionRaw
    constructor
    · exact ss_atan_ge (by rw [abs_lt]; constructor <;> norm_num) (by linarith only [hJ21.2, hJ18.1])
    · exact ss_atan_le (by rw [abs_lt]; constructor <;> norm_num) (by linarith only [hJ24.1, hJ18.2])
  have hJ26 : ((114934377 : ℝ) / 2000000) ≤ rightAscensionNorm (-20) (⟨2022, 11, 22⟩ : Date) true ∧ rightAscensionNorm (-20) (⟨2022, 11, 22⟩ : Date) true ≤ ((89792483 : ℝ) / 1562500) := by
    unfold rightAscensionNorm
    rw [if_neg (not_lt.mpr (by linarith only [hJ25.2] : rightAscensionRaw (-20) (⟨2022, 11, 22⟩ : Date) true ≤ 360.0)), if_neg (not_lt.mpr (by linarith only [hJ25.1] : 0.0 ≤ rightAscensionRaw (-20) (⟨2022, 11, 22⟩ : Date) true))]
    exact ⟨by linarith only [hJ25.1], by linarith only [hJ25.2]⟩
  have hJ27 : ⌊sunTrueLong (-20) (⟨2022, 11, 22⟩ : Date) true / 90.0⌋ = (2 : ℤ) := by
    rw [Int.floor_eq_iff]
    constructor
    · push_cast
      linarith only [hJ7.1]
    · push_cast
      linarith only [hJ7.2]
  have hJ28 : ⌊rightAscensionNorm (-20) (⟨2022, 11, 22⟩ : Date) true / 90.0⌋ = (0 : ℤ) := by
    rw [Int.floor_eq_iff]
    constructor
    · push_cast
      linarith only [hJ26.1]
    · push_cast
      linarith only [hJ26.2]
  have hJ29 : ((474934377 : ℝ) / 2000000) ≤ rightAscensionQuad (-20) (⟨2022, 11, 22⟩ : Date) true ∧ rightAscensionQuad (-20) (⟨2022, 11, 22⟩ : Date) true ≤ ((371042483 : ℝ) / 1562500) := by
    unfold rightAscensionQuad
    rw [hJ27, hJ28]
    push_cast
    constructor <;> linarith only [hJ26.1, hJ26.2]
  have hJ30 : ((158311459 : ℝ) / 10000000) ≤ rightAscensionHours (-20) (⟨2022, 11, 22⟩ : Date) true ∧ rightAscensionHours (-20) (⟨2022, 11, 22⟩ : Date) true ≤ ((79155729707 : ℝ) / 5000000000) := by
    unfold rightAscensionHours
    exact ⟨by linarith only [hJ29.1], by linarith only [hJ29.2]⟩
  have hJ31 : ((677059081 : ℝ) / 1562500000) ≤ ss_cos (((321608490761 : ℝ) / 5000000000)) ∧ ss_cos (((321608490761 : ℝ) / 5000000000)) ≤ ((21665890593 : ℝ) / 50000000000) := by
    rw [ss_cos_shift90]
    have h := ss_sin_boundsNeg (((321608490761 : ℝ) / 5000000000) - 90) ((-128391509239 : ℝ) / 5000000000) ((-128391509239 : ℝ) / 5000000000) ((224085456783 : ℝ) / 500000000000) ((19 : ℝ) / 20000000000000) ((-21665890593 : ℝ) / 50000000000) ((-677059081 : ℝ) / 1562500000)
      (by norm_num) (by norm_num)
      (by norm_num) (by norm_num) (by norm_num) (by norm_num)
      (by norm_num) (by norm_num) (by norm_num [sinP]) (by norm_num [sinP])
    exact ⟨by linarith only [h.1, h.2], by linarith only [h.1, h.2]⟩
  have hJ32 : ((8666356223 : ℝ) / 20000000000) ≤ ss_cos (((128643396393 : ℝ) / 2000000000)) ∧ ss_cos (((128643396393 : ℝ) / 2000000000)) ≤ ((10832945279 : ℝ) / 25000000000) := by
    rw [ss_cos_shift90]
    have h := ss_sin_boundsNeg (((128643396393 : ℝ) / 2000000000) - 90) ((-51356603607 : ℝ) / 2000000000) ((-51356603607 : ℝ) / 2000000000) ((56021364099 : ℝ) / 125000000000) ((13 : ℝ) / 100000000000000) ((-10832945279 : ℝ) / 25000000000) ((-8666356223 : ℝ) / 20000000000)
      (by norm_num) (by norm_num)
      (by norm_num) (by norm_num) (by norm_num) (by norm_num)
      (by norm_num) (by norm_num) (by norm_num [sinP]) (by norm_num [sinP])
    exact ⟨by linarith only [h.1, h.2], by linarith only [h.1, h.2]⟩
  have hJ33 : ((321608490761 : ℝ) / 5000000000) ≤ ss_acos (cosH 51.41416666 (-20) (⟨2022, 11, 22⟩ : Date) "official" true) ∧ ss_acos (cosH 51.41416666 (-20) (⟨2022, 11, 22⟩ : Date) "official" true) ≤ ((128643396393 : ℝ) / 2000000000) := by
    constructor
    · exact ss_acos_ge (by norm_num) (by norm_num) (by linarith only [hJ31.1, hJ15.2])
    · exact ss_acos_le (by norm_num) (by norm_num) (by linarith only [hJ32.2, hJ15.1])
  have hJ34 : ((591356603607 : ℝ) / 2000000000) ≤ hourAngleDeg 51.41416666 (-20) (⟨2022, 11, 22⟩ : Date) "official" true ∧ hourAngleDeg 51.41416666 (-20) (⟨2022, 11, 22⟩ : Date) "official" true ≤ ((1478391509239 : ℝ) / 5000000000) := by
    unfold hourAngleDeg
    rw [if_pos rfl]
    exact ⟨by linarith only [hJ33.1, hJ33.2], by linarith only [hJ33.1, hJ33.2]⟩
  have hJ35 : ((74794946313 : ℝ) / 10000000000) ≤ localMeanTime 51.41416666 (-20) (⟨2022, 11, 22⟩ : Date) "official" true ∧ localMeanTime 51.41416666 (-20) (⟨2022, 11, 22⟩ : Date) "official" true ≤ ((74794946757 : ℝ) / 10000000000) := by
    unfold localMeanTime
    constructor <;> linarith only [hJ34.1, hJ34.2, hJ30.1, hJ30.2, hJ2]
  have hJ36 : ((44064139823 : ℝ) / 5000000000) ≤ utcPre 51.41416666 (-20) (⟨2022, 11, 22⟩ : Date) "official" true ∧ utcPre 51.41416666 (-20) (⟨2022, 11, 22⟩ : Date) "official" true ≤ ((88128280091 : ℝ) / 10000000000) := by
    unfold utcPre lngHour
    constructor <;> linarith only [hJ35.1, hJ35.2]
  have hJ37 : ((44064139823 : ℝ) / 5000000000) ≤ utcWrapped 51.41416666 (-20) (⟨2022, 11, 22⟩ : Date) "official" true ∧ utcWrapped 51.41416666 (-20) (⟨2022, 11, 22⟩ : Date) "official" true ≤ ((88128280091 : ℝ) / 10000000000) := by
    unfold utcWrapped
    rw [if_neg (not_lt.mpr (by linarith only [hJ36.2] : utcPre 51.41416666 (-20) (⟨2022, 11, 22⟩ : Date) "official" true ≤ 24.0)), if_neg (not_lt.mpr (by linarith only [hJ36.1] : 0.0 ≤ utcPre 51.41416666 (-20) (⟨2022, 11, 22⟩ : Date) "official" true))]
    exact ⟨by linarith only [hJ36.1], by linarith only [hJ36.2]⟩
  have hJ38 : localHour 51.41416666 (-20) (⟨2022, 11, 22⟩ : Date) "official" true = (8 : ℤ) := by
    unfold localHour
    exact pyTrunc_eval 8 (by norm_num) (by push_cast; linarith only [hJ37.1]) (by push_cast; linarith only [hJ37.2])
  have hJ39 : ((localHour 51.41416666 (-20) (⟨2022, 11, 22⟩ : Date) "official" true : ℤ) : ℝ) = 8 := by
    rw [hJ38]
    norm_num
  have hJ40 : 0 ≤ localMinute 51.41416666 (-20) (⟨2022, 11, 22⟩ : Date) "official" true ∧ localMinute 51.41416666 (-20) (⟨2022, 11, 22⟩ : Date) "official" true ≤ 59 := by
    unfold localMinute
    rw [hJ39]
    exact pyTrunc_range 59 (by linarith only [hJ37.1]) (by push_cast; linarith only [hJ37.2])
  have hJ41 : ((localMinute 51.41416666 (-20) (⟨2022, 11, 22⟩ : Date) "official" true : ℤ) : ℝ) ≤ (utcWrapped 51.41416666 (-20) (⟨2022, 11, 22⟩ : Date) "official" true - 8) * 60.0 ∧ (utcWrapped 51.41416666 (-20) (⟨2022, 11, 22⟩ : Date) "official" true - 8) * 60.0 < ((localMinute 51.41416666 (-20) (⟨2022, 11, 22⟩ : Date) "official" true : ℤ) : ℝ) + 1 := by
    unfold localMinute
    rw [hJ39]
    exact pyTrunc_bracket (by linarith only [hJ37.1])
  have hJ42 : 0 ≤ localSecond 51.41416666 (-20) (⟨2022, 11, 22⟩ : Date) "official" true ∧ localSecond 51.41416666 (-20) (⟨2022, 11, 22⟩ : Date) "official" true ≤ 59 := by
    unfold localSecond
    rw [hJ39]
    exact pyTrunc_range 59 (by linarith only [hJ41.1]) (by push_cast; linarith only [hJ41.2])
  unfold ss_calc
  rw [if_pos (abs_le.mpr ⟨by linarith only [hJ9.1], by linarith only [hJ9.2]⟩)]
  rw [if_pos (abs_le.mpr ⟨by linarith only [hJ15.1], by linarith only [hJ15.2]⟩)]
  rw [hJ38]
  exact pyDatetime_hour _ _ _ _ _ _ _ (by decide) (by decide) (by decide) (by decide) (by decide) (by decide) (by decide) (by decide) hJ40.1 hJ40.2 hJ42.1 hJ42.2

set_option maxHeartbeats 4000000 in
theorem eval_lon20_nov22_hour :
    (ss_calc 51.41416666 20 (⟨2022, 11, 22⟩ : Date) "official" true).map PyDatetime.hour = Except.ok (6 : ℤ) := by
  have hK1 : dayOfYearN (⟨2022, 11, 22⟩ : Date) = 326 := by decide
  have hK2 : approxT 20 (⟨2022, 11, 22⟩ : Date) true = ((11743 : ℝ) / 36) := by
    unfold approxT lngHour
    rw [hK1]
    rw [if_pos rfl]
    norm_num
  have hK3 : meanAnomaly 20 (⟨2022, 11, 22⟩ : Date) true = ((581143305289269 : ℝ) / 1826298179000) := by
    unfold meanAnomaly
    rw [hK2]
    norm_num
  have hK4 : ((-16660599959 : ℝ) / 25000000000) ≤ ss_sin (meanAnomaly 20 (⟨2022, 11, 22⟩ : Date) true) ∧ ss_sin (meanAnomaly 20 (⟨2022, 11, 22⟩ : Date) true) ≤ ((-33321199917 : ℝ) / 50000000000) := by
    rw [ss_sin_shift360]
    have h := ss_sin_boundsNeg (meanAnomaly 20 (⟨2022, 11, 22⟩ : Date) true - 360) ((-76324039150731 : ℝ) / 1826298179000) ((-76324039150731 : ℝ) / 1826298179000) ((45587633119 : ℝ) / 62500000000) ((3 : ℝ) / 5000000000000) ((-16660599959 : ℝ) / 25000000000) ((-33321199917 : ℝ) / 50000000000)
      (by rw [hK3]; try norm_num) (by rw [hK3]; try norm_num)
      (by norm_num) (by norm_num) (by norm_num) (by norm_num)
      (by norm_num) (by norm_num) (by norm_num [sinP]) (by norm_num [sinP])
    exact ⟨by linarith only [h.1, h.2], by linarith only [h.1, h.2]⟩
  have hK5 : ((-4968677201 : ℝ) / 5000000000) ≤ ss_sin (2 * meanAnomaly 20 (⟨2022, 11, 22⟩ : Date) true) ∧ ss_sin (2 * meanAnomaly 20 (⟨2022, 11, 22⟩ : Date) true) ≤ ((-99373544019 : ℝ) / 100000000000) := by
    rw [ss_sin_shift360, ss_sin_shift270]
    have h := ss_cos_boundsPos (2 * meanAnomaly 20 (⟨2022, 11, 22⟩ : Date) true - 360 - 270) ((5859378904269 : ℝ) / 913149089500) ((5859378904269 : ℝ) / 913149089500) ((27998016747 : ℝ) / 250000000000) ((9 : ℝ) / 100000000000000) ((99373544019 : ℝ) / 100000000000) ((4968677201 : ℝ) / 5000000000)
      (by rw [hK3]; try norm_num) (by rw [hK3]; try norm_num)
      (by norm_num) (by norm_num) (by norm_num) (by norm_num)
      (by norm_num) (by norm_num) (by norm_num [cosP]) (by norm_num [cosP])
    exact ⟨by linarith only [h.1, h.2], by linarith only [h.1, h.2]⟩
  have hK6 : ((599545593299 : ℝ) / 1000000000) ≤ sunTrueLongPre 20 (⟨2022, 11, 22⟩ : Date) true ∧ sunTrueLongPre 20 (⟨2022, 11, 22⟩ : Date) true ≤ ((5995455932991 : ℝ) / 10000000000) := by
    unfold sunTrueLongPre
    constructor <;> linarith only [hK3, hK4.1, hK4.2, hK5.1, hK5.2]
  have hK7 : ((239545593299 : ℝ) / 1000000000) ≤ sunTrueLong 20 (⟨2022, 11, 22⟩ : Date) true ∧ sunTrueLong 20 (⟨2022, 11, 22⟩ : Date) true ≤ ((2395455932991 : ℝ) / 10000000000) := by
    unfold sunTrueLong
    rw [if_pos (by linarith only [hK6.1] : sunTrueLongPre 20 (⟨2022, 11, 22⟩ : Date) true > 360.0)]
    exact ⟨by linarith only [hK6.1], by linarith only [hK6.2]⟩
  have hK8 : ((-86203276287 : ℝ) / 100000000000) ≤ ss_sin (sunTrueLong 20 (⟨2022, 11, 22⟩ : Date) true) ∧ ss_sin (sunTrueLong 20 (⟨2022, 11, 22⟩ : Date) true) ≤ ((-43101638143 : ℝ) / 50000000000) := by
    rw [ss_sin_shift270]
    have h := ss_cos_boundsNeg (sunTrueLong 20 (⟨2022, 11, 22⟩ : Date) true - 270) ((-30454406701 : ℝ) / 1000000000) ((-304544067009 : ℝ) / 10000000000) ((265764834337 : ℝ) / 500000000000) ((47 : ℝ) / 25000000000000) ((43101638143 : ℝ) / 50000000000) ((86203276287 : ℝ) / 100000000000)
      (by linarith only [hK7.1]) (by linarith only [hK7.2])
      (by norm_num) (by norm_num) (by norm_num) (by norm_num)
      (by norm_num) (by norm_num) (by norm_num [cosP]) (by norm_num [cosP])
    exact ⟨by linarith only [h.1, h.2], by linarith only [h.1, h.2]⟩
  have hK9 : ((-1714669369 : ℝ) / 5000000000) ≤ sinDec 20 (⟨2022, 11, 22⟩ : Date) true ∧ sinDec 20 (⟨2022, 11, 22⟩ : Date) true ≤ ((-3429338737 : ℝ) / 10000000000) := by
    unfold sinDec
    exact ⟨by linarith only [hK8.1], by linarith only [hK8.2]⟩
  have hK10 : ((1176036417 : ℝ) / 10000000000) ≤ sinDec 20 (⟨2022, 11, 22⟩ : Date) true ^ 2 ∧ sinDec 20 (⟨2022, 11, 22⟩ : Date) true ^ 2 ≤ ((588018209 : ℝ) / 5000000000) := by
    have h := mul_bounds_nn hK9.1 hK9.2 hK9.1 hK9.2 (by norm_num) (by norm_num)
    constructor <;> nlinarith only [h.1, h.2]
  have hK11 : ((2348398867 : ℝ) / 2500000000) ≤ cosDec 20 (⟨2022, 11, 22⟩ : Date) true ∧ cosDec 20 (⟨2022, 11, 22⟩ : Date) true ≤ ((9393595469 : ℝ) / 10000000000) := by
    rw [cosDec_sqrt]
    exact sqrt_bounds (by norm_num) (by norm_num) (by nlinarith only [hK10.1, hK10.2]) (by nlinarith only [hK10.1, hK10.2])
  have hK12 : ((-53612547 : ℝ) / 200000000) ≤ sinDec 20 (⟨2022, 11, 22⟩ : Date) true * ss_sin 51.41416666 ∧ sinDec 20 (⟨2022, 11, 22⟩ : Date) true * ss_sin 51.41416666 ≤ ((-670156837 : ℝ) / 2500000000) := by
    have h := mul_bounds_np hK9.1 hK9.2 sharedTrig4.1 sharedTrig4.2 (by norm_num) (by norm_num)
    exact ⟨by linarith only [h.1], by linarith only [h.2]⟩
  have hK13 : ((2535188371 : ℝ) / 10000000000) ≤ ss_cos (zenithDeg "official") - sinDec 20 (⟨2022, 11, 22⟩ : Date) true * ss_sin 51.41416666 ∧ ss_cos (zenithDeg "official") - sinDec 20 (⟨2022, 11, 22⟩ : Date) true * ss_sin 51.41416666 ≤ ((1267594187 : ℝ) / 5000000000) := by
    constructor <;> linarith only [sharedTrig1.1, sharedTrig1.2, hK12.1, hK12.2]
  have hK14 : ((1464664301 : ℝ) / 2500000000) ≤ cosDec 20 (⟨2022, 11, 22⟩ : Date) true * ss_cos 51.41416666 ∧ cosDec 20 (⟨2022, 11, 22⟩ : Date) true * ss_cos 51.41416666 ≤ ((1171731441 : ℝ) / 2000000000) := by
    have h := mul_bounds_pp hK11.1 hK11.2 sharedTrig5.1 sharedTrig5.2 (by norm_num) (by norm_num)
    exact ⟨by linarith only [h.1], by linarith only [h.2]⟩
  have hK15 : ((432725159 : ℝ) / 1000000000) ≤ cosH 51.41416666 20 (⟨2022, 11, 22⟩ : Date) "official" true ∧ cosH 51.41416666 20 (⟨2022, 11, 22⟩ : Date) "official" true ≤ ((4327251597 : ℝ) / 10000000000) := by
    unfold cosH
    constructor
    · apply le_div_of_pos (by linarith only [hK14.1])
      linarith only [hK13.1, hK13.2, hK14.1, hK14.2]
    · apply div_le_of_pos (by linarith only [hK14.1])
      linarith only [hK13.1, hK13.2, hK14.1, hK14.2]
  have hK16 : ((-2534262791 : ℝ) / 5000000000) ≤ ss_cos (sunTrueLong 20 (⟨2022, 11, 22⟩ : Date) true) ∧ ss_cos (sunTrueLong 20 (⟨2022, 11, 22⟩ : Date) true) ≤ ((-50685255819 : ℝ) / 100000000000) := by
    rw [ss_cos_shift270]
    have h := ss_sin_boundsNeg (sunTrueLong 20 (⟨2022, 11, 22⟩ : Date) true - 270) ((-30454406701 : ℝ) / 1000000000) ((-304544067009 : ℝ) / 10000000000) ((265764834337 : ℝ) / 500000000000) ((47 : ℝ) / 25000000000000) ((-2534262791 : ℝ) / 5000000000) ((-50685255819 : ℝ) / 100000000000)
      (by linarith only [hK7.1]) (by linarith only [hK7.2])
      (by norm_num) (by norm_num) (by norm_num) (by norm_num)
      (by norm_num) (by norm_num) (by norm_num [sinP]) (by norm_num [sinP])
    exact ⟨by linarith only [h.1, h.2], by linarith only [h.1, h.2]⟩
  have hK17 : ((4251891151 : ℝ) / 2500000000) ≤ ss_tan (sunTrueLong 20 (⟨2022, 11, 22⟩ : Date) true) ∧ ss_tan (sunTrueLong 20 (⟨2022, 11, 22⟩ : Date) true) ≤ ((8503782303 : ℝ) / 5000000000) := by
    rw [ss_tan_eq]
    constructor
    · apply le_div_of_neg (by linarith only [hK16.2])
      linarith only [hK8.1, hK8.2, hK16.1, hK16.2]
    · apply div_le_of_neg (by linarith only [hK16.2])
      linarith only [hK8.1, hK8.2, hK16.1, hK16.2]
  have hK18 : ((15606821583 : ℝ) / 10000000000) ≤ 0.91764 * ss_tan (sunTrueLong 20 (⟨2022, 11, 22⟩ : Date) true) ∧ 0.91764 * ss_tan (sunTrueLong 20 (⟨2022, 11, 22⟩ : Date) true) ≤ ((7803410793 : ℝ) / 5000000000) := by
    constructor <;> linarith only [hK17.1, hK17.2]
  have hK19 : ((84198630249 : ℝ) / 100000000000) ≤ ss_sin (((716880831 : ℝ) / 12500000)) ∧ ss_sin (((716880831 : ℝ) / 12500000)) ≤ ((336794521 : ℝ) / 400000000) := by
    rw [ss_sin_shift90]
    have h := ss_cos_boundsNeg (((716880831 : ℝ) / 12500000) - 90) ((-408119169 : ℝ) / 12500000) ((-408119169 : ℝ) / 12500000) ((113968371833 : ℝ) / 200000000000) ((3 : ℝ) / 4000000000000) ((84198630249 : ℝ) / 100000000000) ((336794521 : ℝ) / 400000000)
      (by norm_num) (by norm_num)
      (by norm_num) (by norm_num) (by norm_num) (by norm_num)
      (by norm_num) (by norm_num) (by norm_num [cosP]) (by norm_num [cosP])
    exact ⟨by linarith only [h.1, h.2], by linarith only [h.1, h.2]⟩
  have hK20 : ((26974945153 : ℝ) / 50000000000) ≤ ss_cos (((716880831 : ℝ) / 12500000)) ∧ ss_cos (((716880831 : ℝ) / 12500000)) ≤ ((53949890307 : ℝ) / 100000000000) := by
    rw [ss_cos_shift90]
    have h := ss_sin_boundsNeg (((716880831 : ℝ) / 12500000) - 90) ((-408119169 : ℝ) / 12500000) ((-408119169 : ℝ) / 12500000) ((113968371833 : ℝ) / 200000000000) ((3 : ℝ) / 4000000000000) ((-53949890307 : ℝ) / 100000000000) ((-26974945153 : ℝ) / 50000000000)
      (by norm_num) (by norm_num)
      (by norm_num) (by norm_num) (by norm_num) (by norm_num)
      (by norm_num) (by norm_num) (by norm_num [sinP]) (by norm_num [sinP])
    exact ⟨by linarith only [h.1, h.2], by linarith only [h.1, h.2]⟩
  have hK21 : ((7803410699 : ℝ) / 5000000000) ≤ ss_tan (((716880831 : ℝ) / 12500000)) ∧ ss_tan (((716880831 : ℝ) / 12500000)) ≤ ((15606821399 : ℝ) / 10000000000) := by
    rw [ss_tan_eq]
    constructor
    · apply le_div_of_pos (by linarith only [hK20.1])
      linarith only [hK19.1, hK19.2, hK20.1, hK20.2]
    · apply div_le_of_pos (by linarith only [hK20.1])
      linarith only [hK19.1, hK19.2, hK20.1, hK20.2]
  have hK22 : ((84198630833 : ℝ) / 100000000000) ≤ ss_sin (((573504671 : ℝ) / 10000000)) ∧ ss_sin (((573504671 : ℝ) / 10000000)) ≤ ((42099315417 : ℝ) / 50000000000) := by
    rw [ss_sin_shift90]
    have h := ss_cos_boundsNeg (((573504671 : ℝ) / 10000000) - 90) ((-326495329 : ℝ) / 10000000) ((-326495329 : ℝ) / 10000000) ((71230231043 : ℝ) / 125000000000) ((79 : ℝ) / 100000000000000) ((84198630833 : ℝ) / 100000000000) ((42099315417 : ℝ) / 50000000000)
      (by norm_num) (by norm_num)
      (by norm_num) (by norm_num) (by norm_num) (by norm_num)
      (by norm_num) (by norm_num) (by norm_num [cosP]) (by norm_num [cosP])
    exact ⟨by linarith only [h.1, h.2], by linarith only [h.1, h.2]⟩
  have hK23 : ((10789977879 : ℝ) / 20000000000) ≤ ss_cos (((573504671 : ℝ) / 10000000)) ∧ ss_cos (((573504671 : ℝ) / 10000000)) ≤ ((13487472349 : ℝ) / 25000000000) := by
    rw [ss_cos_shift90]
    have h := ss_sin_boundsNeg (((573504671 : ℝ) / 10000000) - 90) ((-326495329 : ℝ) / 10000000) ((-326495329 : ℝ) / 10000000) ((71230231043 : ℝ) / 125000000000) ((79 : ℝ) / 100000000000000) ((-13487472349 : ℝ) / 25000000000) ((-10789977879 : ℝ) / 20000000000)
      (by norm_num) (by norm_num)
      (by norm_num) (by norm_num) (by norm_num) (by norm_num)
      (by norm_num) (by norm_num) (by norm_num [sinP]) (by norm_num [sinP])
    exact ⟨by linarith only [h.1, h.2], by linarith only [h.1, h.2]⟩
  have hK24 : ((1560682177 : ℝ) / 1000000000) ≤ ss_tan (((573504671 : ℝ) / 10000000)) ∧ ss_tan (((573504671 : ℝ) / 10000000)) ≤ ((15606821771 : ℝ) / 10000000000) := by
    rw [ss_tan_eq]
    constructor
    · apply le_div_of_pos (by linarith only [hK23.1])
      linarith only [hK22.1, hK22.2, hK23.1, hK23.2]
    · apply div_le_of_pos (by linarith only [hK23.1])
      linarith only [hK22.1, hK22.2, hK23.1, hK23.2]
  have hK25 : ((716880831 : ℝ) / 12500000) ≤ rightAscensionRaw 20 (⟨2022, 11, 22⟩ : Date) true ∧ rightAscensionRaw 20 (⟨2022, 11, 22⟩ : Date) true ≤ ((573504671 : ℝ) / 10000000) := by
    unfold rightAscensionRaw
    constructor
    · exact ss_atan_ge (by rw [abs_lt]; constructor <;> norm_num) (by linarith only [hK21.2, hK18.1])
    · exact ss_atan_le (by rw [abs_lt]; constructor <;> norm_num) (by linarith only [hK24.1, hK18.2])
  have hK26 : ((716880831 : ℝ) / 12500000) ≤ rightAscensionNorm 20 (⟨2022, 11, 22⟩ : Date) true ∧ rightAscensionNorm 20 (⟨2022, 11, 22⟩ : Date) true ≤ ((573504671 : ℝ) / 10000000) := by
    unfold rightAscensionNorm
    rw [if_neg (not_lt.mpr (by linarith only [hK25.2] : rightAscensionRaw 20 (⟨2022, 11, 22⟩ : Date) true ≤ 360.0)), if_neg (not_lt.mpr (by linarith only [hK25.1] : 0.0 ≤ rightAscensionRaw 20 (⟨2022, 11, 22⟩ : Date) true))]
    exact ⟨by linarith only [hK25.1], by linarith only [hK25.2]⟩
  have hK27 : ⌊sunTrueLong 20 (⟨2022, 11, 22⟩ : Date) true / 90.0⌋ = (2 : ℤ) := by
    rw [Int.floor_eq_iff]
    constructor
    · push_cast
      linarith only [hK7.1]
    · push_cast
      linarith only [hK7.2]
  have hK28 : ⌊rightAscensionNorm 20 (⟨2022, 11, 22⟩ : Date) true / 90.0⌋ = (0 : ℤ) := by
    rw [Int.floor_eq_iff]
    constructor
    · push_cast
      linarith only [hK26.1]
    · push_cast
      linarith only [hK26.2]
  have hK29 : ((2966880831 : ℝ) / 12500000) ≤ rightAscensionQuad 20 (⟨2022, 11, 22⟩ : Date) true ∧ rightAscensionQuad 20 (⟨2022, 11, 22⟩ : Date) true ≤ ((2373504671 : ℝ) / 10000000) := by
    unfold rightAscensionQuad
    rw [hK27, hK28]
    push_cast
    constructor <;> linarith only [hK26.1, hK26.2]
  have hK30 : ((988960277 : ℝ) / 62500000) ≤ rightAscensionHours 20 (⟨2022, 11, 22⟩ : Date) true ∧ rightAscensionHours 20 (⟨2022, 11, 22⟩ : Date) true ≤ ((79116822367 : ℝ) / 5000000000) := by
    unfold rightAscensionHours
    exact ⟨by linarith only [hK29.1], by linarith only [hK29.2]⟩
  have hK31 : ((21636257987 : ℝ) / 50000000000) ≤ ss_cos (((643593696443 : ℝ) / 10000000000)) ∧ ss_cos (((643593696443 : ℝ) / 10000000000)) ≤ ((1730900639 : ℝ) / 4000000000) := by
    rw [ss_cos_shift90]
    have h := ss_sin_boundsNeg (((643593696443 : ℝ) / 10000000000) - 90) ((-256406303557 : ℝ) / 10000000000) ((-256406303557 : ℝ) / 10000000000) ((223756710997 : ℝ) / 500000000000) ((3 : ℝ) / 12500000000000) ((-1730900639 : ℝ) / 4000000000) ((-21636257987 : ℝ) / 50000000000)
      (by norm_num) (by norm_num)
      (by norm_num) (by norm_num) (by norm_num) (by norm_num)
      (by norm_num) (by norm_num) (by norm_num [sinP]) (by norm_num [sinP])
    exact ⟨by linarith only [h.1, h.2], by linarith only [h.1, h.2]⟩
  have hK32 : ((8654503179 : ℝ) / 20000000000) ≤ ss_cos (((643593696949 : ℝ) / 10000000000)) ∧ ss_cos (((643593696949 : ℝ) / 10000000000)) ≤ ((5409064487 : ℝ) / 12500000000) := by
    rw [ss_cos_shift90]
    have h := ss_sin_boundsNeg (((643593696949 : ℝ) / 10000000000) - 90) ((-256406303051 : ℝ) / 10000000000) ((-256406303051 : ℝ) / 10000000000) ((447513421111 : ℝ) / 1000000000000) ((37 : ℝ) / 100000000000000) ((-5409064487 : ℝ) / 12500000000) ((-8654503179 : ℝ) / 20000000000)
      (by norm_num) (by norm_num)
      (by norm_num) (by norm_num) (by norm_num) (by norm_num)
      (by norm_num) (by norm_num) (by norm_num [sinP]) (by norm_num [sinP])
    exact ⟨by linarith only [h.1, h.2], by linarith only [h.1, h.2]⟩
  have hK33 : ((643593696443 : ℝ) / 10000000000) ≤ ss_acos (cosH 51.41416666 20 (⟨2022, 11, 22⟩ : Date) "official" true) ∧ ss_acos (cosH 51.41416666 20 (⟨2022, 11, 22⟩ : Date) "official" true) ≤ ((643593696949 : ℝ) / 10000000000) := by
    constructor
    · exact ss_acos_ge (by norm_num) (by norm_num) (by linarith only [hK31.1, hK15.2])
    · exact ss_acos_le (by norm_num) (by norm_num) (by linarith only [hK32.2, hK15.1])
  have hK34 : ((2956406303051 : ℝ) / 10000000000) ≤ hourAngleDeg 51.41416666 20 (⟨2022, 11, 22⟩ : Date) "official" true ∧ hourAngleDeg 51.41416666 20 (⟨2022, 11, 22⟩ : Date) "official" true ≤ ((2956406303557 : ℝ) / 10000000000) := by
    unfold hourAngleDeg
    rw [if_pos rfl]
    exact ⟨by linarith only [hK33.1, hK33.2], by linarith only [hK33.1, hK33.2]⟩
  have hK35 : ((18691257103 : ℝ) / 2500000000) ≤ localMeanTime 51.41416666 20 (⟨2022, 11, 22⟩ : Date) "official" true ∧ localMeanTime 51.41416666 20 (⟨2022, 11, 22⟩ : Date) "official" true ≤ ((74765028861 : ℝ) / 10000000000) := by
    unfold localMeanTime
    constructor <;> linarith only [hK34.1, hK34.2, hK30.1, hK30.2, hK2]
  have hK36 : ((30715847539 : ℝ) / 5000000000) ≤ utcPre 51.41416666 20 (⟨2022, 11, 22⟩ : Date) "official" true ∧ utcPre 51.41416666 20 (⟨2022, 11, 22⟩ : Date) "official" true ≤ ((7678961941 : ℝ) / 1250000000) := by
    unfold utcPre lngHour
    constructor <;> linarith only [hK35.1, hK35.2]
  have hK37 : ((30715847539 : ℝ) / 5000000000) ≤ utcWrapped 51.41416666 20 (⟨2022, 11, 22⟩ : Date) "official" true ∧ utcWrapped 51.41416666 20 (⟨2022, 11, 22⟩ : Date) "official" true ≤ ((7678961941 : ℝ) / 1250000000) := by
    unfold utcWrapped
    rw [if_neg (not_lt.mpr (by linarith only [hK36.2] : utcPre 51.41416666 20 (⟨2022, 11, 22⟩ : Date) "official" true ≤ 24.0)), if_neg (not_lt.mpr (by linarith only [hK36.1] : 0.0 ≤ utcPre 51.41416666 20 (⟨2022, 11, 22⟩ : Date) "official" true))]
    exact ⟨by linarith only [hK36.1], by linarith only [hK36.2]⟩
  have hK38 : localHour 51.41416666 20 (⟨2022, 11, 22⟩ : Date) "official" true = (6 : ℤ) := by
    unfold localHour
    exact pyTrunc_eval 6 (by norm_num) (by push_cast; linarith only [hK37.1]) (by push_cast; linarith only [hK37.2])
  have hK39 : ((localHour 51.41416666 20 (⟨2022, 11, 22⟩ : Date) "official" true : ℤ) : ℝ) = 6 := by
    rw [hK38]
    norm_num
  have hK40 : 0 ≤ localMinute 51.41416666 20 (⟨2022, 11, 22⟩ : Date) "official" true ∧ localMinute 51.41416666 20 (⟨2022, 11, 22⟩ : Date) "official" true ≤ 59 := by
    unfold localMinute
    rw [hK39]
    exact pyTrunc_range 59 (by linarith only [hK37.1]) (by push_cast; linarith only [hK37.2])
  have hK41 : ((localMinute 51.41416666 20 (⟨2022, 11, 22⟩ : Date) "official" true : ℤ) : ℝ) ≤ (utcWrapped 51.41416666 20 (⟨2022, 11, 22⟩ : Date) "official" true - 6) * 60.0 ∧ (utcWrapped 51.41416666 20 (⟨2022, 11, 22⟩ : Date) "official" true - 6) * 60.0 < ((localMinute 51.41416666 20 (⟨2022, 11, 22⟩ : Date) "official" true : ℤ) : ℝ) + 1 := by
    unfold localMinute
    rw [hK39]
    exact pyTrunc_bracket (by linarith only [hK37.1])
  have hK42 : 0 ≤ localSecond 51.41416666 20 (⟨2022, 11, 22⟩ : Date) "official" true ∧ localSecond 51.41416666 20 (⟨2022, 11, 22⟩ : Date) "official" true ≤ 59 := by
    unfold localSecond
    rw [hK39]
    exact pyTrunc_range 59 (by linarith only [hK41.1]) (by push_cast; linarith only [hK41.2])
  unfold ss_calc
  rw [if_pos (abs_le.mpr ⟨by linarith only [hK9.1], by linarith only [hK9.2]⟩)]
  rw [if_pos (abs_le.mpr ⟨by linarith only [hK15.1], by linarith only [hK15.2]⟩)]
  rw [hK38]
  exact pyDatetime_hour _ _ _ _ _ _ _ (by decide) (by decide) (by decide) (by decide) (by decide) (by decide) (by decide) (by decide) hK40.1 hK40.2 hK42.1 hK42.2

/-- Claim C1 (code evaluated at the failing input): at latitude 78 N on the
December solstice with the official zenith, `cosH` exceeds 1 and the code
reaches the unchecked `math.acos` call, raising the untyped math-domain
`ValueError` for both the rising and the setting computation, instead of
the typed polar-night domain error the claim requires. -/
theorem C1_polar_night_math_domain_error :
    ss_calc 78 0 (⟨2022, 12, 21⟩ : Date) "official" true =
      Except.error PyError.mathDomainError ∧
    ss_calc 78 0 (⟨2022, 12, 21⟩ : Date) "official" false =
      Except.error PyError.mathDomainError :=
  ⟨eval_lat78_dec21_rising_error, eval_lat78_dec21_setting_error⟩

/-- Claim C3: the recorded test vector: latitude 51.41416666, longitude
−1.515, date 2022-11-22, official zenith; rising returns 07:34:44 UTC and
setting returns 16:08:55 UTC. -/
theorem C3_test_vector :
    ss_calc 51.41416666 (-1.515) (⟨2022, 11, 22⟩ : Date) "official" true =
      Except.ok (⟨2022, 11, 22, 7, 34, 44, Tzinfo.utc⟩ : PyDatetime) ∧
    ss_calc 51.41416666 (-1.515) (⟨2022, 11, 22⟩ : Date) "official" false =
      Except.ok (⟨2022, 11, 22, 16, 8, 55, Tzinfo.utc⟩ : PyDatetime) :=
  ⟨eval_uklat_nov22_rising, eval_uklat_nov22_setting⟩

/-- Claim C4 (counterexample): at latitude 75.894, longitude −180 on
2022-02-08 (official, rising) the pre-wrap UTC value is above 48, so the
single subtract-24 wrap of step 9 leaves it above 24 — the wrap does not
place the value in `[0, 24)` — and the computation then fails in the
`datetime.datetime` constructor instead of returning a timestamp. -/
theorem C4_single_wrap_counterexample :
    24.0 < utcWrapped 75.894 (-180) (⟨2022, 2, 8⟩ : Date) "official" true ∧
    ss_calc 75.894 (-180) (⟨2022, 2, 8⟩ : Date) "official" true =
      Except.error PyError.dateValueError :=
  eval_lat75_feb08_wrap

/-- Claim C8 (counterexample): at latitude 50, longitude 100 on 2022-02-21
with rising true, the astronomical computation returns an hour of 22 while
the official one returns an hour of 0 on the same returned date, so the
astronomical instant is later than the official instant, violating the
claimed ordering (the step-9 wrap carried the official result across the
day boundary without a day carry). -/
theorem C8_wrapped_order_counterexample :
    (ss_calc 50 100 (⟨2022, 2, 21⟩ : Date) "astronomical" true).map PyDatetime.hour =
      Except.ok (22 : ℤ) ∧
    (ss_calc 50 100 (⟨2022, 2, 21⟩ : Date) "official" true).map PyDatetime.hour =
      Except.ok (0 : ℤ) :=
  ⟨eval_lat50_feb21_astronomical_hour, eval_lat50_feb21_official_hour⟩

/-- Claim C9 (counterexample): at latitude 51.41416666 on 2022-11-22
(official, rising) the longitudes 105 < 118 return the hours 0 and 23 on
the same returned date: the timestamp returned for the larger longitude is
later, not earlier (the +24 wrap of step 9 moved the result for longitude
118 across the day boundary without a day carry). -/
theorem C9_longitude_monotonicity_counterexample :
    (ss_calc 51.41416666 105 (⟨2022, 11, 22⟩ : Date) "official" true).map PyDatetime.hour =
      Except.ok (0 : ℤ) ∧
    (ss_calc 51.41416666 118 (⟨2022, 11, 22⟩ : Date) "official" true).map PyDatetime.hour =
      Except.ok (23 : ℤ) :=
  ⟨eval_lon105_nov22_hour, eval_lon118_nov22_hour⟩

/-- Claim C9, amended: on a longitude sweep that stays inside one UTC day
(no step-9 wraparound) the computed sunrise hour decreases as the longitude
increases eastward: at latitude 51.41416666 on 2022-11-22 (official,
rising) the longitudes −20, −1.515 and 20 return the hours 8, 7 and 6.
The unrestricted claim fails when the step-9 ±24-hour wrap crosses a day
boundary. -/
theorem C9_sweep_hours_decrease :
    (ss_calc 51.41416666 (-20) (⟨2022, 11, 22⟩ : Date) "official" true).map PyDatetime.hour =
      Except.ok (8 : ℤ) ∧
    (ss_calc 51.41416666 (-1.515) (⟨2022, 11, 22⟩ : Date) "official" true).map PyDatetime.hour =
      Except.ok (7 : ℤ) ∧
    (ss_calc 51.41416666 20 (⟨2022, 11, 22⟩ : Date) "official" true).map PyDatetime.hour =
      Except.ok (6 : ℤ) :=
  ⟨eval_lonm20_nov22_hour, by rw [eval_uklat_nov22_rising]; rfl, eval_lon20_nov22_hour⟩

end SunriseSunset
